import Mathlib

/-!
# Allwinner (sunxi) display driver: clock solver and bring-up sequencer

A shallow embedding of `drivers/video/sunxi_display.c`.  C `int` values are
modelled as `Int` (with truncating division `Int.tdiv`), `unsigned int`
register values as `Nat` reduced modulo `2^32`, and the four memory-mapped
device blocks as plain memory: a read returns the last value written.
-/

namespace Sunxi

/-! ## Clock divider solver: the search of `sunxi_lcdc_pll_set` -/

/-- The locals `best_n`, `best_m`, `best_diff`, `best_double` of `sunxi_lcdc_pll_set`. -/
structure Best where
  best_n : Int
  best_m : Int
  best_diff : Int
  best_double : Int
deriving DecidableEq, Repr

/-- The C library function `abs` on `int`. -/
def c_abs (x : Int) : Int := if x < 0 then -x else x

/-- Initial values of the search locals: `best_n = 0, best_m = 0,
best_diff = 0x0FFFFFFF, best_double = 0`. -/
def best_init : Best :=
  { best_n := 0, best_m := 0, best_diff := 0x0FFFFFFF, best_double := 0 }

/-- One iteration of the `for (m = 15; m > 0; m--)` loop body of
`sunxi_lcdc_pll_set`, for the given `m`, acting on the search locals. -/
def pll_body (dotclock m : Int) (b : Best) : Best :=
  let n := (m * dotclock).tdiv 3000
  let b :=
    if n > 9 ∧ n < 128 then
      let value := (3000 * n).tdiv m
      let diff := value - dotclock
      let diff := if diff < 0 then -diff else diff
      if diff < b.best_diff then
        { best_diff := diff, best_m := m, best_n := n, best_double := 0 }
      else b
    else b
  let n := n + 1
  let b :=
    if n > 9 ∧ n < 128 then
      let value := (3000 * n).tdiv m
      let diff := c_abs (value - dotclock)
      let diff := if diff < 0 then -diff else diff
      if diff < b.best_diff then
        { best_diff := diff, best_m := m, best_n := n, best_double := 0 }
      else b
    else b
  -- `if (!(m & 1)) continue;`
  if Int.land m 1 = 0 then b
  else
    let n := (m * dotclock).tdiv 6000
    let b :=
      if n > 63 ∧ n < 128 then
        let value := (6000 * n).tdiv m
        let diff := c_abs (value - dotclock)
        let diff := if diff < 0 then -diff else diff
        if diff < b.best_diff then
          { best_diff := diff, best_m := m, best_n := n, best_double := 1 }
        else b
      else b
    let n := n + 1
    let b :=
      if n > 63 ∧ n < 128 then
        let value := (6000 * n).tdiv m
        let diff := c_abs (value - dotclock)
        let diff := if diff < 0 then -diff else diff
        if diff < b.best_diff then
          { best_diff := diff, best_m := m, best_n := n, best_double := 1 }
        else b
      else b
    b

/-- The loop `for (m = k; m > 0; m--)` of `sunxi_lcdc_pll_set`. -/
def pll_loop (dotclock : Int) : Nat → Best → Best
  | 0, b => b
  | k + 1, b => pll_loop dotclock k (pll_body dotclock ((k + 1 : Nat) : Int) b)

/-- The search of `sunxi_lcdc_pll_set` past the range check: the loop from
`m = 15` on the initial locals. -/
def pll_search (dotclock : Int) : Best :=
  pll_loop dotclock 15 best_init

/-- A PLL configuration: multiplier `n`, divisor `m`, doubler flag `dbl`
(non-zero when the doubled 6 MHz base is used). -/
structure Config where
  n : Int
  m : Int
  dbl : Int
deriving DecidableEq, Repr

/-- Frequency in kHz a configuration achieves: `(6000 * n) / m` when doubled,
`(3000 * n) / m` otherwise, with C's truncating division. -/
def achieved (c : Config) : Int :=
  if c.dbl ≠ 0 then (6000 * c.n).tdiv c.m else (3000 * c.n).tdiv c.m

/-- Absolute error of a configuration against the target `d`. -/
def error (d : Int) (c : Config) : Int := |achieved c - d|

/-- The configuration held in the search locals. -/
def chosen (b : Best) : Config := { n := b.best_n, m := b.best_m, dbl := b.best_double }

/-- The multiplier range the search accepts: `n > 63 && n < 128` for a doubled
candidate, `n > 9 && n < 128` otherwise. -/
def legal (c : Config) : Bool :=
  if c.dbl ≠ 0 then decide (63 < c.n ∧ c.n < 128) else decide (9 < c.n ∧ c.n < 128)

/-- Candidates the search tries at divisor `m`, in the order tried: non-doubled
`n = (m*d)/3000`, non-doubled `n+1`, and for odd `m` doubled `n = (m*d)/6000`
and doubled `n+1`; each only when its multiplier is legal. -/
def cands_at (d m : Int) : List Config :=
  ([(⟨(m * d).tdiv 3000, m, 0⟩ : Config), ⟨(m * d).tdiv 3000 + 1, m, 0⟩] ++
    (if m % 2 = 1 then [(⟨(m * d).tdiv 6000, m, 1⟩ : Config), ⟨(m * d).tdiv 6000 + 1, m, 1⟩]
     else [])).filter legal

/-- Candidates tried for divisors `k, k-1, ..., 1`, in the order tried. -/
def enum_upto (d : Int) : Nat → List Config
  | 0 => []
  | k + 1 => cands_at d ((k + 1 : Nat) : Int) ++ enum_upto d k

/-- The whole enumeration of the search: divisors 15 down to 1. -/
def enumerated (d : Int) : List Config := enum_upto d 15

/-- Candidates at divisor `m` as the specification words them: the doubled pair
is listed for every divisor, not only for odd ones. -/
def claimed_cands_at (d m : Int) : List Config :=
  [(⟨(m * d).tdiv 3000, m, 0⟩ : Config), ⟨(m * d).tdiv 3000 + 1, m, 0⟩,
    ⟨(m * d).tdiv 6000, m, 1⟩, ⟨(m * d).tdiv 6000 + 1, m, 1⟩].filter legal

/-- The enumeration as the specification words it, divisors `k` down to 1. -/
def claimed_upto (d : Int) : Nat → List Config
  | 0 => []
  | k + 1 => claimed_cands_at d ((k + 1 : Nat) : Int) ++ claimed_upto d k

/-- The enumeration as the specification words it: divisors 15 down to 1. -/
def claimed_enumeration (d : Int) : List Config := claimed_upto d 15

/-- The earliest candidate of a list whose error equals the minimum error over
the whole list. -/
def earliest_min (d : Int) (l : List Config) : Option Config :=
  l.find? (fun c => decide (∀ x ∈ l, error d c ≤ error d x))

/-- Keep the better of the current locals and a candidate: the update
`if (diff < best_diff) { ... }` of the search. -/
def pick (d : Int) (b : Best) (c : Config) : Best :=
  if error d c < b.best_diff then
    { best_n := c.n, best_m := c.m, best_diff := error d c, best_double := c.dbl }
  else b

/-- The locals after a candidate has been taken. -/
def taken (d : Int) (c : Config) : Best :=
  { best_n := c.n, best_m := c.m, best_diff := error d c, best_double := c.dbl }

/-- Bounds on a value `B` by the errors of the candidates at divisors 1 to 5
(non-doubled, frequency steps 3000, 1500, 1000, 750, 600) and at divisor 1
doubled (step 6000), each when its multiplier is legal. -/
structure WitnessBounds (B d : Int) : Prop where
  a1 : 9 < d / 3000 → d / 3000 < 128 → B ≤ d % 3000
  a2 : 9 < d / 3000 + 1 → d / 3000 + 1 < 128 → B ≤ 3000 - d % 3000
  b1 : 9 < d / 1500 → d / 1500 < 128 → B ≤ d % 1500
  b2 : 9 < d / 1500 + 1 → d / 1500 + 1 < 128 → B ≤ 1500 - d % 1500
  c1 : 9 < d / 1000 → d / 1000 < 128 → B ≤ d % 1000
  c2 : 9 < d / 1000 + 1 → d / 1000 + 1 < 128 → B ≤ 1000 - d % 1000
  d1 : 9 < d / 750 → d / 750 < 128 → B ≤ d % 750
  d2 : 9 < d / 750 + 1 → d / 750 + 1 < 128 → B ≤ 750 - d % 750
  e1 : 9 < d / 600 → d / 600 < 128 → B ≤ d % 600
  e2 : 9 < d / 600 + 1 → d / 600 + 1 < 128 → B ≤ 600 - d % 600
  f1 : 63 < d / 6000 → d / 6000 < 128 → B ≤ d % 6000
  f2 : 63 < d / 6000 + 1 → d / 6000 + 1 < 128 → B ≤ 6000 - d % 6000

/-! ## Machine integers and the register access layer -/

/-- Conversion of a C `int` to `unsigned int`: reduction modulo `2^32`. -/
def u32 (x : Int) : Nat := (x % 4294967296).toNat

/-- Conversion of an `unsigned int` to `int` (two's complement). -/
def int32 (x : Nat) : Int :=
  if x % 4294967296 < 2147483648 then ((x % 4294967296 : Nat) : Int)
  else ((x % 4294967296 : Nat) : Int) - 4294967296

/-- Addition of `unsigned int`. -/
def add32 (a b : Nat) : Nat := (a + b) % 4294967296

/-- Subtraction of `unsigned int`. -/
def sub32 (a b : Nat) : Nat := (a + 4294967296 - b % 4294967296) % 4294967296

/-- Left shift of `unsigned int`. -/
def shl32 (a k : Nat) : Nat := (a <<< k) % 4294967296

/-- The four device blocks the driver touches: `SUNXI_CCM_BASE` (clock unit),
`SUNXI_DE_BE0_BASE` (blender), `SUNXI_LCD0_BASE` (timing controller) and
`SUNXI_HDMI_BASE` (transmitter).  Their register windows do not overlap. -/
inductive Block where
  | ccmu
  | composer
  | lcdc
  | hdmi
deriving DecidableEq, Repr

/-- A register write as issued on the bus. -/
structure Access where
  blk : Block
  off : Nat
  val : Nat
deriving DecidableEq, Repr

/-- Hardware state: register contents (plain memory) and the writes issued so
far, oldest first. -/
structure Hw where
  reg : Block → Nat → Nat
  trace : List Access

abbrev SUNXI_CCMU_PLL3_CFG : Nat := 0x010
abbrev SUNXI_CCMU_PLL5_CFG : Nat := 0x020
abbrev SUNXI_CCMU_PLL7_CFG : Nat := 0x030
abbrev SUNXI_CCMU_AHB_GATING1 : Nat := 0x064
abbrev SUNXI_CCMU_DRAM_CLK_GATING : Nat := 0x100
abbrev SUNXI_DE_BE0_CLK : Nat := 0x104
abbrev SUNXI_LCDC0_CH0_CLK : Nat := 0x118
abbrev SUNXI_LCDC0_CH1_CLK : Nat := 0x12C
abbrev SUNXI_CCMU_HDMI_CLK : Nat := 0x150

abbrev SUNXI_COMP_MODE : Nat := 0x800
abbrev SUNXI_COMP_DISP_SIZE : Nat := 0x808
abbrev SUNXI_COMP_LAYER0_SIZE : Nat := 0x810
abbrev SUNXI_COMP_LAYER0_POS : Nat := 0x820
abbrev SUNXI_COMP_LAYER0_STRIDE : Nat := 0x840
abbrev SUNXI_COMP_LAYER0_ADDR_LOW : Nat := 0x850
abbrev SUNXI_COMP_LAYER_ADDR_HIGH : Nat := 0x860
abbrev SUNXI_COMP_REG_CTL : Nat := 0x870
abbrev SUNXI_COMP_LAYER0_ATTR0 : Nat := 0x890
abbrev SUNXI_COMP_LAYER0_ATTR1 : Nat := 0x8a0

abbrev SUNXI_LCDC_ENABLE : Nat := 0x000
abbrev SUNXI_LCDC_INT0 : Nat := 0x004
abbrev SUNXI_LCDC_INT1 : Nat := 0x008
abbrev SUNXI_LCDC_TCON0_DOTCLOCK : Nat := 0x044
abbrev SUNXI_LCDC_TCON0_IO_TRI : Nat := 0x08c
abbrev SUNXI_LCDC_TCON1_ENABLE : Nat := 0x090
abbrev SUNXI_LCDC_TCON1_TIMING_SRC : Nat := 0x094
abbrev SUNXI_LCDC_TCON1_TIMING_SCALE : Nat := 0x098
abbrev SUNXI_LCDC_TCON1_TIMING_OUT : Nat := 0x09c
abbrev SUNXI_LCDC_TCON1_TIMING_H : Nat := 0x0a0
abbrev SUNXI_LCDC_TCON1_TIMING_V : Nat := 0x0a4
abbrev SUNXI_LCDC_TCON1_TIMING_SYNC : Nat := 0x0a8
abbrev SUNXI_LCDC_TCON1_IO_TRI : Nat := 0x0f4

abbrev SUNXI_HDMI_CTRL : Nat := 0x004
abbrev SUNXI_HDMI_INT_CTRL : Nat := 0x008
abbrev SUNXI_HDMI_HPD : Nat := 0x00c
abbrev SUNXI_HDMI_VIDEO_CTRL : Nat := 0x010
abbrev SUNXI_HDMI_VIDEO_SIZE : Nat := 0x014
abbrev SUNXI_HDMI_VIDEO_BP : Nat := 0x018
abbrev SUNXI_HDMI_VIDEO_FP : Nat := 0x01c
abbrev SUNXI_HDMI_VIDEO_SPW : Nat := 0x020
abbrev SUNXI_HDMI_VIDEO_POLARITY : Nat := 0x024
abbrev SUNXI_HDMI_TX_DRIVER0 : Nat := 0x200
abbrev SUNXI_HDMI_TX_DRIVER1 : Nat := 0x204
abbrev SUNXI_HDMI_TX_DRIVER2 : Nat := 0x208
abbrev SUNXI_HDMI_TX_DRIVER3 : Nat := 0x20C

/-- The source's `sunxi_io_read`: `readl(base + offset)`. -/
def sunxi_io_read (s : Hw) (base : Block) (offset : Nat) : Nat := s.reg base offset

/-- The source's `sunxi_io_write`: `writel(value, base + offset)`. -/
def sunxi_io_write (s : Hw) (base : Block) (offset : Nat) (value : Nat) : Hw :=
  { reg := fun b o => if b = base ∧ o = offset then value else s.reg b o,
    trace := s.trace ++ [⟨base, offset, value⟩] }

/-- The source's `sunxi_io_mask`: read, `tmp &= ~mask`, `tmp |= value & mask`,
write back.  `~mask` is the 32-bit complement. -/
def sunxi_io_mask (s : Hw) (base : Block) (offset : Nat) (value mask : Nat) : Hw :=
  let tmp := s.reg base offset
  let tmp := tmp &&& (0xFFFFFFFF ^^^ mask)
  let tmp := tmp ||| (value &&& mask)
  sunxi_io_write s base offset tmp

/-! ## Hotplug detection and engine initialisation -/

/-- The source's `sunxi_hdmi_hpd_detect`: returns the state and the `int` result. -/
def sunxi_hdmi_hpd_detect (s : Hw) : Hw × Int :=
  let s := sunxi_io_write s .ccmu SUNXI_CCMU_PLL7_CFG 0x8010D064
  let s := sunxi_io_mask s .ccmu SUNXI_CCMU_HDMI_CLK 0x01000000 0x03000000
  let s := sunxi_io_mask s .ccmu SUNXI_CCMU_AHB_GATING1 0x800 0x800
  let s := sunxi_io_mask s .ccmu SUNXI_CCMU_HDMI_CLK 0x80000000 0x80000000
  let s := sunxi_io_write s .hdmi SUNXI_HDMI_CTRL 0x80000000
  let s := sunxi_io_write s .hdmi SUNXI_HDMI_TX_DRIVER0 0xA0800000
  -- udelay(100)
  if sunxi_io_read s .hdmi SUNXI_HDMI_HPD &&& 0x01 ≠ 0 then (s, 1)
  else
    let s := sunxi_io_write s .hdmi SUNXI_HDMI_CTRL 0
    let s := sunxi_io_mask s .ccmu SUNXI_CCMU_HDMI_CLK 0 0x80000000
    let s := sunxi_io_mask s .ccmu SUNXI_CCMU_AHB_GATING1 0 0x800
    let s := sunxi_io_mask s .ccmu SUNXI_CCMU_PLL7_CFG 0 0x80000000
    (s, 0)

/-- The source's `sunxi_pll5_frequency`. -/
def sunxi_pll5_frequency (s : Hw) : Int :=
  let pll5 := sunxi_io_read s .ccmu SUNXI_CCMU_PLL5_CFG
  let n : Nat := (pll5 >>> 8) &&& 0x1F
  let k : Nat := ((pll5 >>> 4) &&& 0x03) + 1
  let p : Nat := (pll5 >>> 16) &&& 0x03
  (((24000 * n * k) >>> p : Nat) : Int)

/-- The clearing loop of `sunxi_composer_init`:
`for (i = ...; i < 0x1000; i += 4) sunxi_io_write(composer, i, 0)`, with the
number of remaining iterations as recursion measure. -/
def composer_clear (s : Hw) : Nat → Nat → Hw
  | 0, _ => s
  | k + 1, i => if i < 0x1000 then composer_clear (sunxi_io_write s .composer i 0) k (i + 4) else s

/-- The source's `sunxi_composer_init`. -/
def sunxi_composer_init (s : Hw) : Hw :=
  let pll5 := sunxi_pll5_frequency s
  let halve : Int := if pll5 < 300000 then 0 else 1
  let s := sunxi_io_mask s .ccmu SUNXI_DE_BE0_CLK 0x40000000 0x40000000
  let s := sunxi_io_mask s .ccmu SUNXI_DE_BE0_CLK 0x02000000 0x03000000
  let s :=
    if halve ≠ 0 then sunxi_io_mask s .ccmu SUNXI_DE_BE0_CLK 0x01 0x03
    else sunxi_io_mask s .ccmu SUNXI_DE_BE0_CLK 0 0x03
  let s := sunxi_io_mask s .ccmu SUNXI_CCMU_AHB_GATING1 0x1000 0x1000
  let s := sunxi_io_mask s .ccmu SUNXI_CCMU_DRAM_CLK_GATING 0x04000000 0x04000000
  let s := sunxi_io_mask s .ccmu SUNXI_DE_BE0_CLK 0x80000000 0x80000000
  let s := composer_clear s 512 0x0800
  sunxi_io_mask s .composer SUNXI_COMP_MODE 0x01 0x01

/-- The loop `while (sunxi_io_read(base, offset) & bits) sunxi_io_mask(base,
offset, 0, bits)` of `sunxi_lcdc_init`, with fuel: `none` when the fuel runs
out before the condition turns false. -/
def toggle_wait (base : Block) (offset bits : Nat) : Nat → Hw → Option Hw
  | 0, s => if sunxi_io_read s base offset &&& bits ≠ 0 then none else some s
  | fuel + 1, s =>
    if sunxi_io_read s base offset &&& bits ≠ 0 then
      toggle_wait base offset bits fuel (sunxi_io_mask s base offset 0 bits)
    else some s

/-- The source's `sunxi_lcdc_init`; `fuel` bounds each of its two wait loops. -/
def sunxi_lcdc_init (fuel : Nat) (s : Hw) : Option Hw :=
  let s := sunxi_io_mask s .ccmu SUNXI_LCDC0_CH0_CLK 0x01000000 0x03000000
  let s := sunxi_io_mask s .ccmu SUNXI_LCDC0_CH1_CLK 0x01000000 0x03000000
  let s := sunxi_io_mask s .ccmu SUNXI_LCDC0_CH1_CLK 0 0x0800
  let s := sunxi_io_mask s .ccmu SUNXI_LCDC0_CH1_CLK 0x09 0x0F
  let s := sunxi_io_mask s .ccmu SUNXI_LCDC0_CH0_CLK 0x40000000 0x40000000
  let s := sunxi_io_mask s .ccmu SUNXI_CCMU_AHB_GATING1 0x10 0x10
  let s := sunxi_io_mask s .ccmu SUNXI_LCDC0_CH0_CLK 0x80000000 0x80000000
  match toggle_wait .ccmu SUNXI_LCDC0_CH0_CLK 0x80000000 fuel s with
  | none => none
  | some s =>
    let s := sunxi_io_mask s .ccmu SUNXI_LCDC0_CH1_CLK 0x80008000 0x80008000
    match toggle_wait .ccmu SUNXI_LCDC0_CH1_CLK 0x80008000 fuel s with
    | none => none
    | some s =>
      let s := sunxi_io_write s .lcdc SUNXI_LCDC_ENABLE 0
      let s := sunxi_io_write s .lcdc SUNXI_LCDC_INT0 0
      let s := sunxi_io_write s .lcdc SUNXI_LCDC_INT1 0x20
      let s := sunxi_io_write s .lcdc SUNXI_LCDC_TCON0_DOTCLOCK 0xF0000000
      let s := sunxi_io_write s .lcdc SUNXI_LCDC_TCON0_IO_TRI 0x0FFFFFFF
      let s := sunxi_io_write s .lcdc SUNXI_LCDC_TCON1_IO_TRI 0x0FFFFFFF
      some s

/-- The source's `sunxi_engines_init`. -/
def sunxi_engines_init (fuel : Nat) (s : Hw) : Option Hw :=
  sunxi_lcdc_init fuel (sunxi_composer_init s)

/-! ## Mode setting -/

/-- The used members of `struct fb_videomode` (`linux/fb.h`); all are `u32`. -/
structure fb_videomode where
  refresh : Nat
  xres : Nat
  yres : Nat
  pixclock : Nat
  left_margin : Nat
  right_margin : Nat
  upper_margin : Nat
  lower_margin : Nat
  hsync_len : Nat
  vsync_len : Nat
  sync : Nat
  vmode : Nat
  flag : Nat
deriving DecidableEq, Repr

/-- Constants the driver takes from headers and board configuration outside
this file: the `FB_SYNC_*` flag bits, the `GDF_32BIT_X888RGB` format tag,
`CONFIG_SYS_SDRAM_BASE`, and whether `CONFIG_SUN4I` is defined. -/
structure Platform where
  FB_SYNC_HOR_HIGH_ACT : Nat
  FB_SYNC_VERT_HIGH_ACT : Nat
  GDF_32BIT_X888RGB : Nat
  CONFIG_SYS_SDRAM_BASE : Nat
  CONFIG_SUN4I : Bool

/-- The source's `sunxi_composer_mode_set`. -/
def sunxi_composer_mode_set (s : Hw) (mode : fb_videomode) (address : Nat) : Hw :=
  let format : Nat := 0x09
  let s := sunxi_io_write s .composer SUNXI_COMP_DISP_SIZE
    (shl32 (sub32 mode.yres 1) 16 ||| sub32 mode.xres 1)
  let s := sunxi_io_write s .composer SUNXI_COMP_LAYER0_SIZE
    (shl32 (sub32 mode.yres 1) 16 ||| sub32 mode.xres 1)
  let s := sunxi_io_write s .composer SUNXI_COMP_LAYER0_STRIDE (shl32 mode.xres 5)
  let s := sunxi_io_write s .composer SUNXI_COMP_LAYER0_ADDR_LOW (shl32 address 3)
  let s := sunxi_io_mask s .composer SUNXI_COMP_LAYER_ADDR_HIGH (address >>> 29) 0xFF
  let s := sunxi_io_mask s .composer SUNXI_COMP_LAYER0_ATTR1 (shl32 format 8) 0x0F00
  let s := sunxi_io_mask s .composer SUNXI_COMP_LAYER0_ATTR1 0 0x04
  let s := sunxi_io_mask s .composer SUNXI_COMP_LAYER0_ATTR1 0 0x03
  sunxi_io_mask s .composer SUNXI_COMP_MODE 0x100 0x100

/-- The source's `sunxi_lcdc_pll_set`.  `clk_div` and `clk_double` are the
values the two out-parameters hold on entry; the result carries the values
they hold on return. -/
def sunxi_lcdc_pll_set (s : Hw) (dotclock : Int) (clk_div clk_double : Int) : Hw × Int × Int :=
  if dotclock < 20000 ∨ dotclock > 400000 then
    -- printf("... is out of range"); return;
    (s, clk_div, clk_double)
  else
    let b := pll_search dotclock
    let s := sunxi_io_mask s .ccmu SUNXI_CCMU_PLL3_CFG 0x80000000 0x80000000
    let s := sunxi_io_mask s .ccmu SUNXI_CCMU_PLL3_CFG 0x8000 0x8000
    let s := sunxi_io_mask s .ccmu SUNXI_CCMU_PLL3_CFG (u32 b.best_n) 0x7F
    let s :=
      if b.best_double ≠ 0 then sunxi_io_mask s .ccmu SUNXI_LCDC0_CH1_CLK 0x02000000 0x03000000
      else sunxi_io_mask s .ccmu SUNXI_LCDC0_CH1_CLK 0 0x03000000
    let s := sunxi_io_mask s .ccmu SUNXI_LCDC0_CH1_CLK (u32 (b.best_m - 1)) 0x0F
    let s := sunxi_io_mask s .ccmu SUNXI_LCDC0_CH1_CLK 0 0x0800
    let s := sunxi_io_mask s .ccmu SUNXI_LCDC0_CH1_CLK 0x80008000 0x80008000
    (s, b.best_m, b.best_double)

/-- The first value of `total` in `sunxi_lcdc_mode_set`: the `u32` sum
`left_margin + xres + right_margin + hsync_len` stored in an `int`. -/
def lcdc_htotal (mode : fb_videomode) : Int :=
  int32 (add32 (add32 (add32 mode.left_margin mode.xres) mode.right_margin) mode.hsync_len)

/-- The second value of `total` in `sunxi_lcdc_mode_set`: the `u32` sum
`upper_margin + yres + lower_margin + vsync_len` stored in an `int`. -/
def lcdc_vtotal (mode : fb_videomode) : Int :=
  int32 (add32 (add32 (add32 mode.upper_margin mode.yres) mode.lower_margin) mode.vsync_len)

/-- The source's `sunxi_lcdc_mode_set`. -/
def sunxi_lcdc_mode_set (s : Hw) (mode : fb_videomode) (clk_div clk_double : Int) :
    Hw × Int × Int :=
  let s := sunxi_io_mask s .lcdc SUNXI_LCDC_ENABLE 0x01 0x01
  let s := sunxi_io_write s .lcdc SUNXI_LCDC_TCON1_ENABLE 0x800001E0
  let s := sunxi_io_write s .lcdc SUNXI_LCDC_TCON1_TIMING_SRC
    (shl32 (sub32 mode.xres 1) 16 ||| sub32 mode.yres 1)
  let s := sunxi_io_write s .lcdc SUNXI_LCDC_TCON1_TIMING_SCALE
    (shl32 (sub32 mode.xres 1) 16 ||| sub32 mode.yres 1)
  let s := sunxi_io_write s .lcdc SUNXI_LCDC_TCON1_TIMING_OUT
    (shl32 (sub32 mode.xres 1) 16 ||| sub32 mode.yres 1)
  let total := lcdc_htotal mode
  let s := sunxi_io_write s .lcdc SUNXI_LCDC_TCON1_TIMING_H
    (u32 ((total - 1) * 65536) ||| sub32 (add32 mode.hsync_len mode.left_margin) 1)
  let total := lcdc_vtotal mode
  let s := sunxi_io_write s .lcdc SUNXI_LCDC_TCON1_TIMING_V
    (u32 ((total * 2) * 65536) ||| sub32 (add32 mode.vsync_len mode.upper_margin) 1)
  let s := sunxi_io_write s .lcdc SUNXI_LCDC_TCON1_TIMING_SYNC
    (shl32 (sub32 mode.hsync_len 1) 16 ||| sub32 mode.vsync_len 1)
  sunxi_lcdc_pll_set s (int32 mode.pixclock) clk_div clk_double

/-- The source's `sunxi_hdmi_mode_set`. -/
def sunxi_hdmi_mode_set (pf : Platform) (s : Hw) (mode : fb_videomode)
    (clk_div clk_double : Int) : Hw :=
  let s := sunxi_io_write s .hdmi SUNXI_HDMI_INT_CTRL 0xFFFFFFFF
  let s := sunxi_io_write s .hdmi SUNXI_HDMI_VIDEO_POLARITY 0x03e00000
  let s := sunxi_io_mask s .hdmi SUNXI_HDMI_TX_DRIVER0 0xDE000000 0xDE000000
  let s :=
    if pf.CONFIG_SUN4I then sunxi_io_write s .hdmi SUNXI_HDMI_TX_DRIVER1 0x00D8C820
    else sunxi_io_write s .hdmi SUNXI_HDMI_TX_DRIVER1 0x00d8c830
  let s := sunxi_io_write s .hdmi SUNXI_HDMI_TX_DRIVER2 0xfa4ef708
  let s := sunxi_io_write s .hdmi SUNXI_HDMI_TX_DRIVER3 0
  let s := sunxi_io_mask s .hdmi SUNXI_HDMI_TX_DRIVER3 0 0x00200000
  let s := sunxi_io_mask s .hdmi SUNXI_HDMI_TX_DRIVER2 (u32 (clk_div * 16)) 0xf0
  let s :=
    if clk_double ≠ 0 then sunxi_io_mask s .hdmi SUNXI_HDMI_TX_DRIVER1 0 0x40
    else sunxi_io_mask s .hdmi SUNXI_HDMI_TX_DRIVER1 0x40 0x40
  let s := sunxi_io_write s .hdmi SUNXI_HDMI_VIDEO_SIZE
    (shl32 (sub32 mode.yres 1) 16 ||| sub32 mode.xres 1)
  let h := int32 (add32 mode.hsync_len mode.left_margin)
  let v := int32 (add32 mode.vsync_len mode.upper_margin)
  let s := sunxi_io_write s .hdmi SUNXI_HDMI_VIDEO_BP (u32 ((v - 1) * 65536) ||| u32 (h - 1))
  let h := int32 mode.right_margin
  let v := int32 mode.lower_margin
  let s := sunxi_io_write s .hdmi SUNXI_HDMI_VIDEO_FP (u32 ((v - 1) * 65536) ||| u32 (h - 1))
  let h := int32 mode.hsync_len
  let v := int32 mode.vsync_len
  let s := sunxi_io_write s .hdmi SUNXI_HDMI_VIDEO_SPW (u32 ((v - 1) * 65536) ||| u32 (h - 1))
  let s :=
    if mode.sync &&& pf.FB_SYNC_HOR_HIGH_ACT ≠ 0 then
      sunxi_io_mask s .hdmi SUNXI_HDMI_VIDEO_POLARITY 0x01 0x01
    else sunxi_io_mask s .hdmi SUNXI_HDMI_VIDEO_POLARITY 0 0x01
  if mode.sync &&& pf.FB_SYNC_VERT_HIGH_ACT ≠ 0 then
    sunxi_io_mask s .hdmi SUNXI_HDMI_VIDEO_POLARITY 0x02 0x02
  else sunxi_io_mask s .hdmi SUNXI_HDMI_VIDEO_POLARITY 0 0x02

/-- The source's `sunxi_mode_set`.  Its locals `clk_div` and `clk_double` are
declared without initialiser; `clk_div0` and `clk_double0` are the values they
happen to hold. -/
def sunxi_mode_set (pf : Platform) (s : Hw) (mode : fb_videomode) (address : Nat)
    (clk_div0 clk_double0 : Int) : Hw :=
  let s := sunxi_io_mask s .hdmi SUNXI_HDMI_VIDEO_CTRL 0 0x80000000
  let s := sunxi_io_mask s .lcdc SUNXI_LCDC_ENABLE 0 0x80000000
  let s := sunxi_io_mask s .composer SUNXI_COMP_MODE 0 0x02
  let s := sunxi_composer_mode_set s mode address
  let r := sunxi_lcdc_mode_set s mode clk_div0 clk_double0
  let s := sunxi_hdmi_mode_set pf r.1 mode r.2.1 r.2.2
  let s := sunxi_io_mask s .composer SUNXI_COMP_REG_CTL 0x01 0x01
  let s := sunxi_io_mask s .composer SUNXI_COMP_MODE 0x02 0x02
  let s := sunxi_io_mask s .lcdc SUNXI_LCDC_ENABLE 0x80000000 0x80000000
  let s := sunxi_io_mask s .lcdc SUNXI_LCDC_TCON1_IO_TRI 0x00000000 0x03000000
  -- udelay(100)
  sunxi_io_mask s .hdmi SUNXI_HDMI_VIDEO_CTRL 0x80000000 0x80000000

/-- The used members of `GraphicDevice` (`video_fb.h`). -/
structure GraphicDevice where
  frameAdrs : Nat
  gdfIndex : Nat
  gdfBytesPP : Nat
  winSizeX : Nat
  winSizeY : Nat
deriving DecidableEq, Repr

/-- Driver and board state around the hardware: the global `sunxi_display`
(`graphic_device`, `enabled`) and the global data members `fb_base`, `ram_top`. -/
structure Board where
  hw : Hw
  graphic_device : GraphicDevice
  enabled : Int
  fb_base : Nat
  ram_top : Nat

/-- The mode hard-coded in `video_hw_init`: VESA 1024x768@60. -/
def builtin_mode : fb_videomode :=
  { refresh := 60, xres := 1024, yres := 768, pixclock := 65000,
    left_margin := 160, right_margin := 24, upper_margin := 29, lower_margin := 3,
    hsync_len := 136, vsync_len := 6, sync := 0, vmode := 0, flag := 0 }

/-- The source's `video_hw_init`.  The result is the final state and the
returned pointer: `none` for `NULL`, otherwise the descriptor it points to.
The outer `Option` is `none` when a wait loop runs out of `fuel`. -/
def video_hw_init (pf : Platform) (fuel : Nat) (clk_div0 clk_double0 : Int) (st : Board) :
    Option (Board × Option GraphicDevice) :=
  let mode := builtin_mode
  -- memset(sunxi_display, 0, sizeof(struct sunxi_display))
  let st := { st with graphic_device := ⟨0, 0, 0, 0, 0⟩, enabled := 0 }
  let st := { st with fb_base := st.ram_top }
  let r := sunxi_hdmi_hpd_detect st.hw
  let st := { st with hw := r.1 }
  if r.2 = 0 then some (st, none)
  else
    let st := { st with enabled := 1 }
    match sunxi_engines_init fuel st.hw with
    | none => none
    | some hw =>
      let hw := sunxi_mode_set pf hw mode (sub32 st.fb_base pf.CONFIG_SYS_SDRAM_BASE)
        clk_div0 clk_double0
      let g : GraphicDevice :=
        { frameAdrs := st.fb_base, gdfIndex := pf.GDF_32BIT_X888RGB, gdfBytesPP := 4,
          winSizeX := mode.xres, winSizeY := mode.yres }
      some ({ st with hw := hw, graphic_device := g }, some g)

/-- The hardware before the driver has run: every register reads 0 and no
write has been issued. -/
def power_on : Hw := { reg := fun _ _ => 0, trace := [] }

/-! ## Device-tree patching for the simple framebuffer -/

/-- A property value as handed to `fdt_setprop`: a string or an array of
cells. -/
inductive FdtVal where
  | str (s : String)
  | cells (c : List Nat)
deriving DecidableEq, Repr

/-- The libfdt operations the driver calls.  libfdt is not part of the driver,
so its operations are parameters, over an abstract type `Blob` of device-tree
blobs and an abstract type `Strs` of string-list property values.  An operation
that modifies the blob returns the new blob with its `int` result. -/
structure Libfdt (Blob Strs : Type) where
  fdt_add_subnode : Blob → Int → String → Blob × Int
  fdt_setprop : Blob → Int → String → FdtVal → Nat → Blob × Int
  fdt_node_offset_by_compatible : Blob → Int → String → Int
  fdt_getprop : Blob → Int → String → Option (Strs × Int)
  fdt_stringlist_contains : Strs → Int → String → Bool
  fdt_get_phandle : Blob → Int → Nat
  cpu_to_fdt32 : Nat → Nat
  fdt32_to_cpu : Nat → Nat

/-- The search loop of `sunxi_simplefb_clocks` for the ahb_gates node: the
first listed compatible string with a non-negative node offset. -/
def find_ahb_gates {Blob Strs : Type} (fdt : Libfdt Blob Strs) (blob : Blob) :
    List String → Option Int
  | [] => none
  | c :: cs =>
    let node_clock := fdt.fdt_node_offset_by_compatible blob 0 c
    if node_clock ≥ 0 then some node_clock else find_ahb_gates fdt blob cs

/-- The source's `sunxi_simplefb_clocks`. -/
def sunxi_simplefb_clocks {Blob Strs : Type} (fdt : Libfdt Blob Strs) (blob : Blob)
    (node_simplefb : Int) : Blob :=
  let compatible := ["allwinner,sun4i-a10-ahb-gates-clk", "allwinner,sun5i-a10s-ahb-gates-clk",
    "allwinner,sun5i-a13-ahb-gates-clk", "allwinner,sun7i-a20-ahb-gates-clk"]
  let PLACEHOLDER_AHB_GATES : Nat := 0xFFFFFFFF
  let cells : List Nat :=
    [PLACEHOLDER_AHB_GATES, fdt.fdt32_to_cpu 0x24,
      PLACEHOLDER_AHB_GATES, fdt.fdt32_to_cpu 0x2B,
      PLACEHOLDER_AHB_GATES, fdt.fdt32_to_cpu 0x2C]
  match find_ahb_gates fdt blob compatible with
  | none => blob
  | some node_clock =>
    match fdt.fdt_getprop blob node_clock "clock-output-names" with
    | none => blob
    | some (stringlist, stringlength) =>
      if !fdt.fdt_stringlist_contains stringlist stringlength "ahb_de_be" &&
          !fdt.fdt_stringlist_contains stringlist stringlength "ahb_de_be0" then blob
      else if !fdt.fdt_stringlist_contains stringlist stringlength "ahb_lcd" &&
          !fdt.fdt_stringlist_contains stringlist stringlength "ahb_lcd0" then blob
      else if !fdt.fdt_stringlist_contains stringlist stringlength "ahb_hdmi" &&
          !fdt.fdt_stringlist_contains stringlist stringlength "ahb_hdmi0" then blob
      else
        let phandle := fdt.fdt_get_phandle blob node_clock
        let cells := cells.map
          (fun c => if c = PLACEHOLDER_AHB_GATES then fdt.fdt32_to_cpu phandle else c)
        (fdt.fdt_setprop blob node_simplefb "clocks" (.cells cells) 24).1

/-- The source's `sunxi_simplefb_setup`, on the driver state left by
`video_hw_init`; `CONFIG_SUNXI_FB_SIZE` is a build-time constant. -/
def sunxi_simplefb_setup {Blob Strs : Type} (fdt : Libfdt Blob Strs)
    (CONFIG_SUNXI_FB_SIZE : Nat) (st : Board) (blob : Blob) : Blob :=
  let graphic_device := st.graphic_device
  let name := "simple-framebuffer"
  let format := "x8r8g8b8"
  if st.enabled = 0 then blob
  else
    let r := fdt.fdt_add_subnode blob 0 "framebuffer"
    let blob := r.1
    let offset := r.2
    if offset < 0 then blob
    else
      let r := fdt.fdt_setprop blob offset "compatible" (.str name) (name.length + 1)
      let blob := r.1
      if r.2 < 0 then blob
      else
        let stride := u32 (graphic_device.winSizeX * graphic_device.gdfBytesPP)
        let r := fdt.fdt_setprop blob offset "reg"
          (.cells [fdt.cpu_to_fdt32 st.fb_base, fdt.cpu_to_fdt32 CONFIG_SUNXI_FB_SIZE]) 8
        let blob := r.1
        if r.2 < 0 then blob
        else
          let r := fdt.fdt_setprop blob offset "width"
            (.cells [fdt.cpu_to_fdt32 graphic_device.winSizeX]) 4
          let blob := r.1
          if r.2 < 0 then blob
          else
            let r := fdt.fdt_setprop blob offset "height"
              (.cells [fdt.cpu_to_fdt32 graphic_device.winSizeY]) 4
            let blob := r.1
            if r.2 < 0 then blob
            else
              let r := fdt.fdt_setprop blob offset "stride" (.cells [fdt.cpu_to_fdt32 stride]) 4
              let blob := r.1
              if r.2 < 0 then blob
              else
                let r := fdt.fdt_setprop blob offset "format" (.str format) (format.length + 1)
                let blob := r.1
                if r.2 < 0 then blob
                else sunxi_simplefb_clocks fdt blob offset

/-! ## States and modes used as concrete inputs, and proof-side notions -/

/-- A board with the header values of `linux/fb.h` and `video_fb.h`, SDRAM at
`0x40000000`, and `CONFIG_SUN4I` undefined. -/
def sample_platform : Platform :=
  { FB_SYNC_HOR_HIGH_ACT := 1, FB_SYNC_VERT_HIGH_ACT := 2, GDF_32BIT_X888RGB := 3,
    CONFIG_SYS_SDRAM_BASE := 0x40000000, CONFIG_SUN4I := false }

/-- A board state whose transmitter senses a sink, RAM top at `0x48000000`. -/
def sink_board : Board :=
  { hw := { reg := fun b o => if b = .hdmi ∧ o = SUNXI_HDMI_HPD then 1 else 0, trace := [] },
    graphic_device := ⟨0, 0, 0, 0, 0⟩, enabled := 0, fb_base := 0, ram_top := 0x48000000 }

/-- The built-in mode with a left margin that makes the `u32` horizontal sum
wrap past `2^32`. -/
def wrap_mode : fb_videomode := { builtin_mode with left_margin := 4294966272 }

/-- The built-in mode with a left margin that makes the horizontal sum, still a
valid `u32`, too large for the `int` it is stored in. -/
def wide_mode : fb_videomode := { builtin_mode with left_margin := 2147483648 }

/-- The built-in mode with a pixel clock below the solvable range. -/
def slow_mode : fb_videomode := { builtin_mode with pixclock := 10000 }

/-- The state `sunxi_lcdc_init` ends in when each wait loop sees its bits
clear after one pass, as it does with registers that are plain memory. -/
def lcdc_init_result (s : Hw) : Hw :=
  let s := sunxi_io_mask s .ccmu SUNXI_LCDC0_CH0_CLK 0x01000000 0x03000000
  let s := sunxi_io_mask s .ccmu SUNXI_LCDC0_CH1_CLK 0x01000000 0x03000000
  let s := sunxi_io_mask s .ccmu SUNXI_LCDC0_CH1_CLK 0 0x0800
  let s := sunxi_io_mask s .ccmu SUNXI_LCDC0_CH1_CLK 0x09 0x0F
  let s := sunxi_io_mask s .ccmu SUNXI_LCDC0_CH0_CLK 0x40000000 0x40000000
  let s := sunxi_io_mask s .ccmu SUNXI_CCMU_AHB_GATING1 0x10 0x10
  let s := sunxi_io_mask s .ccmu SUNXI_LCDC0_CH0_CLK 0x80000000 0x80000000
  let s := sunxi_io_mask s .ccmu SUNXI_LCDC0_CH0_CLK 0 0x80000000
  let s := sunxi_io_mask s .ccmu SUNXI_LCDC0_CH1_CLK 0x80008000 0x80008000
  let s := sunxi_io_mask s .ccmu SUNXI_LCDC0_CH1_CLK 0 0x80008000
  let s := sunxi_io_write s .lcdc SUNXI_LCDC_ENABLE 0
  let s := sunxi_io_write s .lcdc SUNXI_LCDC_INT0 0
  let s := sunxi_io_write s .lcdc SUNXI_LCDC_INT1 0x20
  let s := sunxi_io_write s .lcdc SUNXI_LCDC_TCON0_DOTCLOCK 0xF0000000
  let s := sunxi_io_write s .lcdc SUNXI_LCDC_TCON0_IO_TRI 0x0FFFFFFF
  sunxi_io_write s .lcdc SUNXI_LCDC_TCON1_IO_TRI 0x0FFFFFFF

/-- A state transformer that acts on every register either as the identity or
as `x ↦ (x &&& K) ||| S` for constants `K`, `S`. -/
def Affine (F : Hw → Hw) : Prop :=
  ∃ T : Block → Nat → Option (Nat × Nat), ∀ s b o,
    (F s).reg b o = match T b o with
      | none => s.reg b o
      | some (K, S) => (s.reg b o &&& K) ||| S

/-- The built-in mode with no horizontal front porch. -/
def zero_porch_mode : fb_videomode := { builtin_mode with right_margin := 0 }

/-- The built-in mode with a horizontal sync length and back porch that sum
to more than `2^16`, each below `2^16`. -/
def long_sync_mode : fb_videomode :=
  { builtin_mode with hsync_len := 40000, left_margin := 40000 }

/-- A libfdt stand-in over blobs that are lists of property names: every
operation succeeds and `fdt_setprop` records the name. -/
def listing_fdt : Libfdt (List String) Unit :=
  { fdt_add_subnode := fun blob _ n => (blob ++ [n], 1),
    fdt_setprop := fun blob _ n _ _ => (blob ++ [n], 0),
    fdt_node_offset_by_compatible := fun _ _ _ => 1,
    fdt_getprop := fun _ _ _ => some ((), 0),
    fdt_stringlist_contains := fun _ _ _ => true,
    fdt_get_phandle := fun _ _ => 1,
    cpu_to_fdt32 := fun x => x,
    fdt32_to_cpu := fun x => x }

/-- A board state whose transmitter senses no sink: every register reads 0. -/
def dark_board : Board :=
  { hw := power_on, graphic_device := ⟨0, 0, 0, 0, 0⟩, enabled := 0, fb_base := 0,
    ram_top := 0x48000000 }

/-- A state transformer that only appends writes to the trace, each to a
register on which `Q` holds. -/
def Emits (Q : Block → Nat → Prop) (F : Hw → Hw) : Prop :=
  ∀ s, ∃ ws, (F s).trace = s.trace ++ ws ∧ ∀ w ∈ ws, Q w.blk w.off

/-- The first stage of `sunxi_mode_set`: the three output-enable bits are
cleared. -/
def mode_set_quiesce (s : Hw) : Hw :=
  let s := sunxi_io_mask s .hdmi SUNXI_HDMI_VIDEO_CTRL 0 0x80000000
  let s := sunxi_io_mask s .lcdc SUNXI_LCDC_ENABLE 0 0x80000000
  sunxi_io_mask s .composer SUNXI_COMP_MODE 0 0x02

/-- The middle stage of `sunxi_mode_set`: blender, timing controller (with the
clock solver) and transmitter are programmed. -/
def mode_set_program (pf : Platform) (s : Hw) (mode : fb_videomode) (address : Nat)
    (clk_div0 clk_double0 : Int) : Hw :=
  let s := sunxi_composer_mode_set s mode address
  let r := sunxi_lcdc_mode_set s mode clk_div0 clk_double0
  sunxi_hdmi_mode_set pf r.1 mode r.2.1 r.2.2

/-- The hardware at power-on except for `PLL5_CFG`, which holds `0x11900`:
`n = 25`, `k = 1`, `p = 1`, a PLL5 frequency of exactly 300000 kHz. -/
def pll5_at_threshold : Hw :=
  { reg := fun b o => if b = .ccmu ∧ o = SUNXI_CCMU_PLL5_CFG then 0x11900 else 0, trace := [] }

/-- The loop body of `sunxi_lcdc_pll_set` with the statement
`if (!(m & 1)) continue;` taken out, so that the doubled pair is tried for
every divisor: the search the skip is compared with. -/
def pll_body_unskipped (dotclock m : Int) (b : Best) : Best :=
  let n := (m * dotclock).tdiv 3000
  let b :=
    if n > 9 ∧ n < 128 then
      let value := (3000 * n).tdiv m
      let diff := value - dotclock
      let diff := if diff < 0 then -diff else diff
      if diff < b.best_diff then
        { best_diff := diff, best_m := m, best_n := n, best_double := 0 }
      else b
    else b
  let n := n + 1
  let b :=
    if n > 9 ∧ n < 128 then
      let value := (3000 * n).tdiv m
      let diff := c_abs (value - dotclock)
      let diff := if diff < 0 then -diff else diff
      if diff < b.best_diff then
        { best_diff := diff, best_m := m, best_n := n, best_double := 0 }
      else b
    else b
  let n := (m * dotclock).tdiv 6000
  let b :=
    if n > 63 ∧ n < 128 then
      let value := (6000 * n).tdiv m
      let diff := c_abs (value - dotclock)
      let diff := if diff < 0 then -diff else diff
      if diff < b.best_diff then
        { best_diff := diff, best_m := m, best_n := n, best_double := 1 }
      else b
    else b
  let n := n + 1
  let b :=
    if n > 63 ∧ n < 128 then
      let value := (6000 * n).tdiv m
      let diff := c_abs (value - dotclock)
      let diff := if diff < 0 then -diff else diff
      if diff < b.best_diff then
        { best_diff := diff, best_m := m, best_n := n, best_double := 1 }
      else b
    else b
  b

/-- The loop `for (m = k; m > 0; m--)` over the body without the skip. -/
def pll_loop_unskipped (dotclock : Int) : Nat → Best → Best
  | 0, b => b
  | k + 1, b => pll_loop_unskipped dotclock k (pll_body_unskipped dotclock ((k + 1 : Nat) : Int) b)

/-- The search without the skip: the loop from `m = 15` on the initial locals. -/
def pll_search_unskipped (dotclock : Int) : Best :=
  pll_loop_unskipped dotclock 15 best_init


/-! ## Solver: the search as a fold over its candidates -/

theorem c_abs_eq_abs (x : Int) : c_abs x = |x| := by
  unfold c_abs
  split_ifs with h
  · exact (abs_of_neg h).symm
  · exact (abs_of_nonneg (not_lt.mp h)).symm

theorem foldl_filter_eq {α β : Type} (p : α → Bool) (f : β → α → β) (l : List α) (b : β) :
    (l.filter p).foldl f b = l.foldl (fun b c => if p c then f b c else b) b := by
  induction l generalizing b with
  | nil => rfl
  | cons a l ih =>
    by_cases h : p a
    · simp [List.filter, h, ih]
    · simp [List.filter, h, ih]

theorem land_one_eq_zero_iff (k : Nat) : Int.land (k : Int) 1 = 0 ↔ ¬ ((k : Int) % 2 = 1) := by
  have h : Int.land (k : Int) 1 = ((k &&& 1 : Nat) : Int) := rfl
  rw [h, Nat.and_one_is_mod]
  omega

theorem ite_neg_eq_abs (x : Int) : (if x < 0 then -x else x) = |x| := c_abs_eq_abs x

theorem pll_body_eq_foldl (d : Int) (k : Nat) (b : Best) :
    pll_body d (k : Int) b = (cands_at d (k : Int)).foldl (pick d) b := by
  unfold cands_at
  rw [foldl_filter_eq]
  dsimp only [pll_body, c_abs]
  simp only [ite_neg_eq_abs, abs_abs]
  by_cases hk : ((k : Int) % 2 = 1)
  · have hl : ¬ (Int.land (k : Int) 1 = 0) := by
      rw [land_one_eq_zero_iff]; exact fun h => h hk
    simp only [hl, hk, if_true, if_false, List.cons_append, List.nil_append, List.foldl]
    simp [legal, pick, error, achieved]
  · have hl : Int.land (k : Int) 1 = 0 := by
      rw [land_one_eq_zero_iff]; exact hk
    simp only [hl, hk, if_true, if_false, List.cons_append, List.nil_append, List.foldl,
      List.append_nil]
    simp [legal, pick, error, achieved]

theorem pll_loop_eq_foldl (d : Int) (k : Nat) (b : Best) :
    pll_loop d k b = (enum_upto d k).foldl (pick d) b := by
  induction k generalizing b with
  | zero => rfl
  | succ k ih =>
    show pll_loop d k (pll_body d ((k + 1 : Nat) : Int) b) = _
    rw [ih, pll_body_eq_foldl]
    show _ = (cands_at d ((k + 1 : Nat) : Int) ++ enum_upto d k).foldl (pick d) b
    rw [List.foldl_append]

theorem pll_search_eq_foldl (d : Int) :
    pll_search d = (enumerated d).foldl (pick d) best_init :=
  pll_loop_eq_foldl d 15 best_init

/-- Outcome of folding `pick` over a list: either nothing beat the starting
locals, or the result is the first candidate of least error. -/
theorem foldl_pick_spec (d : Int) (l : List Config) (b0 : Best) :
    (l.foldl (pick d) b0 = b0 ∧ ∀ x ∈ l, b0.best_diff ≤ error d x) ∨
    (∃ pre c post, l = pre ++ c :: post ∧ l.foldl (pick d) b0 = taken d c ∧
      error d c < b0.best_diff ∧ (∀ x ∈ pre, error d c < error d x) ∧
      (∀ x ∈ post, error d c ≤ error d x)) := by
  induction l generalizing b0 with
  | nil => left; simp
  | cons a l ih =>
    rw [List.foldl_cons]
    by_cases h : error d a < b0.best_diff
    · have hp : pick d b0 a = taken d a := by simp [pick, taken, h]
      rw [hp]
      right
      rcases ih (taken d a) with ⟨h1, h2⟩ | ⟨pre, c, post, hl, hr, hlt, hpre, hpost⟩
      · exact ⟨[], a, l, rfl, h1, h, by simp, h2⟩
      · refine ⟨a :: pre, c, post, by simp [hl], hr, lt_trans hlt h, ?_, hpost⟩
        intro x hx
        rcases List.mem_cons.mp hx with rfl | hx
        · exact hlt
        · exact hpre x hx
    · have hp : pick d b0 a = b0 := by simp [pick, h]
      rw [hp]
      rcases ih b0 with ⟨h1, h2⟩ | ⟨pre, c, post, hl, hr, hlt, hpre, hpost⟩
      · left
        refine ⟨h1, ?_⟩
        intro x hx
        rcases List.mem_cons.mp hx with rfl | hx
        · exact not_lt.mp h
        · exact h2 x hx
      · right
        refine ⟨a :: pre, c, post, by simp [hl], hr, hlt, ?_, hpost⟩
        intro x hx
        rcases List.mem_cons.mp hx with rfl | hx
        · exact lt_of_lt_of_le hlt (not_lt.mp h)
        · exact hpre x hx

theorem foldl_pick_le (d : Int) (l : List Config) (b0 : Best) :
    ∀ x ∈ l, (l.foldl (pick d) b0).best_diff ≤ error d x := by
  intro x hx
  rcases foldl_pick_spec d l b0 with ⟨h1, h2⟩ | ⟨pre, c, post, hl, hr, hlt, hpre, hpost⟩
  · rw [h1]; exact h2 x hx
  · rw [hr]
    show error d c ≤ error d x
    rw [hl] at hx
    rcases List.mem_append.mp hx with hx | hx
    · exact le_of_lt (hpre x hx)
    · rcases List.mem_cons.mp hx with rfl | hx
      · exact le_refl _
      · exact hpost x hx

theorem pll_search_le (d : Int) : ∀ x ∈ enumerated d, (pll_search d).best_diff ≤ error d x := by
  rw [pll_search_eq_foldl]
  exact foldl_pick_le d _ _

theorem mem_enum_upto (d : Int) (k : Nat) (c : Config) :
    c ∈ enum_upto d k ↔ ∃ m : Nat, 1 ≤ m ∧ m ≤ k ∧ c ∈ cands_at d (m : Int) := by
  induction k with
  | zero =>
    simp only [enum_upto, List.not_mem_nil, false_iff]
    rintro ⟨m, h1, h2, -⟩
    omega
  | succ k ih =>
    simp only [enum_upto, List.mem_append, ih]
    constructor
    · rintro (h | ⟨m, h1, h2, h3⟩)
      · exact ⟨k + 1, by omega, le_refl _, h⟩
      · exact ⟨m, h1, by omega, h3⟩
    · rintro ⟨m, h1, h2, h3⟩
      by_cases hm : m = k + 1
      · left; rw [← hm]; exact h3
      · right; exact ⟨m, h1, by omega, h3⟩

theorem mem_cands_at (d m : Int) (c : Config) :
    c ∈ cands_at d m ↔
      (c.m = m ∧ c.dbl = 0 ∧ 9 < c.n ∧ c.n < 128 ∧
        (c.n = (m * d).tdiv 3000 ∨ c.n = (m * d).tdiv 3000 + 1)) ∨
      (c.m = m ∧ c.dbl = 1 ∧ m % 2 = 1 ∧ 63 < c.n ∧ c.n < 128 ∧
        (c.n = (m * d).tdiv 6000 ∨ c.n = (m * d).tdiv 6000 + 1)) := by
  rcases c with ⟨n, m', dbl⟩
  unfold cands_at
  by_cases hm : m % 2 = 1
  · simp only [hm, if_true, List.mem_filter, List.mem_append, List.mem_cons, List.mem_singleton,
      List.not_mem_nil, or_false, Config.mk.injEq, legal]
    constructor
    · rintro ⟨(⟨rfl, rfl, rfl⟩ | ⟨rfl, rfl, rfl⟩) | (⟨rfl, rfl, rfl⟩ | ⟨rfl, rfl, rfl⟩), hl⟩ <;>
        simp at hl <;> simp [hl]
    · rintro (⟨rfl, rfl, h1, h2, (rfl | rfl)⟩ | ⟨rfl, rfl, -, h1, h2, (rfl | rfl)⟩) <;>
        simp [h1, h2]
  · simp only [hm, if_false, List.mem_filter, List.mem_append, List.mem_cons, List.mem_singleton,
      List.not_mem_nil, or_false, Config.mk.injEq, legal, false_and, and_false]
    constructor
    · rintro ⟨(⟨rfl, rfl, rfl⟩ | ⟨rfl, rfl, rfl⟩), hl⟩ <;>
        simp at hl <;> simp [hl]
    · rintro (⟨rfl, rfl, h1, h2, (rfl | rfl)⟩) <;>
        simp [h1, h2]

theorem mem_enumerated (d : Int) (m : Nat) (h1 : 1 ≤ m) (h15 : m ≤ 15) (c : Config)
    (hc : c ∈ cands_at d (m : Int)) : c ∈ enumerated d :=
  (mem_enum_upto d 15 c).mpr ⟨m, h1, h15, hc⟩

/-- The search result is at least as good as a legal non-doubled candidate it tries. -/
theorem search_le_nd (d : Int) (m : Nat) (h1 : 1 ≤ m) (h15 : m ≤ 15) (n : Int)
    (hn : n = ((m : Int) * d).tdiv 3000 ∨ n = ((m : Int) * d).tdiv 3000 + 1)
    (h9 : 9 < n) (h128 : n < 128) :
    (pll_search d).best_diff ≤ |(3000 * n).tdiv (m : Int) - d| := by
  have hmem : (⟨n, (m : Int), 0⟩ : Config) ∈ enumerated d := by
    apply mem_enumerated d m h1 h15
    rw [mem_cands_at]
    left
    exact ⟨rfl, rfl, h9, h128, hn⟩
  have := pll_search_le d _ hmem
  simpa [error, achieved] using this

/-- The search result is at least as good as a legal doubled candidate it tries. -/
theorem search_le_dbl (d : Int) (m : Nat) (h1 : 1 ≤ m) (h15 : m ≤ 15) (hodd : (m : Int) % 2 = 1)
    (n : Int) (hn : n = ((m : Int) * d).tdiv 6000 ∨ n = ((m : Int) * d).tdiv 6000 + 1)
    (h63 : 63 < n) (h128 : n < 128) :
    (pll_search d).best_diff ≤ |(6000 * n).tdiv (m : Int) - d| := by
  have hmem : (⟨n, (m : Int), 1⟩ : Config) ∈ enumerated d := by
    apply mem_enumerated d m h1 h15
    rw [mem_cands_at]
    right
    exact ⟨rfl, rfl, hodd, h63, h128, hn⟩
  have := pll_search_le d _ hmem
  simpa [error, achieved] using this

/-- The bound `search_le_nd` with Euclidean division, for a non-negative target. -/
theorem search_le_nd_ediv (d m n : Int) (hd : 0 ≤ d) (h1 : 1 ≤ m) (h15 : m ≤ 15)
    (hn : n = m * d / 3000 ∨ n = m * d / 3000 + 1) (h9 : 9 < n) (h128 : n < 128) :
    (pll_search d).best_diff ≤ ((3000 * n / m - d).natAbs : Int) := by
  obtain ⟨k, rfl⟩ : ∃ k : Nat, m = (k : Int) := ⟨m.toNat, (Int.toNat_of_nonneg (by omega)).symm⟩
  have e1 : ((k : Int) * d).tdiv 3000 = (k : Int) * d / 3000 :=
    Int.tdiv_eq_ediv (Int.mul_nonneg (by omega) hd) (by decide)
  have e2 : (3000 * n).tdiv (k : Int) = 3000 * n / (k : Int) :=
    Int.tdiv_eq_ediv (by omega) (by omega)
  have := search_le_nd d k (by omega) (by omega) n (by rw [e1]; exact hn) h9 h128
  rw [e2, Int.abs_eq_natAbs] at this
  exact this

/-- The bound `search_le_dbl` with Euclidean division, for a non-negative target. -/
theorem search_le_dbl_ediv (d m n : Int) (hd : 0 ≤ d) (h1 : 1 ≤ m) (h15 : m ≤ 15)
    (hodd : m % 2 = 1)
    (hn : n = m * d / 6000 ∨ n = m * d / 6000 + 1) (h63 : 63 < n) (h128 : n < 128) :
    (pll_search d).best_diff ≤ ((6000 * n / m - d).natAbs : Int) := by
  obtain ⟨k, rfl⟩ : ∃ k : Nat, m = (k : Int) := ⟨m.toNat, (Int.toNat_of_nonneg (by omega)).symm⟩
  have e1 : ((k : Int) * d).tdiv 6000 = (k : Int) * d / 6000 :=
    Int.tdiv_eq_ediv (Int.mul_nonneg (by omega) hd) (by decide)
  have e2 : (6000 * n).tdiv (k : Int) = 6000 * n / (k : Int) :=
    Int.tdiv_eq_ediv (by omega) (by omega)
  have := search_le_dbl d k (by omega) (by omega) hodd n (by rw [e1]; exact hn) h63 h128
  rw [e2, Int.abs_eq_natAbs] at this
  exact this

theorem search_witness_bounds (d : Int) (hd : 0 ≤ d) :
    WitnessBounds (pll_search d).best_diff d := by
  constructor
  · intro h1 h2
    have := search_le_nd_ediv d 1 (d / 3000) hd (by decide) (by decide) (Or.inl (by omega)) h1 h2
    omega
  · intro h1 h2
    have := search_le_nd_ediv d 1 (d / 3000 + 1) hd (by decide) (by decide)
      (Or.inr (by omega)) h1 h2
    omega
  · intro h1 h2
    have := search_le_nd_ediv d 2 (d / 1500) hd (by decide) (by decide) (Or.inl (by omega)) h1 h2
    omega
  · intro h1 h2
    have := search_le_nd_ediv d 2 (d / 1500 + 1) hd (by decide) (by decide)
      (Or.inr (by omega)) h1 h2
    omega
  · intro h1 h2
    have := search_le_nd_ediv d 3 (d / 1000) hd (by decide) (by decide) (Or.inl (by omega)) h1 h2
    omega
  · intro h1 h2
    have := search_le_nd_ediv d 3 (d / 1000 + 1) hd (by decide) (by decide)
      (Or.inr (by omega)) h1 h2
    omega
  · intro h1 h2
    have := search_le_nd_ediv d 4 (d / 750) hd (by decide) (by decide) (Or.inl (by omega)) h1 h2
    omega
  · intro h1 h2
    have := search_le_nd_ediv d 4 (d / 750 + 1) hd (by decide) (by decide)
      (Or.inr (by omega)) h1 h2
    omega
  · intro h1 h2
    have := search_le_nd_ediv d 5 (d / 600) hd (by decide) (by decide) (Or.inl (by omega)) h1 h2
    omega
  · intro h1 h2
    have := search_le_nd_ediv d 5 (d / 600 + 1) hd (by decide) (by decide)
      (Or.inr (by omega)) h1 h2
    omega
  · intro h1 h2
    have := search_le_dbl_ediv d 1 (d / 6000) hd (by decide) (by decide) (by decide)
      (Or.inl (by omega)) h1 h2
    omega
  · intro h1 h2
    have := search_le_dbl_ediv d 1 (d / 6000 + 1) hd (by decide) (by decide) (by decide)
      (Or.inr (by omega)) h1 h2
    omega

/-- Non-doubled divisor `M` whose multipliers all fall short of the target:
the search still beats the best of them, `381000 / M`. -/
theorem clipped_high_nd (B d M : Int) (w : WitnessBounds B d) (hd : 20000 ≤ d)
    (hd2 : d ≤ 400000) (hM : 1 ≤ M) (hM2 : M ≤ 15) (h : 384000 ≤ M * d) :
    B + 381000 / M ≤ d := by
  obtain ⟨a1, a2, b1, b2, c1, c2, d1, d2, e1, e2, f1, f2⟩ := w
  interval_cases M <;> norm_num at h ⊢ <;> omega

/-- Non-doubled divisor `M` whose multipliers all overshoot the target. -/
theorem clipped_low_nd (B d M : Int) (w : WitnessBounds B d) (hd : 20000 ≤ d)
    (hd2 : d ≤ 400000) (hM : 1 ≤ M) (hM2 : M ≤ 15) (h : M * d < 27000) :
    B + d ≤ 30000 / M := by
  obtain ⟨a1, a2, b1, b2, c1, c2, d1, d2, e1, e2, f1, f2⟩ := w
  interval_cases M <;> norm_num at h ⊢ <;> omega

/-- Doubled divisor `M` whose multipliers all fall short of the target. -/
theorem clipped_high_dbl (B d M : Int) (w : WitnessBounds B d) (hd : 20000 ≤ d)
    (hd2 : d ≤ 400000) (hM : 1 ≤ M) (hM2 : M ≤ 15) (h : 768000 ≤ M * d) :
    B + 762000 / M ≤ d := by
  obtain ⟨a1, a2, b1, b2, c1, c2, d1, d2, e1, e2, f1, f2⟩ := w
  interval_cases M <;> norm_num at h ⊢ <;> omega

/-- Doubled divisor `M` whose multipliers all overshoot the target. -/
theorem clipped_low_dbl (B d M : Int) (w : WitnessBounds B d) (hd : 20000 ≤ d)
    (hd2 : d ≤ 400000) (hM : 1 ≤ M) (hM2 : M ≤ 15) (h : M * d < 378000) :
    B + d ≤ 384000 / M := by
  obtain ⟨a1, a2, b1, b2, c1, c2, d1, d2, e1, e2, f1, f2⟩ := w
  interval_cases M <;> norm_num at h ⊢ <;> omega

/-- Multipliers up to `M*d/b` stay at or below the target, larger ones reach it. -/
theorem div_side (b d M N : Int) (hb : 0 < b) (hM : 0 < M) :
    (N ≤ M * d / b → b * N / M ≤ d) ∧ (M * d / b + 1 ≤ N → d ≤ b * N / M) := by
  have h1 : b * (M * d / b) ≤ M * d := Int.mul_ediv_self_le (ne_of_gt hb)
  have h2 : M * d < b * (M * d / b) + b := Int.lt_mul_ediv_self_add hb
  have hc : M * d / M = d := Int.mul_ediv_cancel_left d (ne_of_gt hM)
  constructor
  · intro h
    have h3 : b * N ≤ b * (M * d / b) := mul_le_mul_of_nonneg_left h (le_of_lt hb)
    have h4 : b * N / M ≤ M * d / M := Int.ediv_le_ediv hM (le_trans h3 h1)
    rw [hc] at h4
    exact h4
  · intro h
    have h3 : b * (M * d / b + 1) ≤ b * N := mul_le_mul_of_nonneg_left h (le_of_lt hb)
    have h5 : b * (M * d / b + 1) = b * (M * d / b) + b := by ring
    have h4 : M * d / M ≤ b * N / M := Int.ediv_le_ediv hM (by omega)
    rw [hc] at h4
    exact h4

theorem div_mono (b M N N' : Int) (hb : 0 < b) (hM : 0 < M) (h : N ≤ N') :
    b * N / M ≤ b * N' / M :=
  Int.ediv_le_ediv hM (mul_le_mul_of_nonneg_left h (le_of_lt hb))

/-- The search result is at least as good as every non-doubled configuration
within the hardware bounds (Euclidean-division form). -/
theorem search_optimal_nd_ediv (d N M : Int) (hd : 20000 ≤ d) (hd2 : d ≤ 400000)
    (hM : 1 ≤ M) (hM2 : M ≤ 15) (hN : 10 ≤ N) (hN2 : N ≤ 127) :
    (pll_search d).best_diff ≤ ((3000 * N / M - d).natAbs : Int) := by
  have w := search_witness_bounds d (by omega)
  have hMpos : (0 : Int) < M := by omega
  rcases le_or_lt N (M * d / 3000) with hq | hq
  · have s1 := (div_side 3000 d M N (by decide) hMpos).1 hq
    by_cases h127 : M * d / 3000 ≤ 127
    · have c := search_le_nd_ediv d M (M * d / 3000) (by omega) hM hM2 (Or.inl rfl)
        (by omega) (by omega)
      have s2 := (div_side 3000 d M (M * d / 3000) (by decide) hMpos).1 (le_refl _)
      have s3 := div_mono 3000 M N (M * d / 3000) (by decide) hMpos hq
      omega
    · have hbig : 384000 ≤ M * d := by
        have := Int.mul_ediv_self_le (x := M * d) (k := 3000) (by decide)
        omega
      have c := clipped_high_nd _ d M w hd hd2 hM hM2 hbig
      have s3 := div_mono 3000 M N 127 (by decide) hMpos hN2
      norm_num at s3
      omega
  · have s1 := (div_side 3000 d M N (by decide) hMpos).2 (by omega)
    by_cases h9 : 9 < M * d / 3000 + 1
    · have c := search_le_nd_ediv d M (M * d / 3000 + 1) (by omega) hM hM2 (Or.inr rfl)
        h9 (by omega)
      have s2 := (div_side 3000 d M (M * d / 3000 + 1) (by decide) hMpos).2 (le_refl _)
      have s3 := div_mono 3000 M (M * d / 3000 + 1) N (by decide) hMpos (by omega)
      omega
    · have hsmall : M * d < 27000 := by
        have := Int.lt_mul_ediv_self_add (x := M * d) (k := 3000) (by decide)
        omega
      have c := clipped_low_nd _ d M w hd hd2 hM hM2 hsmall
      have s3 := div_mono 3000 M 10 N (by decide) hMpos hN
      norm_num at s3
      omega

/-- The search result is at least as good as every doubled configuration
within the hardware bounds (Euclidean-division form). -/
theorem search_optimal_dbl_ediv (d N M : Int) (hd : 20000 ≤ d) (hd2 : d ≤ 400000)
    (hM : 1 ≤ M) (hM2 : M ≤ 15) (hN : 64 ≤ N) (hN2 : N ≤ 127) :
    (pll_search d).best_diff ≤ ((6000 * N / M - d).natAbs : Int) := by
  have w := search_witness_bounds d (by omega)
  have hMpos : (0 : Int) < M := by omega
  by_cases hodd : M % 2 = 1
  · rcases le_or_lt N (M * d / 6000) with hq | hq
    · have s1 := (div_side 6000 d M N (by decide) hMpos).1 hq
      by_cases h127 : M * d / 6000 ≤ 127
      · have c := search_le_dbl_ediv d M (M * d / 6000) (by omega) hM hM2 hodd (Or.inl rfl)
          (by omega) (by omega)
        have s2 := (div_side 6000 d M (M * d / 6000) (by decide) hMpos).1 (le_refl _)
        have s3 := div_mono 6000 M N (M * d / 6000) (by decide) hMpos hq
        omega
      · have hbig : 768000 ≤ M * d := by
          have := Int.mul_ediv_self_le (x := M * d) (k := 6000) (by decide)
          omega
        have c := clipped_high_dbl _ d M w hd hd2 hM hM2 hbig
        have s3 := div_mono 6000 M N 127 (by decide) hMpos hN2
        norm_num at s3
        omega
    · have s1 := (div_side 6000 d M N (by decide) hMpos).2 (by omega)
      by_cases h63 : 63 < M * d / 6000 + 1
      · have c := search_le_dbl_ediv d M (M * d / 6000 + 1) (by omega) hM hM2 hodd (Or.inr rfl)
          h63 (by omega)
        have s2 := (div_side 6000 d M (M * d / 6000 + 1) (by decide) hMpos).2 (le_refl _)
        have s3 := div_mono 6000 M (M * d / 6000 + 1) N (by decide) hMpos (by omega)
        omega
      · have hsmall : M * d < 378000 := by
          have := Int.lt_mul_ediv_self_add (x := M * d) (k := 6000) (by decide)
          omega
        have c := clipped_low_dbl _ d M w hd hd2 hM hM2 hsmall
        have s3 := div_mono 6000 M 64 N (by decide) hMpos hN
        norm_num at s3
        omega
  · have hM2e : M = 2 * (M / 2) := by omega
    have e : 6000 * N / M = 3000 * N / (M / 2) := by
      have h6 : 6000 * N = 2 * (3000 * N) := by ring
      rw [h6]
      conv_lhs => rw [hM2e]
      exact Int.mul_ediv_mul_of_pos _ _ (by decide)
    rw [e]
    exact search_optimal_nd_ediv d N (M / 2) hd hd2 (by omega) (by omega) (by omega) hN2

theorem search_diff_small (d : Int) (hd : 20000 ≤ d) (hd2 : d ≤ 400000) :
    (pll_search d).best_diff ≤ 3000 := by
  obtain ⟨a1, a2, b1, b2, c1, c2, d1, d2, e1, e2, f1, f2⟩ := search_witness_bounds d (by omega)
  omega

/-- For an in-range target the search ends on a candidate of its enumeration:
the first one of least error. -/
theorem search_found (d : Int) (hd : 20000 ≤ d) (hd2 : d ≤ 400000) :
    ∃ pre c post, enumerated d = pre ++ c :: post ∧ pll_search d = taken d c ∧
      (∀ x ∈ pre, error d c < error d x) ∧ (∀ x ∈ post, error d c ≤ error d x) := by
  have hs := search_diff_small d hd hd2
  rw [pll_search_eq_foldl] at hs ⊢
  rcases foldl_pick_spec d (enumerated d) best_init with
    ⟨h1, -⟩ | ⟨pre, c, post, hl, hr, -, hpre, hpost⟩
  · rw [h1] at hs
    exact absurd hs (by decide)
  · exact ⟨pre, c, post, hl, hr, hpre, hpost⟩

/-! ## Solver: the claims -/

theorem search_error_eq (d : Int) (hd : 20000 ≤ d) (hd2 : d ≤ 400000) :
    error d (chosen (pll_search d)) = (pll_search d).best_diff := by
  obtain ⟨pre, c, post, -, hr, -, -⟩ := search_found d hd hd2
  rw [hr]
  rfl

/-- The error of the chosen configuration is at most that of any configuration
within the hardware bounds, with C's truncating division. -/
theorem search_optimal_tdiv (d N M : Int) (hd : 20000 ≤ d ∧ d ≤ 400000)
    (hM : 1 ≤ M ∧ M ≤ 15) :
    (10 ≤ N ∧ N ≤ 127 →
      |achieved (chosen (pll_search d)) - d| ≤ |(3000 * N).tdiv M - d|) ∧
    (64 ≤ N ∧ N ≤ 127 →
      |achieved (chosen (pll_search d)) - d| ≤ |(6000 * N).tdiv M - d|) := by
  have he := search_error_eq d hd.1 hd.2
  unfold error at he
  rw [he]
  constructor
  · intro hN
    have := search_optimal_nd_ediv d N M hd.1 hd.2 hM.1 hM.2 hN.1 hN.2
    rw [Int.tdiv_eq_ediv (by omega) (by omega), Int.abs_eq_natAbs]
    exact this
  · intro hN
    have := search_optimal_dbl_ediv d N M hd.1 hd.2 hM.1 hM.2 hN.1 hN.2
    rw [Int.tdiv_eq_ediv (by omega) (by omega), Int.abs_eq_natAbs]
    exact this

theorem find_first (p : Config → Bool) (pre post : List Config) (c : Config)
    (hpre : ∀ x ∈ pre, p x = false) (hc : p c = true) :
    (pre ++ c :: post).find? p = some c := by
  induction pre with
  | nil => simp [List.find?, hc]
  | cons a pre ih =>
    have ha : p a = false := hpre a (List.mem_cons_self a pre)
    simp only [List.cons_append, List.find?, ha]
    exact ih (fun x hx => hpre x (List.mem_cons_of_mem a hx))

theorem search_earliest_min (d : Int) (hd : 20000 ≤ d) (hd2 : d ≤ 400000) :
    earliest_min d (enumerated d) = some (chosen (pll_search d)) := by
  obtain ⟨pre, c, post, hl, hr, hpre, hpost⟩ := search_found d hd hd2
  have hch : chosen (pll_search d) = c := by rw [hr]; rfl
  rw [hch]
  unfold earliest_min
  rw [hl]
  apply find_first
  · intro x hx
    simp only [decide_eq_false_iff_not, not_forall]
    exact ⟨c, by simp, not_le.mpr (hpre x hx)⟩
  · simp only [decide_eq_true_eq]
    intro x hx
    rcases List.mem_append.mp hx with h | h
    · exact le_of_lt (hpre x h)
    · rcases List.mem_cons.mp h with rfl | h
      · exact le_refl _
      · exact hpost x h

/-- Every candidate the search enumerates has its divisor and multiplier within
the hardware bounds; doubled candidates have an odd divisor. -/
theorem enumerated_bounds (d : Int) (c : Config) (hc : c ∈ enumerated d) :
    1 ≤ c.m ∧ c.m ≤ 15 ∧ 10 ≤ c.n ∧ c.n ≤ 127 ∧ (c.dbl ≠ 0 → 64 ≤ c.n) ∧
    (c.dbl = 0 ∨ c.dbl = 1) ∧ (c.dbl ≠ 0 → c.m % 2 = 1) := by
  obtain ⟨m, h1, h15, hm⟩ := (mem_enum_upto d 15 c).mp hc
  rw [mem_cands_at] at hm
  rcases hm with ⟨e, e0, h9, h128, -⟩ | ⟨e, e1, hodd, h63, h128, -⟩
  · refine ⟨by omega, by omega, by omega, by omega, ?_, Or.inl e0, ?_⟩ <;>
      intro h <;> exact absurd e0 h
  · exact ⟨by omega, by omega, by omega, by omega, fun _ => by omega, Or.inr e1,
      fun _ => by omega⟩

theorem search_chosen_mem (d : Int) (hd : 20000 ≤ d) (hd2 : d ≤ 400000) :
    chosen (pll_search d) ∈ enumerated d := by
  obtain ⟨pre, c, post, hl, hr, -, -⟩ := search_found d hd hd2
  rw [hr, hl]
  show c ∈ pre ++ c :: post
  simp

/-- In range, `sunxi_lcdc_pll_set` hands back the divisor and the doubler flag
the search ended on. -/
theorem pll_set_returns_search (s : Hw) (d j1 j2 : Int) (hd : 20000 ≤ d ∧ d ≤ 400000) :
    (sunxi_lcdc_pll_set s d j1 j2).2 = ((pll_search d).best_m, (pll_search d).best_double) := by
  have hr : ¬ (d < 20000 ∨ d > 400000) := by omega
  unfold sunxi_lcdc_pll_set
  rw [if_neg hr]

/-- C1: for every target `d` with `20000 ≤ d ≤ 400000` the configuration chosen
by the search of `sunxi_lcdc_pll_set` has absolute error `|achieved - d|` no
larger than that of any configuration within the hardware bounds: non-doubled
`(3000*N)/M` with `10 ≤ N ≤ 127`, doubled `(6000*N)/M` with `64 ≤ N ≤ 127`,
both for `1 ≤ M ≤ 15`, the division truncating. -/
theorem pll_set_globally_optimal (d N M : Int) (hd : 20000 ≤ d ∧ d ≤ 400000)
    (hM : 1 ≤ M ∧ M ≤ 15) :
    (10 ≤ N ∧ N ≤ 127 →
      |achieved (chosen (pll_search d)) - d| ≤ |(3000 * N).tdiv M - d|) ∧
    (64 ≤ N ∧ N ≤ 127 →
      |achieved (chosen (pll_search d)) - d| ≤ |(6000 * N).tdiv M - d|) :=
  search_optimal_tdiv d N M hd hM

theorem pll_set_globally_optimal_witness :
    ((20000 : Int) ≤ 65000 ∧ (65000 : Int) ≤ 400000) ∧ ((1 : Int) ≤ 3 ∧ (3 : Int) ≤ 15) ∧
    ((10 ≤ (65 : Int) ∧ (65 : Int) ≤ 127 →
      |achieved (chosen (pll_search 65000)) - 65000| ≤ |(3000 * 65 : Int).tdiv 3 - 65000|) ∧
    (64 ≤ (65 : Int) ∧ (65 : Int) ≤ 127 →
      |achieved (chosen (pll_search 65000)) - 65000| ≤ |(6000 * 65 : Int).tdiv 3 - 65000|)) :=
  ⟨by decide, by decide, pll_set_globally_optimal 65000 65 3 (by decide) (by decide)⟩

set_option maxRecDepth 100000 in
/-- C2: a target `d` in `[20000, 400000]` that equals `(3000*N)/M` for some
`1 ≤ M ≤ 15`, `10 ≤ N ≤ 127`, or `(6000*N)/M` for some `1 ≤ M ≤ 15`,
`64 ≤ N ≤ 127`, is achieved exactly by the chosen configuration (error 0); the
built-in 65000 kHz yields `N = 65`, `M = 3`, not doubled, achieving 65000. -/
theorem pll_set_exact_on_lattice (d N M : Int) (hd : 20000 ≤ d ∧ d ≤ 400000)
    (hM : 1 ≤ M ∧ M ≤ 15)
    (hl : (10 ≤ N ∧ N ≤ 127 ∧ d = (3000 * N).tdiv M) ∨
      (64 ≤ N ∧ N ≤ 127 ∧ d = (6000 * N).tdiv M)) :
    (achieved (chosen (pll_search d)) = d ∧ (pll_search d).best_diff = 0) ∧
    (chosen (pll_search 65000) = ⟨65, 3, 0⟩ ∧ achieved ⟨65, 3, 0⟩ = 65000) := by
  refine ⟨?_, by decide, by decide⟩
  have he := search_error_eq d hd.1 hd.2
  have h0 : |achieved (chosen (pll_search d)) - d| ≤ 0 := by
    rcases hl with ⟨h1, h2, h3⟩ | ⟨h1, h2, h3⟩
    · have := (search_optimal_tdiv d N M hd hM).1 ⟨h1, h2⟩
      rw [← h3] at this
      simpa using this
    · have := (search_optimal_tdiv d N M hd hM).2 ⟨h1, h2⟩
      rw [← h3] at this
      simpa using this
  have h1 : achieved (chosen (pll_search d)) - d = 0 := abs_nonpos_iff.mp h0
  constructor
  · omega
  · rw [← he]; unfold error; rw [h1]; rfl

theorem pll_set_exact_on_lattice_witness :
    (((20000 : Int) ≤ 65000 ∧ (65000 : Int) ≤ 400000) ∧ ((1 : Int) ≤ 3 ∧ (3 : Int) ≤ 15) ∧
      ((10 : Int) ≤ 65 ∧ (65 : Int) ≤ 127 ∧ (65000 : Int) = (3000 * 65 : Int).tdiv 3)) ∧
    (achieved (chosen (pll_search 65000)) = 65000 ∧ (pll_search 65000).best_diff = 0) :=
  ⟨by decide,
    (pll_set_exact_on_lattice 65000 65 3 (by decide) (by decide) (Or.inl (by decide))).1⟩

set_option maxRecDepth 100000 in
/-- C3, as amended: for every target `d` with `20000 ≤ d ≤ 400000` the returned
configuration is the earliest candidate of least error in the order the search
enumerates: divisor from 15 down to 1; per divisor non-doubled `N`, non-doubled
`N+1`, and for odd divisors only, doubled `N`, doubled `N+1`; each only when
its multiplier is legal.  For the tie at `d = 30000` the result is `M = 15`,
`N = 75`, doubled, although `M = 12`, `N = 120` non-doubled is enumerated and
exact as well. -/
theorem pll_set_returns_earliest_min (d : Int) (hd : 20000 ≤ d ∧ d ≤ 400000) :
    earliest_min d (enumerated d) = some (chosen (pll_search d)) ∧
    (chosen (pll_search 30000) = ⟨75, 15, 1⟩ ∧ (⟨120, 12, 0⟩ : Config) ∈ enumerated 30000 ∧
      error 30000 ⟨120, 12, 0⟩ = 0) :=
  ⟨search_earliest_min d hd.1 hd.2, by decide, by decide, by decide⟩

theorem pll_set_returns_earliest_min_witness :
    ((20000 : Int) ≤ 30000 ∧ (30000 : Int) ≤ 400000) ∧
    earliest_min 30000 (enumerated 30000) = some (chosen (pll_search 30000)) :=
  ⟨by decide, (pll_set_returns_earliest_min 30000 (by decide)).1⟩

set_option maxRecDepth 100000 in
/-- C3, counterexample to the claim as worded: at `d = 27402` the order that
lists the doubled pair for every divisor has `M = 14`, `N = 64`, doubled, as
its earliest candidate of least error, while the search returns `M = 7`,
`N = 64`, not doubled (the same error, 26). -/
theorem claimed_order_not_followed :
    ((20000 : Int) ≤ 27402 ∧ (27402 : Int) ≤ 400000) ∧
    earliest_min 27402 (claimed_enumeration 27402) = some ⟨64, 14, 1⟩ ∧
    chosen (pll_search 27402) = ⟨64, 7, 0⟩ ∧
    error 27402 ⟨64, 14, 1⟩ = 26 ∧ error 27402 ⟨64, 7, 0⟩ = 26 ∧
    earliest_min 27402 (claimed_enumeration 27402) ≠ some (chosen (pll_search 27402)) := by
  decide

/-- C4: for every target `d` with `20000 ≤ d ≤ 400000` the search finds a
candidate, and `sunxi_lcdc_pll_set` returns a divisor `M` with `1 ≤ M ≤ 15`
and programs a multiplier `N` with `10 ≤ N ≤ 127` (`64 ≤ N` when the doubler
flag is set); `N` passes the mask `0x7F`, `M - 1` the mask `0x0F` and `M << 4`
the mask `0xf0` unchanged. -/
theorem pll_set_fields_in_range (s : Hw) (d j1 j2 : Int) (hd : 20000 ≤ d ∧ d ≤ 400000) :
    ((pll_search d).best_diff < 0x0FFFFFFF ∧ chosen (pll_search d) ∈ enumerated d) ∧
    ((sunxi_lcdc_pll_set s d j1 j2).2.1 = (pll_search d).best_m ∧
      (sunxi_lcdc_pll_set s d j1 j2).2.2 = (pll_search d).best_double) ∧
    (1 ≤ (pll_search d).best_m ∧ (pll_search d).best_m ≤ 15) ∧
    (10 ≤ (pll_search d).best_n ∧ (pll_search d).best_n ≤ 127) ∧
    ((pll_search d).best_double ≠ 0 → 64 ≤ (pll_search d).best_n) ∧
    u32 (pll_search d).best_n &&& 0x7F = u32 (pll_search d).best_n ∧
    u32 ((pll_search d).best_m - 1) &&& 0x0F = u32 ((pll_search d).best_m - 1) ∧
    u32 ((pll_search d).best_m * 16) &&& 0xf0 = u32 ((pll_search d).best_m * 16) := by
  have hs := search_diff_small d hd.1 hd.2
  have hmem := search_chosen_mem d hd.1 hd.2
  have hret := pll_set_returns_search s d j1 j2 hd
  obtain ⟨m1, m15, n10, n127, hdbl, -, -⟩ := enumerated_bounds d _ hmem
  simp only [chosen] at m1 m15 n10 n127 hdbl
  refine ⟨⟨by omega, hmem⟩, ⟨by rw [hret], by rw [hret]⟩, ⟨m1, m15⟩, ⟨n10, n127⟩, hdbl,
    ?_, ?_, ?_⟩
  · generalize (pll_search d).best_n = n at n10 n127
    interval_cases n <;> decide
  · generalize (pll_search d).best_m = m at m1 m15
    interval_cases m <;> decide
  · generalize (pll_search d).best_m = m at m1 m15
    interval_cases m <;> decide

set_option maxRecDepth 100000 in
theorem pll_set_fields_in_range_witness :
    ((20000 : Int) ≤ 65000 ∧ (65000 : Int) ≤ 400000) ∧
    ((pll_search 65000).best_m = 3 ∧ (pll_search 65000).best_n = 65) ∧
    (1 ≤ (pll_search 65000).best_m ∧ (pll_search 65000).best_m ≤ 15) ∧
    (10 ≤ (pll_search 65000).best_n ∧ (pll_search 65000).best_n ≤ 127) :=
  ⟨by decide, by decide,
    (pll_set_fields_in_range power_on 65000 0 0 (by decide)).2.2.1,
    (pll_set_fields_in_range power_on 65000 0 0 (by decide)).2.2.2.1⟩

/-! ## Register layer: reads after writes, bit fields -/

@[simp]
theorem reg_write (s : Hw) (b : Block) (o v : Nat) (b' : Block) (o' : Nat) :
    (sunxi_io_write s b o v).reg b' o' = if b' = b ∧ o' = o then v else s.reg b' o' := rfl

@[simp]
theorem reg_mask (s : Hw) (b : Block) (o v m : Nat) (b' : Block) (o' : Nat) :
    (sunxi_io_mask s b o v m).reg b' o' =
      if b' = b ∧ o' = o then (s.reg b o &&& (0xFFFFFFFF ^^^ m)) ||| (v &&& m)
      else s.reg b' o' := rfl

theorem and_or_distrib_right (a b c : Nat) : (a ||| b) &&& c = (a &&& c) ||| (b &&& c) := by
  apply Nat.eq_of_testBit_eq
  intro i
  simp only [Nat.testBit_and, Nat.testBit_or]
  cases a.testBit i <;> cases b.testBit i <;> cases c.testBit i <;> rfl

/-- After a masked write the bits under the mask are those of the value. -/
theorem mask_read (x v m : Nat) (hm : m < 4294967296) :
    ((x &&& (0xFFFFFFFF ^^^ m)) ||| (v &&& m)) &&& m = v &&& m := by
  apply Nat.eq_of_testBit_eq
  intro i
  have h32 : (0xFFFFFFFF : Nat) = 2 ^ 32 - 1 := by norm_num
  simp only [Nat.testBit_and, Nat.testBit_or, Nat.testBit_xor, h32, Nat.testBit_two_pow_sub_one]
  by_cases hi : i < 32
  · simp [hi]
    cases x.testBit i <;> cases v.testBit i <;> cases m.testBit i <;> rfl
  · have : m.testBit i = false := by
      apply Nat.testBit_lt_two_pow
      calc m < 2 ^ 32 := hm
        _ ≤ 2 ^ i := Nat.pow_le_pow_right (by decide) (by omega)
    simp [hi, this]

/-- After a masked write the bits outside the mask are unchanged. -/
theorem mask_keep (x v m k : Nat) (hk : k < 4294967296) (hmk : m &&& k = 0) :
    ((x &&& (0xFFFFFFFF ^^^ m)) ||| (v &&& m)) &&& k = x &&& k := by
  apply Nat.eq_of_testBit_eq
  intro i
  have h32 : (0xFFFFFFFF : Nat) = 2 ^ 32 - 1 := by norm_num
  have hb : (m &&& k).testBit i = false := by rw [hmk]; simp
  rw [Nat.testBit_and] at hb
  simp only [Nat.testBit_and, Nat.testBit_or, Nat.testBit_xor, h32, Nat.testBit_two_pow_sub_one]
  by_cases hi : i < 32
  · simp [hi]
    revert hb
    cases x.testBit i <;> cases v.testBit i <;> cases m.testBit i <;> cases k.testBit i <;> simp
  · have : k.testBit i = false := by
      apply Nat.testBit_lt_two_pow
      calc k < 2 ^ 32 := hk
        _ ≤ 2 ^ i := Nat.pow_le_pow_right (by decide) (by omega)
    simp [this]


theorem affine_id : Affine (fun s => s) := ⟨fun _ _ => none, fun _ _ _ => rfl⟩

theorem affine_write (F : Hw → Hw) (hF : Affine F) (b : Block) (o v : Nat) :
    Affine (fun s => sunxi_io_write (F s) b o v) := by
  obtain ⟨T, hT⟩ := hF
  refine ⟨fun b' o' => if b' = b ∧ o' = o then some (0, v) else T b' o', ?_⟩
  intro s b' o'
  simp only [reg_write]
  by_cases h : b' = b ∧ o' = o
  · simp [h]
  · simp only [h, if_false]
    exact hT s b' o'

theorem affine_mask (F : Hw → Hw) (hF : Affine F) (b : Block) (o v m : Nat) :
    Affine (fun s => sunxi_io_mask (F s) b o v m) := by
  obtain ⟨T, hT⟩ := hF
  refine ⟨fun b' o' => if b' = b ∧ o' = o then
      (match T b o with
        | none => some (0xFFFFFFFF ^^^ m, v &&& m)
        | some (K, S) => some (K &&& (0xFFFFFFFF ^^^ m), (S &&& (0xFFFFFFFF ^^^ m)) ||| (v &&& m)))
      else T b' o', ?_⟩
  intro s b' o'
  simp only [reg_mask]
  by_cases h : b' = b ∧ o' = o
  · obtain ⟨rfl, rfl⟩ := h
    simp only [and_self, if_true]
    rw [hT s b' o']
    cases hc : T b' o' with
    | none => rfl
    | some p =>
      obtain ⟨K, S⟩ := p
      simp only [and_or_distrib_right, Nat.and_assoc, Nat.or_assoc]
  · simp only [h, if_false]
    exact hT s b' o'

theorem affine_idem (F : Hw → Hw) (hF : Affine F) (s : Hw) (b : Block) (o : Nat) :
    (F (F s)).reg b o = (F s).reg b o := by
  obtain ⟨T, hT⟩ := hF
  rw [hT (F s) b o]
  cases hc : T b o with
  | none => rfl
  | some p =>
    obtain ⟨K, S⟩ := p
    simp only
    rw [hT s b o, hc]
    simp only
    apply Nat.eq_of_testBit_eq
    intro i
    simp only [Nat.testBit_and, Nat.testBit_or]
    cases (s.reg b o).testBit i <;> cases K.testBit i <;> cases S.testBit i <;> rfl

/-! ## Hotplug detection -/

theorem hpd_sample (s : Hw) :
    sunxi_io_read
      (sunxi_io_write (sunxi_io_write (sunxi_io_mask (sunxi_io_mask (sunxi_io_mask
        (sunxi_io_write s .ccmu SUNXI_CCMU_PLL7_CFG 0x8010D064)
        .ccmu SUNXI_CCMU_HDMI_CLK 0x01000000 0x03000000)
        .ccmu SUNXI_CCMU_AHB_GATING1 0x800 0x800)
        .ccmu SUNXI_CCMU_HDMI_CLK 0x80000000 0x80000000)
        .hdmi SUNXI_HDMI_CTRL 0x80000000)
        .hdmi SUNXI_HDMI_TX_DRIVER0 0xA0800000) .hdmi SUNXI_HDMI_HPD
      = s.reg .hdmi SUNXI_HDMI_HPD := by
  simp [sunxi_io_read]

/-- What `sunxi_hdmi_hpd_detect` leaves behind when no sink is sensed. -/
theorem hpd_detect_absent_state (s : Hw) (h : s.reg .hdmi SUNXI_HDMI_HPD &&& 0x01 = 0) :
    sunxi_hdmi_hpd_detect s =
      (sunxi_io_mask (sunxi_io_mask (sunxi_io_mask (sunxi_io_write
        (sunxi_io_write (sunxi_io_write (sunxi_io_mask (sunxi_io_mask (sunxi_io_mask
        (sunxi_io_write s .ccmu SUNXI_CCMU_PLL7_CFG 0x8010D064)
        .ccmu SUNXI_CCMU_HDMI_CLK 0x01000000 0x03000000)
        .ccmu SUNXI_CCMU_AHB_GATING1 0x800 0x800)
        .ccmu SUNXI_CCMU_HDMI_CLK 0x80000000 0x80000000)
        .hdmi SUNXI_HDMI_CTRL 0x80000000)
        .hdmi SUNXI_HDMI_TX_DRIVER0 0xA0800000)
        .hdmi SUNXI_HDMI_CTRL 0)
        .ccmu SUNXI_CCMU_HDMI_CLK 0 0x80000000)
        .ccmu SUNXI_CCMU_AHB_GATING1 0 0x800)
        .ccmu SUNXI_CCMU_PLL7_CFG 0 0x80000000, 0) := by
  unfold sunxi_hdmi_hpd_detect
  simp only [hpd_sample, h, ne_eq, not_true_eq_false, if_false]

theorem hpd_detect_present_state (s : Hw) (h : s.reg .hdmi SUNXI_HDMI_HPD &&& 0x01 ≠ 0) :
    sunxi_hdmi_hpd_detect s =
      (sunxi_io_write (sunxi_io_write (sunxi_io_mask (sunxi_io_mask (sunxi_io_mask
        (sunxi_io_write s .ccmu SUNXI_CCMU_PLL7_CFG 0x8010D064)
        .ccmu SUNXI_CCMU_HDMI_CLK 0x01000000 0x03000000)
        .ccmu SUNXI_CCMU_AHB_GATING1 0x800 0x800)
        .ccmu SUNXI_CCMU_HDMI_CLK 0x80000000 0x80000000)
        .hdmi SUNXI_HDMI_CTRL 0x80000000)
        .hdmi SUNXI_HDMI_TX_DRIVER0 0xA0800000, 1) := by
  unfold sunxi_hdmi_hpd_detect
  simp only [hpd_sample, h, ne_eq, not_false_eq_true, if_true]

/-- C6, as amended: when bit 0 of the hotplug register reads clear,
`sunxi_hdmi_hpd_detect` returns 0 with what it switched on switched off again,
not with the registers restored: `HDMI_CTRL` reads 0, `TX_DRIVER0` keeps
`0xA0800000`, `PLL7_CFG` keeps its new setting with bit 31 clear
(`0x0010D064`), `HDMI_CLK` has bit 31 clear and the parent field 25:24 at 01
with its other bits as before, `AHB_GATING1` has bit 11 clear with its other
bits as before, and every other register holds its pre-call value. -/
theorem hpd_detect_absent_powers_down (s : Hw)
    (h : s.reg .hdmi SUNXI_HDMI_HPD &&& 0x01 = 0) :
    (sunxi_hdmi_hpd_detect s).2 = 0 ∧
    (sunxi_hdmi_hpd_detect s).1.reg .hdmi SUNXI_HDMI_CTRL = 0 ∧
    (sunxi_hdmi_hpd_detect s).1.reg .hdmi SUNXI_HDMI_TX_DRIVER0 = 0xA0800000 ∧
    (sunxi_hdmi_hpd_detect s).1.reg .ccmu SUNXI_CCMU_PLL7_CFG = 0x0010D064 ∧
    (sunxi_hdmi_hpd_detect s).1.reg .ccmu SUNXI_CCMU_HDMI_CLK &&& 0x80000000 = 0 ∧
    (sunxi_hdmi_hpd_detect s).1.reg .ccmu SUNXI_CCMU_HDMI_CLK &&& 0x03000000 = 0x01000000 ∧
    (sunxi_hdmi_hpd_detect s).1.reg .ccmu SUNXI_CCMU_HDMI_CLK &&& 0x7CFFFFFF =
      s.reg .ccmu SUNXI_CCMU_HDMI_CLK &&& 0x7CFFFFFF ∧
    (sunxi_hdmi_hpd_detect s).1.reg .ccmu SUNXI_CCMU_AHB_GATING1 &&& 0x800 = 0 ∧
    (sunxi_hdmi_hpd_detect s).1.reg .ccmu SUNXI_CCMU_AHB_GATING1 &&& 0xFFFFF7FF =
      s.reg .ccmu SUNXI_CCMU_AHB_GATING1 &&& 0xFFFFF7FF ∧
    (∀ b o, ¬ (b = .hdmi ∧ (o = SUNXI_HDMI_CTRL ∨ o = SUNXI_HDMI_TX_DRIVER0)) →
      ¬ (b = .ccmu ∧ (o = SUNXI_CCMU_PLL7_CFG ∨ o = SUNXI_CCMU_HDMI_CLK ∨
        o = SUNXI_CCMU_AHB_GATING1)) →
      (sunxi_hdmi_hpd_detect s).1.reg b o = s.reg b o) := by
  rw [hpd_detect_absent_state s h]
  refine ⟨rfl, ?_, ?_, ?_, ?_, ?_, ?_, ?_, ?_, ?_⟩
  · simp +decide only [reg_mask, reg_write, if_true, if_false]
  · simp +decide only [reg_mask, reg_write, if_true, if_false]
  · simp +decide only [reg_mask, reg_write, if_true, if_false]
  · simp +decide only [reg_mask, reg_write, if_true, if_false]
    rw [mask_read _ _ _ (by decide)]
    decide
  · simp +decide only [reg_mask, reg_write, if_true, if_false]
    rw [mask_keep _ _ _ _ (by decide) (by decide), mask_keep _ _ _ _ (by decide) (by decide),
      mask_read _ _ _ (by decide)]
    decide
  · simp +decide only [reg_mask, reg_write, if_true, if_false]
    rw [mask_keep _ _ _ _ (by decide) (by decide), mask_keep _ _ _ _ (by decide) (by decide),
      mask_keep _ _ _ _ (by decide) (by decide)]
  · simp +decide only [reg_mask, reg_write, if_true, if_false]
    rw [mask_read _ _ _ (by decide)]
    decide
  · simp +decide only [reg_mask, reg_write, if_true, if_false]
    rw [mask_keep _ _ _ _ (by decide) (by decide), mask_keep _ _ _ _ (by decide) (by decide)]
  · intro b o h1 h2
    have e1 : ¬ (b = .hdmi ∧ o = SUNXI_HDMI_CTRL) := fun h => h1 ⟨h.1, Or.inl h.2⟩
    have e2 : ¬ (b = .hdmi ∧ o = SUNXI_HDMI_TX_DRIVER0) := fun h => h1 ⟨h.1, Or.inr h.2⟩
    have e3 : ¬ (b = .ccmu ∧ o = SUNXI_CCMU_PLL7_CFG) := fun h => h2 ⟨h.1, Or.inl h.2⟩
    have e4 : ¬ (b = .ccmu ∧ o = SUNXI_CCMU_HDMI_CLK) := fun h => h2 ⟨h.1, Or.inr (Or.inl h.2)⟩
    have e5 : ¬ (b = .ccmu ∧ o = SUNXI_CCMU_AHB_GATING1) :=
      fun h => h2 ⟨h.1, Or.inr (Or.inr h.2)⟩
    simp only [reg_mask, reg_write, e1, e2, e3, e4, e5, if_false]

set_option maxRecDepth 100000 in
theorem hpd_detect_absent_powers_down_witness :
    power_on.reg .hdmi SUNXI_HDMI_HPD &&& 0x01 = 0 ∧
    (sunxi_hdmi_hpd_detect power_on).2 = 0 ∧
    (sunxi_hdmi_hpd_detect power_on).1.reg .ccmu SUNXI_CCMU_PLL7_CFG = 0x0010D064 :=
  ⟨by decide, (hpd_detect_absent_powers_down power_on (by decide)).1,
    (hpd_detect_absent_powers_down power_on (by decide)).2.2.2.1⟩

set_option maxRecDepth 100000 in
/-- C6, counterexample to the claim as worded: from the all-zero state, whose
hotplug bit reads clear, `sunxi_hdmi_hpd_detect` returns 0 and `PLL7_CFG`,
`HDMI_CLK` and `TX_DRIVER0` do not hold their pre-call values. -/
theorem hpd_detect_not_restored :
    power_on.reg .hdmi SUNXI_HDMI_HPD &&& 0x01 = 0 ∧
    (sunxi_hdmi_hpd_detect power_on).2 = 0 ∧
    (sunxi_hdmi_hpd_detect power_on).1.reg .ccmu SUNXI_CCMU_PLL7_CFG ≠
      power_on.reg .ccmu SUNXI_CCMU_PLL7_CFG ∧
    (sunxi_hdmi_hpd_detect power_on).1.reg .ccmu SUNXI_CCMU_HDMI_CLK ≠
      power_on.reg .ccmu SUNXI_CCMU_HDMI_CLK ∧
    (sunxi_hdmi_hpd_detect power_on).1.reg .hdmi SUNXI_HDMI_TX_DRIVER0 ≠
      power_on.reg .hdmi SUNXI_HDMI_TX_DRIVER0 := by
  decide

/-! ## Engine initialisation and the run of `video_hw_init` -/

/-- A wait loop entered right after its bits were set clears them in one pass. -/
theorem toggle_wait_after_set (b : Block) (o m fuel : Nat) (s : Hw) (hm : m ≠ 0)
    (hm32 : m < 4294967296) :
    toggle_wait b o m (fuel + 1) (sunxi_io_mask s b o m m) =
      some (sunxi_io_mask (sunxi_io_mask s b o m m) b o 0 m) := by
  have h1 : sunxi_io_read (sunxi_io_mask s b o m m) b o &&& m = m := by
    simp only [sunxi_io_read, reg_mask, and_self, if_true]
    rw [mask_read _ _ _ hm32, Nat.and_self]
  have h2 : sunxi_io_read (sunxi_io_mask (sunxi_io_mask s b o m m) b o 0 m) b o &&& m = 0 := by
    simp only [sunxi_io_read, reg_mask, and_self, if_true]
    rw [mask_read _ _ _ hm32, Nat.zero_and]
  unfold toggle_wait
  rw [h1, if_pos hm]
  cases fuel with
  | zero => unfold toggle_wait; rw [h2]; rfl
  | succ f => unfold toggle_wait; rw [h2]; rfl

theorem sunxi_lcdc_init_returns (fuel : Nat) (hf : 1 ≤ fuel) (s : Hw) :
    sunxi_lcdc_init fuel s = some (lcdc_init_result s) := by
  obtain ⟨f, rfl⟩ : ∃ f, fuel = f + 1 := ⟨fuel - 1, by omega⟩
  unfold sunxi_lcdc_init
  simp only [toggle_wait_after_set _ _ _ _ _ (by decide : (0x80000000 : Nat) ≠ 0) (by decide),
    toggle_wait_after_set _ _ _ _ _ (by decide : (0x80008000 : Nat) ≠ 0) (by decide)]
  rfl

theorem sunxi_engines_init_returns (fuel : Nat) (hf : 1 ≤ fuel) (s : Hw) :
    sunxi_engines_init fuel s = some (lcdc_init_result (sunxi_composer_init s)) :=
  sunxi_lcdc_init_returns fuel hf _

/-- The run of `video_hw_init` when a sink is sensed, in the plain-memory model. -/
theorem video_hw_init_connected (pf : Platform) (fuel : Nat) (j1 j2 : Int) (st : Board)
    (hf : 1 ≤ fuel) (h : st.hw.reg .hdmi SUNXI_HDMI_HPD &&& 0x01 ≠ 0) :
    video_hw_init pf fuel j1 j2 st =
      some ({ hw := sunxi_mode_set pf
                (lcdc_init_result (sunxi_composer_init (sunxi_hdmi_hpd_detect st.hw).1))
                builtin_mode (sub32 st.ram_top pf.CONFIG_SYS_SDRAM_BASE) j1 j2,
              graphic_device := ⟨st.ram_top, pf.GDF_32BIT_X888RGB, 4, 1024, 768⟩,
              enabled := 1, fb_base := st.ram_top, ram_top := st.ram_top },
            some ⟨st.ram_top, pf.GDF_32BIT_X888RGB, 4, 1024, 768⟩) := by
  have hr : (sunxi_hdmi_hpd_detect st.hw).2 = 1 := by rw [hpd_detect_present_state _ h]
  unfold video_hw_init
  simp only [hr, sunxi_engines_init_returns _ hf]
  simp
  exact ⟨rfl, rfl⟩


theorem composer_clear_other (s : Hw) (k i : Nat) (b : Block) (o : Nat) (hb : b ≠ .composer) :
    (composer_clear s k i).reg b o = s.reg b o := by
  induction k generalizing s i with
  | zero => rfl
  | succ k ih =>
    unfold composer_clear
    split_ifs
    · rw [ih]
      simp [hb]
    · rfl

theorem hdmi_mode_set_other (pf : Platform) (s : Hw) (mode : fb_videomode) (d1 d2 : Int)
    (b : Block) (o : Nat) (hb : b ≠ .hdmi) :
    (sunxi_hdmi_mode_set pf s mode d1 d2).reg b o = s.reg b o := by
  unfold sunxi_hdmi_mode_set
  dsimp only
  split_ifs <;> simp [hb]

theorem composer_mode_set_other (s : Hw) (mode : fb_videomode) (a : Nat)
    (b : Block) (o : Nat) (hb : b ≠ .composer) :
    (sunxi_composer_mode_set s mode a).reg b o = s.reg b o := by
  unfold sunxi_composer_mode_set
  simp [hb]

/-- With an out-of-range clock `sunxi_lcdc_mode_set` writes timing-controller
registers only and leaves the out-parameters alone. -/
theorem lcdc_mode_set_out_of_range (s : Hw) (mode : fb_videomode) (d1 d2 : Int)
    (h : int32 mode.pixclock < 20000 ∨ int32 mode.pixclock > 400000) :
    (sunxi_lcdc_mode_set s mode d1 d2).2 = (d1, d2) ∧
    ∀ b o, b ≠ .lcdc → (sunxi_lcdc_mode_set s mode d1 d2).1.reg b o = s.reg b o := by
  unfold sunxi_lcdc_mode_set sunxi_lcdc_pll_set
  simp only [h, if_true]
  refine ⟨trivial, ?_⟩
  intro b o hb
  simp [hb]


theorem pll_set_other (s : Hw) (d d1 d2 : Int) (b : Block) (o : Nat) (hb : b ≠ .ccmu) :
    (sunxi_lcdc_pll_set s d d1 d2).1.reg b o = s.reg b o := by
  unfold sunxi_lcdc_pll_set
  dsimp only
  split_ifs <;> simp [hb]

theorem lcdc_mode_set_other (s : Hw) (mode : fb_videomode) (d1 d2 : Int) (b : Block) (o : Nat)
    (h1 : b ≠ .lcdc) (h2 : b ≠ .ccmu) :
    (sunxi_lcdc_mode_set s mode d1 d2).1.reg b o = s.reg b o := by
  unfold sunxi_lcdc_mode_set
  dsimp only
  rw [pll_set_other _ _ _ _ _ _ h2]
  simp [h1]

/-- Whatever the state, `sunxi_mode_set` programs the blender's size and base
address registers from its arguments. -/
theorem mode_set_programs_blender (pf : Platform) (s : Hw) (mode : fb_videomode) (a : Nat)
    (j1 j2 : Int) :
    (sunxi_mode_set pf s mode a j1 j2).reg .composer SUNXI_COMP_DISP_SIZE =
      (shl32 (sub32 mode.yres 1) 16 ||| sub32 mode.xres 1) ∧
    (sunxi_mode_set pf s mode a j1 j2).reg .composer SUNXI_COMP_LAYER0_ADDR_LOW = shl32 a 3 := by
  constructor
  · unfold sunxi_mode_set
    simp only [reg_mask, reg_write]
    simp +decide only [if_false]
    rw [hdmi_mode_set_other _ _ _ _ _ .composer _ (by decide),
      lcdc_mode_set_other _ _ _ _ .composer _ (by decide) (by decide)]
    unfold sunxi_composer_mode_set
    simp
  · unfold sunxi_mode_set
    simp only [reg_mask, reg_write]
    simp +decide only [if_false]
    rw [hdmi_mode_set_other _ _ _ _ _ .composer _ (by decide),
      lcdc_mode_set_other _ _ _ _ .composer _ (by decide) (by decide)]
    unfold sunxi_composer_mode_set
    simp

/-- Whatever the state, `sunxi_mode_set` programs the blender's layer size and
stride registers from the mode and ends with the blender's commit and mode bits
set. -/
theorem mode_set_programs_layer (pf : Platform) (s : Hw) (mode : fb_videomode) (a : Nat)
    (j1 j2 : Int) :
    (sunxi_mode_set pf s mode a j1 j2).reg .composer SUNXI_COMP_LAYER0_SIZE =
      (shl32 (sub32 mode.yres 1) 16 ||| sub32 mode.xres 1) ∧
    (sunxi_mode_set pf s mode a j1 j2).reg .composer SUNXI_COMP_LAYER0_STRIDE =
      shl32 mode.xres 5 ∧
    (sunxi_mode_set pf s mode a j1 j2).reg .composer SUNXI_COMP_REG_CTL &&& 0x01 = 0x01 ∧
    (sunxi_mode_set pf s mode a j1 j2).reg .composer SUNXI_COMP_MODE &&& 0x02 = 0x02 := by
  refine ⟨?_, ?_, ?_, ?_⟩
  · unfold sunxi_mode_set
    simp only [reg_mask, reg_write]
    simp +decide only [if_false]
    rw [hdmi_mode_set_other _ _ _ _ _ .composer _ (by decide),
      lcdc_mode_set_other _ _ _ _ .composer _ (by decide) (by decide)]
    unfold sunxi_composer_mode_set
    simp
  · unfold sunxi_mode_set
    simp only [reg_mask, reg_write]
    simp +decide only [if_false]
    rw [hdmi_mode_set_other _ _ _ _ _ .composer _ (by decide),
      lcdc_mode_set_other _ _ _ _ .composer _ (by decide) (by decide)]
    unfold sunxi_composer_mode_set
    simp
  · unfold sunxi_mode_set
    simp only [reg_mask, reg_write]
    simp +decide only [if_true, if_false]
    rw [mask_read _ _ _ (by decide)]
    decide
  · unfold sunxi_mode_set
    simp only [reg_mask, reg_write]
    simp +decide only [if_true, if_false]
    rw [mask_read _ _ _ (by decide)]
    decide

/-- Whatever the state, `sunxi_mode_set` programs the timing controller's
geometry and timing registers from the mode and ends with its output enabled. -/
theorem mode_set_programs_lcdc (pf : Platform) (s : Hw) (mode : fb_videomode) (a : Nat)
    (j1 j2 : Int) :
    (sunxi_mode_set pf s mode a j1 j2).reg .lcdc SUNXI_LCDC_TCON1_ENABLE = 0x800001E0 ∧
    (sunxi_mode_set pf s mode a j1 j2).reg .lcdc SUNXI_LCDC_TCON1_TIMING_SRC =
      (shl32 (sub32 mode.xres 1) 16 ||| sub32 mode.yres 1) ∧
    (sunxi_mode_set pf s mode a j1 j2).reg .lcdc SUNXI_LCDC_TCON1_TIMING_SCALE =
      (shl32 (sub32 mode.xres 1) 16 ||| sub32 mode.yres 1) ∧
    (sunxi_mode_set pf s mode a j1 j2).reg .lcdc SUNXI_LCDC_TCON1_TIMING_OUT =
      (shl32 (sub32 mode.xres 1) 16 ||| sub32 mode.yres 1) ∧
    (sunxi_mode_set pf s mode a j1 j2).reg .lcdc SUNXI_LCDC_TCON1_TIMING_H =
      (u32 ((lcdc_htotal mode - 1) * 65536) |||
        sub32 (add32 mode.hsync_len mode.left_margin) 1) ∧
    (sunxi_mode_set pf s mode a j1 j2).reg .lcdc SUNXI_LCDC_TCON1_TIMING_V =
      (u32 ((lcdc_vtotal mode * 2) * 65536) |||
        sub32 (add32 mode.vsync_len mode.upper_margin) 1) ∧
    (sunxi_mode_set pf s mode a j1 j2).reg .lcdc SUNXI_LCDC_TCON1_TIMING_SYNC =
      (shl32 (sub32 mode.hsync_len 1) 16 ||| sub32 mode.vsync_len 1) ∧
    (sunxi_mode_set pf s mode a j1 j2).reg .lcdc SUNXI_LCDC_ENABLE &&& 0x80000000 =
      0x80000000 := by
  have key : ∀ o, o ≠ SUNXI_LCDC_ENABLE → o ≠ SUNXI_LCDC_TCON1_IO_TRI →
      (sunxi_mode_set pf s mode a j1 j2).reg .lcdc o =
        (sunxi_lcdc_mode_set (sunxi_composer_mode_set
          (sunxi_io_mask (sunxi_io_mask (sunxi_io_mask s .hdmi SUNXI_HDMI_VIDEO_CTRL 0 0x80000000)
            .lcdc SUNXI_LCDC_ENABLE 0 0x80000000) .composer SUNXI_COMP_MODE 0 0x02) mode a)
          mode j1 j2).1.reg .lcdc o := by
    intro o h1 h2
    unfold sunxi_mode_set
    simp only [reg_mask, reg_write]
    simp +decide only [false_and, h1, h2, and_false, if_false]
    rw [hdmi_mode_set_other _ _ _ _ _ .lcdc _ (by decide)]
  refine ⟨?_, ?_, ?_, ?_, ?_, ?_, ?_, ?_⟩
  · rw [key _ (by decide) (by decide)]
    unfold sunxi_lcdc_mode_set
    dsimp only
    rw [pll_set_other _ _ _ _ .lcdc _ (by decide)]
    simp +decide only [reg_mask, reg_write, if_true, if_false]
  · rw [key _ (by decide) (by decide)]
    unfold sunxi_lcdc_mode_set
    dsimp only
    rw [pll_set_other _ _ _ _ .lcdc _ (by decide)]
    simp +decide only [reg_mask, reg_write, if_true, if_false]
  · rw [key _ (by decide) (by decide)]
    unfold sunxi_lcdc_mode_set
    dsimp only
    rw [pll_set_other _ _ _ _ .lcdc _ (by decide)]
    simp +decide only [reg_mask, reg_write, if_true, if_false]
  · rw [key _ (by decide) (by decide)]
    unfold sunxi_lcdc_mode_set
    dsimp only
    rw [pll_set_other _ _ _ _ .lcdc _ (by decide)]
    simp +decide only [reg_mask, reg_write, if_true, if_false]
  · rw [key _ (by decide) (by decide)]
    unfold sunxi_lcdc_mode_set
    dsimp only
    rw [pll_set_other _ _ _ _ .lcdc _ (by decide)]
    simp +decide only [reg_mask, reg_write, if_true, if_false]
  · rw [key _ (by decide) (by decide)]
    unfold sunxi_lcdc_mode_set
    dsimp only
    rw [pll_set_other _ _ _ _ .lcdc _ (by decide)]
    simp +decide only [reg_mask, reg_write, if_true, if_false]
  · rw [key _ (by decide) (by decide)]
    unfold sunxi_lcdc_mode_set
    dsimp only
    rw [pll_set_other _ _ _ _ .lcdc _ (by decide)]
    simp +decide only [reg_mask, reg_write, if_true, if_false]
  · unfold sunxi_mode_set
    simp only [reg_mask, reg_write]
    simp +decide only [if_true, if_false]
    rw [mask_read _ _ _ (by decide)]
    decide

/-- Whatever the state, `sunxi_mode_set` programs the transmitter's timing
registers from the mode and ends with its video output enabled. -/
theorem mode_set_programs_hdmi (pf : Platform) (s : Hw) (mode : fb_videomode) (a : Nat)
    (j1 j2 : Int) :
    (sunxi_mode_set pf s mode a j1 j2).reg .hdmi SUNXI_HDMI_VIDEO_SIZE =
      (shl32 (sub32 mode.yres 1) 16 ||| sub32 mode.xres 1) ∧
    (sunxi_mode_set pf s mode a j1 j2).reg .hdmi SUNXI_HDMI_VIDEO_BP =
      (u32 ((int32 (add32 mode.vsync_len mode.upper_margin) - 1) * 65536) |||
        u32 (int32 (add32 mode.hsync_len mode.left_margin) - 1)) ∧
    (sunxi_mode_set pf s mode a j1 j2).reg .hdmi SUNXI_HDMI_VIDEO_FP =
      (u32 ((int32 mode.lower_margin - 1) * 65536) ||| u32 (int32 mode.right_margin - 1)) ∧
    (sunxi_mode_set pf s mode a j1 j2).reg .hdmi SUNXI_HDMI_VIDEO_SPW =
      (u32 ((int32 mode.vsync_len - 1) * 65536) ||| u32 (int32 mode.hsync_len - 1)) ∧
    (sunxi_mode_set pf s mode a j1 j2).reg .hdmi SUNXI_HDMI_VIDEO_CTRL &&& 0x80000000 =
      0x80000000 := by
  have key : ∀ o, o ≠ SUNXI_HDMI_VIDEO_CTRL →
      ∃ x d1 d2, (sunxi_mode_set pf s mode a j1 j2).reg .hdmi o =
        (sunxi_hdmi_mode_set pf x mode d1 d2).reg .hdmi o := by
    intro o h1
    refine ⟨(sunxi_lcdc_mode_set (sunxi_composer_mode_set
        (sunxi_io_mask (sunxi_io_mask (sunxi_io_mask s .hdmi SUNXI_HDMI_VIDEO_CTRL 0 0x80000000)
          .lcdc SUNXI_LCDC_ENABLE 0 0x80000000) .composer SUNXI_COMP_MODE 0 0x02) mode a)
        mode j1 j2).1,
      (sunxi_lcdc_mode_set (sunxi_composer_mode_set
        (sunxi_io_mask (sunxi_io_mask (sunxi_io_mask s .hdmi SUNXI_HDMI_VIDEO_CTRL 0 0x80000000)
          .lcdc SUNXI_LCDC_ENABLE 0 0x80000000) .composer SUNXI_COMP_MODE 0 0x02) mode a)
        mode j1 j2).2.1,
      (sunxi_lcdc_mode_set (sunxi_composer_mode_set
        (sunxi_io_mask (sunxi_io_mask (sunxi_io_mask s .hdmi SUNXI_HDMI_VIDEO_CTRL 0 0x80000000)
          .lcdc SUNXI_LCDC_ENABLE 0 0x80000000) .composer SUNXI_COMP_MODE 0 0x02) mode a)
        mode j1 j2).2.2, ?_⟩
    unfold sunxi_mode_set
    simp only [reg_mask, reg_write]
    simp +decide only [false_and, h1, and_false, if_false]
  have fields : ∀ (x : Hw) (d1 d2 : Int),
      (sunxi_hdmi_mode_set pf x mode d1 d2).reg .hdmi SUNXI_HDMI_VIDEO_SIZE =
        (shl32 (sub32 mode.yres 1) 16 ||| sub32 mode.xres 1) ∧
      (sunxi_hdmi_mode_set pf x mode d1 d2).reg .hdmi SUNXI_HDMI_VIDEO_BP =
        (u32 ((int32 (add32 mode.vsync_len mode.upper_margin) - 1) * 65536) |||
          u32 (int32 (add32 mode.hsync_len mode.left_margin) - 1)) ∧
      (sunxi_hdmi_mode_set pf x mode d1 d2).reg .hdmi SUNXI_HDMI_VIDEO_FP =
        (u32 ((int32 mode.lower_margin - 1) * 65536) ||| u32 (int32 mode.right_margin - 1)) ∧
      (sunxi_hdmi_mode_set pf x mode d1 d2).reg .hdmi SUNXI_HDMI_VIDEO_SPW =
        (u32 ((int32 mode.vsync_len - 1) * 65536) ||| u32 (int32 mode.hsync_len - 1)) := by
    intro x d1 d2
    unfold sunxi_hdmi_mode_set
    dsimp only
    split_ifs <;>
      exact ⟨by simp +decide only [reg_mask, reg_write, if_true, if_false],
        by simp +decide only [reg_mask, reg_write, if_true, if_false],
        by simp +decide only [reg_mask, reg_write, if_true, if_false],
        by simp +decide only [reg_mask, reg_write, if_true, if_false]⟩
  refine ⟨?_, ?_, ?_, ?_, ?_⟩
  · obtain ⟨x, d1, d2, e⟩ := key SUNXI_HDMI_VIDEO_SIZE (by decide)
    rw [e]; exact (fields x d1 d2).1
  · obtain ⟨x, d1, d2, e⟩ := key SUNXI_HDMI_VIDEO_BP (by decide)
    rw [e]; exact (fields x d1 d2).2.1
  · obtain ⟨x, d1, d2, e⟩ := key SUNXI_HDMI_VIDEO_FP (by decide)
    rw [e]; exact (fields x d1 d2).2.2.1
  · obtain ⟨x, d1, d2, e⟩ := key SUNXI_HDMI_VIDEO_SPW (by decide)
    rw [e]; exact (fields x d1 d2).2.2.2
  · unfold sunxi_mode_set
    simp only [reg_mask, reg_write]
    simp +decide only [if_true, if_false]
    rw [mask_read _ _ _ (by decide)]
    decide

theorem lcdc_init_result_other (s : Hw) (b : Block) (o : Nat) (h1 : b ≠ .lcdc)
    (h2 : b ≠ .ccmu) : (lcdc_init_result s).reg b o = s.reg b o := by
  unfold lcdc_init_result
  simp [h1, h2]

theorem lcdc_init_result_de_be0 (s : Hw) :
    (lcdc_init_result s).reg .ccmu SUNXI_DE_BE0_CLK = s.reg .ccmu SUNXI_DE_BE0_CLK := by
  unfold lcdc_init_result
  simp only [reg_mask, reg_write]
  simp +decide only [if_false]

theorem composer_init_shape (s : Hw) :
    ∃ Y, sunxi_composer_init s =
      sunxi_io_mask (composer_clear
        (sunxi_io_mask Y .ccmu SUNXI_DE_BE0_CLK 0x80000000 0x80000000) 512 0x0800)
        .composer SUNXI_COMP_MODE 0x01 0x01 :=
  ⟨_, rfl⟩

/-- After `sunxi_engines_init` the blender's clock is enabled and its mode
register has the enable bit set. -/
theorem engines_ready (s : Hw) :
    (lcdc_init_result (sunxi_composer_init s)).reg .ccmu SUNXI_DE_BE0_CLK &&& 0x80000000
      = 0x80000000 ∧
    (lcdc_init_result (sunxi_composer_init s)).reg .composer SUNXI_COMP_MODE &&& 0x01 = 0x01 := by
  obtain ⟨Y, hY⟩ := composer_init_shape s
  rw [hY]
  constructor
  · rw [lcdc_init_result_de_be0]
    have e : ∀ Z : Hw, (sunxi_io_mask Z .composer SUNXI_COMP_MODE 0x01 0x01).reg .ccmu
        SUNXI_DE_BE0_CLK = Z.reg .ccmu SUNXI_DE_BE0_CLK := by
      intro Z
      simp only [reg_mask]
      simp +decide only [if_false]
    rw [e, composer_clear_other _ _ _ _ _ (by decide)]
    simp only [reg_mask, and_self, if_true]
    rw [mask_read _ _ _ (by decide)]
    decide
  · rw [lcdc_init_result_other _ _ _ (by decide) (by decide)]
    generalize composer_clear _ 512 0x0800 = Z
    simp only [reg_mask, and_self, if_true]
    rw [mask_read _ _ _ (by decide)]
    decide

/-! ## Mode setting twice -/

theorem composer_mode_set_affine (F : Hw → Hw) (hF : Affine F) (mode : fb_videomode)
    (a : Nat) : Affine (fun s => sunxi_composer_mode_set (F s) mode a) := by
  unfold sunxi_composer_mode_set
  repeat (first
      | exact hF
      | with_reducible apply affine_mask
      | with_reducible apply affine_write)

theorem hdmi_mode_set_affine (F : Hw → Hw) (hF : Affine F) (pf : Platform)
    (mode : fb_videomode) (d1 d2 : Int) :
    Affine (fun s => sunxi_hdmi_mode_set pf (F s) mode d1 d2) := by
  unfold sunxi_hdmi_mode_set
  dsimp only
  split_ifs <;>
    repeat (first
      | exact hF
      | with_reducible apply affine_mask
      | with_reducible apply affine_write)

/-- In range, `sunxi_lcdc_mode_set` hands back the divisor and doubler flag of
the search whatever the out-parameters held. -/
theorem lcdc_mode_set_in_range (s : Hw) (mode : fb_videomode) (j1 j2 : Int)
    (h : 20000 ≤ int32 mode.pixclock ∧ int32 mode.pixclock ≤ 400000) :
    (sunxi_lcdc_mode_set s mode j1 j2).2 =
      ((pll_search (int32 mode.pixclock)).best_m, (pll_search (int32 mode.pixclock)).best_double) ∧
    (sunxi_lcdc_mode_set s mode j1 j2).1 = (sunxi_lcdc_mode_set s mode 0 0).1 := by
  have hr : ¬ (int32 mode.pixclock < 20000 ∨ int32 mode.pixclock > 400000) := by omega
  unfold sunxi_lcdc_mode_set sunxi_lcdc_pll_set
  simp only [hr, if_false]
  exact ⟨trivial, trivial⟩

theorem lcdc_mode_set_affine (F : Hw → Hw) (hF : Affine F) (mode : fb_videomode) (j1 j2 : Int) :
    Affine (fun s => (sunxi_lcdc_mode_set (F s) mode j1 j2).1) := by
  unfold sunxi_lcdc_mode_set sunxi_lcdc_pll_set
  dsimp only
  split_ifs <;> dsimp only <;>
    repeat (first
      | exact hF
      | with_reducible apply affine_mask
      | with_reducible apply affine_write)

theorem mode_set_affine (pf : Platform) (mode : fb_videomode) (a : Nat) (j1 j2 : Int)
    (h : 20000 ≤ int32 mode.pixclock ∧ int32 mode.pixclock ≤ 400000) :
    Affine (fun s => sunxi_mode_set pf s mode a j1 j2) := by
  unfold sunxi_mode_set
  dsimp only
  simp only [(lcdc_mode_set_in_range _ mode j1 j2 h).1]
  repeat (first
    | exact affine_id
    | with_reducible apply affine_mask
    | with_reducible apply affine_write
    | with_reducible apply hdmi_mode_set_affine
    | with_reducible apply lcdc_mode_set_affine
    | with_reducible apply composer_mode_set_affine)

theorem mode_set_in_range_eq (pf : Platform) (s : Hw) (mode : fb_videomode) (a : Nat)
    (j1 j2 j3 j4 : Int)
    (h : 20000 ≤ int32 mode.pixclock ∧ int32 mode.pixclock ≤ 400000) :
    sunxi_mode_set pf s mode a j1 j2 = sunxi_mode_set pf s mode a j3 j4 := by
  unfold sunxi_mode_set
  dsimp only
  rw [(lcdc_mode_set_in_range _ mode j1 j2 h).1, (lcdc_mode_set_in_range _ mode j3 j4 h).1,
    (lcdc_mode_set_in_range _ mode j1 j2 h).2, (lcdc_mode_set_in_range _ mode j3 j4 h).2]

/-! ## Sequencer: the claims -/

theorem int32_small (x : Nat) (h : x < 2147483648) : int32 x = (x : Int) := by
  unfold int32
  have : x % 4294967296 = x := Nat.mod_eq_of_lt (by omega)
  rw [this, if_pos h]

/-- C5, as amended: when the pixel clock is outside `[20000, 400000]`,
`sunxi_lcdc_pll_set` returns at once, so no register of the clock unit differs
after `sunxi_mode_set` from its value before; the blender and the timing
controller are programmed all the same (here: the blender display size and the
timing controller source size hold the geometry of the mode), since
`sunxi_mode_set` has no failure path. -/
theorem mode_set_out_of_range (pf : Platform) (s : Hw) (mode : fb_videomode) (address : Nat)
    (j1 j2 : Int) (h32 : mode.pixclock < 4294967296)
    (h : mode.pixclock < 20000 ∨ 400000 < mode.pixclock) :
    (∀ o, (sunxi_mode_set pf s mode address j1 j2).reg .ccmu o = s.reg .ccmu o) ∧
    (sunxi_lcdc_pll_set s (int32 mode.pixclock) j1 j2 = (s, j1, j2)) ∧
    (sunxi_mode_set pf s mode address j1 j2).reg .composer SUNXI_COMP_DISP_SIZE =
      (shl32 (sub32 mode.yres 1) 16 ||| sub32 mode.xres 1) ∧
    (sunxi_mode_set pf s mode address j1 j2).reg .lcdc SUNXI_LCDC_TCON1_TIMING_SRC =
      (shl32 (sub32 mode.xres 1) 16 ||| sub32 mode.yres 1) := by
  have hr : int32 mode.pixclock < 20000 ∨ int32 mode.pixclock > 400000 := by
    unfold int32
    rw [Nat.mod_eq_of_lt h32]
    split_ifs <;> omega
  refine ⟨?_, ?_, ?_, ?_⟩
  · intro o
    unfold sunxi_mode_set
    simp only [reg_mask, reg_write]
    simp +decide only [if_false]
    rw [hdmi_mode_set_other _ _ _ _ _ .ccmu _ (by decide),
      (lcdc_mode_set_out_of_range _ mode j1 j2 hr).2 .ccmu _ (by decide),
      composer_mode_set_other _ _ _ .ccmu _ (by decide)]
    simp
  · unfold sunxi_lcdc_pll_set
    rw [if_pos hr]
  · unfold sunxi_mode_set
    simp only [reg_mask, reg_write]
    simp +decide only [if_false]
    rw [hdmi_mode_set_other _ _ _ _ _ .composer _ (by decide),
      (lcdc_mode_set_out_of_range _ mode j1 j2 hr).2 .composer _ (by decide)]
    unfold sunxi_composer_mode_set
    simp
  · unfold sunxi_mode_set
    simp only [reg_mask, reg_write]
    simp +decide only [if_false]
    rw [hdmi_mode_set_other _ _ _ _ _ .lcdc _ (by decide)]
    unfold sunxi_lcdc_mode_set sunxi_lcdc_pll_set
    simp only [hr, if_true]
    simp

set_option maxRecDepth 100000 in
theorem mode_set_out_of_range_witness :
    (slow_mode.pixclock < 4294967296 ∧
      (slow_mode.pixclock < 20000 ∨ 400000 < slow_mode.pixclock)) ∧
    (sunxi_mode_set sample_platform power_on slow_mode 0 0 0).reg .composer
      SUNXI_COMP_DISP_SIZE = 0x02ff03ff :=
  ⟨by decide,
    (mode_set_out_of_range sample_platform power_on slow_mode 0 0 0 (by decide)
      (by decide)).2.2.1.trans (by decide)⟩

set_option maxRecDepth 100000 in
/-- C5, counterexample to the claim as worded: with the pixel clock 10000, below
the range, `sunxi_mode_set` run from the all-zero state changes a blender
register, a timing-controller register and a transmitter register. -/
theorem mode_set_out_of_range_programs :
    (slow_mode.pixclock < 20000) ∧
    (sunxi_mode_set sample_platform power_on slow_mode 0 0 0).reg .composer
      SUNXI_COMP_DISP_SIZE ≠ power_on.reg .composer SUNXI_COMP_DISP_SIZE ∧
    (sunxi_mode_set sample_platform power_on slow_mode 0 0 0).reg .lcdc
      SUNXI_LCDC_TCON1_TIMING_H ≠ power_on.reg .lcdc SUNXI_LCDC_TCON1_TIMING_H ∧
    (sunxi_mode_set sample_platform power_on slow_mode 0 0 0).reg .hdmi
      SUNXI_HDMI_VIDEO_SIZE ≠ power_on.reg .hdmi SUNXI_HDMI_VIDEO_SIZE := by
  decide

/-- C7, as amended: `sunxi_mode_set` checks no state; from any state it programs
the blender, the timing controller and the transmitter with the mode and ends
with their outputs enabled.  The precondition is met by its caller: when a sink
is sensed, `video_hw_init` runs `sunxi_engines_init` to completion and runs
`sunxi_mode_set` on the state that leaves, in which the blender clock is
enabled (bit 31 of `DE_BE0_CLK`) and the blender is switched on (bit 0 of
`COMP_MODE`). -/
theorem mode_set_runs_after_engines_init (pf : Platform) (fuel : Nat) (j1 j2 : Int)
    (st : Board) (hf : 1 ≤ fuel) (h : st.hw.reg .hdmi SUNXI_HDMI_HPD &&& 0x01 ≠ 0) :
    (∃ hw1 st' g, sunxi_engines_init fuel (sunxi_hdmi_hpd_detect st.hw).1 = some hw1 ∧
      video_hw_init pf fuel j1 j2 st = some (st', some g) ∧
      st'.hw = sunxi_mode_set pf hw1 builtin_mode
        (sub32 st.ram_top pf.CONFIG_SYS_SDRAM_BASE) j1 j2 ∧
      hw1.reg .ccmu SUNXI_DE_BE0_CLK &&& 0x80000000 = 0x80000000 ∧
      hw1.reg .composer SUNXI_COMP_MODE &&& 0x01 = 0x01) ∧
    (∀ (s : Hw) (mode : fb_videomode) (a : Nat),
      ((sunxi_mode_set pf s mode a j1 j2).reg .composer SUNXI_COMP_DISP_SIZE =
          (shl32 (sub32 mode.yres 1) 16 ||| sub32 mode.xres 1) ∧
        (sunxi_mode_set pf s mode a j1 j2).reg .composer SUNXI_COMP_LAYER0_SIZE =
          (shl32 (sub32 mode.yres 1) 16 ||| sub32 mode.xres 1) ∧
        (sunxi_mode_set pf s mode a j1 j2).reg .composer SUNXI_COMP_LAYER0_STRIDE =
          shl32 mode.xres 5 ∧
        (sunxi_mode_set pf s mode a j1 j2).reg .composer SUNXI_COMP_LAYER0_ADDR_LOW =
          shl32 a 3 ∧
        (sunxi_mode_set pf s mode a j1 j2).reg .composer SUNXI_COMP_REG_CTL &&& 0x01 = 0x01 ∧
        (sunxi_mode_set pf s mode a j1 j2).reg .composer SUNXI_COMP_MODE &&& 0x02 = 0x02) ∧
      ((sunxi_mode_set pf s mode a j1 j2).reg .lcdc SUNXI_LCDC_TCON1_ENABLE = 0x800001E0 ∧
        (sunxi_mode_set pf s mode a j1 j2).reg .lcdc SUNXI_LCDC_TCON1_TIMING_SRC =
          (shl32 (sub32 mode.xres 1) 16 ||| sub32 mode.yres 1) ∧
        (sunxi_mode_set pf s mode a j1 j2).reg .lcdc SUNXI_LCDC_TCON1_TIMING_SCALE =
          (shl32 (sub32 mode.xres 1) 16 ||| sub32 mode.yres 1) ∧
        (sunxi_mode_set pf s mode a j1 j2).reg .lcdc SUNXI_LCDC_TCON1_TIMING_OUT =
          (shl32 (sub32 mode.xres 1) 16 ||| sub32 mode.yres 1) ∧
        (sunxi_mode_set pf s mode a j1 j2).reg .lcdc SUNXI_LCDC_TCON1_TIMING_H =
          (u32 ((lcdc_htotal mode - 1) * 65536) |||
            sub32 (add32 mode.hsync_len mode.left_margin) 1) ∧
        (sunxi_mode_set pf s mode a j1 j2).reg .lcdc SUNXI_LCDC_TCON1_TIMING_V =
          (u32 ((lcdc_vtotal mode * 2) * 65536) |||
            sub32 (add32 mode.vsync_len mode.upper_margin) 1) ∧
        (sunxi_mode_set pf s mode a j1 j2).reg .lcdc SUNXI_LCDC_TCON1_TIMING_SYNC =
          (shl32 (sub32 mode.hsync_len 1) 16 ||| sub32 mode.vsync_len 1) ∧
        (sunxi_mode_set pf s mode a j1 j2).reg .lcdc SUNXI_LCDC_ENABLE &&& 0x80000000 =
          0x80000000) ∧
      ((sunxi_mode_set pf s mode a j1 j2).reg .hdmi SUNXI_HDMI_VIDEO_SIZE =
          (shl32 (sub32 mode.yres 1) 16 ||| sub32 mode.xres 1) ∧
        (sunxi_mode_set pf s mode a j1 j2).reg .hdmi SUNXI_HDMI_VIDEO_BP =
          (u32 ((int32 (add32 mode.vsync_len mode.upper_margin) - 1) * 65536) |||
            u32 (int32 (add32 mode.hsync_len mode.left_margin) - 1)) ∧
        (sunxi_mode_set pf s mode a j1 j2).reg .hdmi SUNXI_HDMI_VIDEO_FP =
          (u32 ((int32 mode.lower_margin - 1) * 65536) |||
            u32 (int32 mode.right_margin - 1)) ∧
        (sunxi_mode_set pf s mode a j1 j2).reg .hdmi SUNXI_HDMI_VIDEO_SPW =
          (u32 ((int32 mode.vsync_len - 1) * 65536) ||| u32 (int32 mode.hsync_len - 1)) ∧
        (sunxi_mode_set pf s mode a j1 j2).reg .hdmi SUNXI_HDMI_VIDEO_CTRL &&& 0x80000000 =
          0x80000000)) := by
  refine ⟨⟨_, _, _, sunxi_engines_init_returns fuel hf _,
    video_hw_init_connected pf fuel j1 j2 st hf h, rfl, (engines_ready _).1,
    (engines_ready _).2⟩, ?_⟩
  intro s mode a
  obtain ⟨c1, c2⟩ := mode_set_programs_blender pf s mode a j1 j2
  obtain ⟨c3, c4, c5, c6⟩ := mode_set_programs_layer pf s mode a j1 j2
  exact ⟨⟨c1, c3, c4, c2, c5, c6⟩, mode_set_programs_lcdc pf s mode a j1 j2,
    mode_set_programs_hdmi pf s mode a j1 j2⟩

set_option maxRecDepth 100000 in
/-- C7, witness: on a board that senses a sink, with one unit of fuel,
`video_hw_init` runs `sunxi_engines_init` and then `sunxi_mode_set` on the
state it leaves, with the blender clock enabled and the blender switched on. -/
theorem mode_set_runs_after_engines_init_witness :
    (1 ≤ 1 ∧ sink_board.hw.reg .hdmi SUNXI_HDMI_HPD &&& 0x01 ≠ 0) ∧
    (∃ hw1 st' g, sunxi_engines_init 1 (sunxi_hdmi_hpd_detect sink_board.hw).1 = some hw1 ∧
      video_hw_init sample_platform 1 0 0 sink_board = some (st', some g) ∧
      st'.hw = sunxi_mode_set sample_platform hw1 builtin_mode
        (sub32 sink_board.ram_top sample_platform.CONFIG_SYS_SDRAM_BASE) 0 0 ∧
      hw1.reg .ccmu SUNXI_DE_BE0_CLK &&& 0x80000000 = 0x80000000 ∧
      hw1.reg .composer SUNXI_COMP_MODE &&& 0x01 = 0x01) ∧
    ((sunxi_mode_set sample_platform power_on builtin_mode 0x08000000 0 0).reg .lcdc
        SUNXI_LCDC_TCON1_TIMING_SRC = (shl32 (sub32 builtin_mode.xres 1) 16 |||
          sub32 builtin_mode.yres 1) ∧
      (sunxi_mode_set sample_platform power_on builtin_mode 0x08000000 0 0).reg .hdmi
        SUNXI_HDMI_VIDEO_SIZE = (shl32 (sub32 builtin_mode.yres 1) 16 |||
          sub32 builtin_mode.xres 1)) :=
  ⟨by decide,
    (mode_set_runs_after_engines_init sample_platform 1 0 0 sink_board (by decide)
      (by decide)).1,
    ((mode_set_runs_after_engines_init sample_platform 1 0 0 sink_board (by decide)
      (by decide)).2 power_on builtin_mode 0x08000000).2.1.2.1,
    ((mode_set_runs_after_engines_init sample_platform 1 0 0 sink_board (by decide)
      (by decide)).2 power_on builtin_mode 0x08000000).2.2.1⟩

set_option maxRecDepth 100000 in
/-- C7, counterexample to the claim as worded: on the hardware as it is before
any write (empty trace, blender clock disabled) `sunxi_mode_set` is not
rejected: it programs the blender display size and ends with the transmitter
output enabled. -/
theorem mode_set_unchecked :
    power_on.trace = [] ∧
    power_on.reg .ccmu SUNXI_DE_BE0_CLK &&& 0x80000000 = 0 ∧
    (sunxi_mode_set sample_platform power_on builtin_mode 0 0 0).reg .composer
      SUNXI_COMP_DISP_SIZE = 0x02ff03ff ∧
    (sunxi_mode_set sample_platform power_on builtin_mode 0 0 0).reg .composer
      SUNXI_COMP_DISP_SIZE ≠ power_on.reg .composer SUNXI_COMP_DISP_SIZE ∧
    (sunxi_mode_set sample_platform power_on builtin_mode 0 0 0).reg .hdmi
      SUNXI_HDMI_VIDEO_CTRL = 0x80000000 := by
  decide

/-- C8: with registers as plain memory, for every register state, address and
mode whose pixel clock is in `[20000, 400000]`, running `sunxi_mode_set` a
second time with the same mode and address leaves exactly the register
contents of the first run. -/
theorem mode_set_idempotent (pf : Platform) (s : Hw) (mode : fb_videomode) (address : Nat)
    (j1 j2 j3 j4 : Int) (h : 20000 ≤ mode.pixclock ∧ mode.pixclock ≤ 400000) :
    (sunxi_mode_set pf (sunxi_mode_set pf s mode address j1 j2) mode address j3 j4).reg =
      (sunxi_mode_set pf s mode address j1 j2).reg := by
  have hr : 20000 ≤ int32 mode.pixclock ∧ int32 mode.pixclock ≤ 400000 := by
    rw [int32_small _ (by omega)]
    omega
  rw [mode_set_in_range_eq pf _ mode address j3 j4 j1 j2 hr]
  funext b o
  exact affine_idem _ (mode_set_affine pf mode address j1 j2 hr) s b o

theorem mode_set_idempotent_witness :
    (20000 ≤ builtin_mode.pixclock ∧ builtin_mode.pixclock ≤ 400000) ∧
    (sunxi_mode_set sample_platform
      (sunxi_mode_set sample_platform power_on builtin_mode 0x8000000 0 0)
      builtin_mode 0x8000000 7 9).reg =
      (sunxi_mode_set sample_platform power_on builtin_mode 0x8000000 0 0).reg :=
  ⟨by decide,
    mode_set_idempotent sample_platform power_on builtin_mode 0x8000000 0 0 7 9 (by decide)⟩

/-- C9, as amended: for every mode whose sums `left_margin + xres +
right_margin + hsync_len` and `upper_margin + yres + lower_margin + vsync_len`
are below `2^31`, the horizontal and vertical totals computed by
`sunxi_lcdc_mode_set` equal these sums; for the built-in mode they are 1344
and 806. -/
theorem lcdc_totals (mode : fb_videomode)
    (hh : mode.left_margin + mode.xres + mode.right_margin + mode.hsync_len < 2147483648)
    (hv : mode.upper_margin + mode.yres + mode.lower_margin + mode.vsync_len < 2147483648) :
    (lcdc_htotal mode =
        ((mode.left_margin + mode.xres + mode.right_margin + mode.hsync_len : Nat) : Int) ∧
      lcdc_vtotal mode =
        ((mode.upper_margin + mode.yres + mode.lower_margin + mode.vsync_len : Nat) : Int)) ∧
    (lcdc_htotal builtin_mode = 1344 ∧ lcdc_vtotal builtin_mode = 806) := by
  refine ⟨⟨?_, ?_⟩, by decide, by decide⟩
  · unfold lcdc_htotal
    have e : add32 (add32 (add32 mode.left_margin mode.xres) mode.right_margin) mode.hsync_len
        = mode.left_margin + mode.xres + mode.right_margin + mode.hsync_len := by
      unfold add32; omega
    rw [e, int32_small _ hh]
  · unfold lcdc_vtotal
    have e : add32 (add32 (add32 mode.upper_margin mode.yres) mode.lower_margin) mode.vsync_len
        = mode.upper_margin + mode.yres + mode.lower_margin + mode.vsync_len := by
      unfold add32; omega
    rw [e, int32_small _ hv]

theorem lcdc_totals_witness :
    (builtin_mode.left_margin + builtin_mode.xres + builtin_mode.right_margin +
        builtin_mode.hsync_len < 2147483648 ∧
      builtin_mode.upper_margin + builtin_mode.yres + builtin_mode.lower_margin +
        builtin_mode.vsync_len < 2147483648) ∧
    (lcdc_htotal builtin_mode = ((160 + 1024 + 24 + 136 : Nat) : Int) ∧
      lcdc_vtotal builtin_mode = ((29 + 768 + 3 + 6 : Nat) : Int)) :=
  ⟨by decide, (lcdc_totals builtin_mode (by decide) (by decide)).1⟩

/-- C9, counterexample to the claim as worded: for a mode with left margin
`2^32 - 1024` (other fields as built in) the `u32` sum wraps and the computed
horizontal total is 160, not the sum; for left margin `2^31` the sum does not
fit the `int` it is stored in and the computed total is negative. -/
theorem lcdc_total_wraps :
    (lcdc_htotal wrap_mode = 160 ∧
      lcdc_htotal wrap_mode ≠
        ((wrap_mode.left_margin + wrap_mode.xres + wrap_mode.right_margin +
          wrap_mode.hsync_len : Nat) : Int)) ∧
    (lcdc_htotal wide_mode = -2147482464 ∧
      lcdc_htotal wide_mode ≠
        ((wide_mode.left_margin + wide_mode.xres + wide_mode.right_margin +
          wide_mode.hsync_len : Nat) : Int)) := by
  decide

/-- C10: whenever the hotplug sense bit is set (and the wait loops of
`sunxi_lcdc_init` get at least one pass), `video_hw_init` returns the
framebuffer descriptor with width and height equal to `xres` and `yres` of the
mode, 4 bytes per pixel, the format tag `GDF_32BIT_X888RGB`, and as base
address the framebuffer base `gd->fb_base` (set from `gd->ram_top`); the
address given to `sunxi_mode_set`, seen in the blender `LAYER0_ADDR_LOW`
register, is that base minus `CONFIG_SYS_SDRAM_BASE`. -/
theorem video_hw_init_descriptor (pf : Platform) (fuel : Nat) (j1 j2 : Int) (st : Board)
    (hf : 1 ≤ fuel) (h : st.hw.reg .hdmi SUNXI_HDMI_HPD &&& 0x01 ≠ 0) :
    ∃ st' g, video_hw_init pf fuel j1 j2 st = some (st', some g) ∧
      g.winSizeX = builtin_mode.xres ∧ g.winSizeY = builtin_mode.yres ∧
      g.gdfBytesPP = 4 ∧ g.gdfIndex = pf.GDF_32BIT_X888RGB ∧
      g.frameAdrs = st'.fb_base ∧ st'.fb_base = st.ram_top ∧ st'.graphic_device = g ∧
      st'.hw.reg .composer SUNXI_COMP_LAYER0_ADDR_LOW =
        shl32 (sub32 st'.fb_base pf.CONFIG_SYS_SDRAM_BASE) 3 := by
  refine ⟨_, _, video_hw_init_connected pf fuel j1 j2 st hf h, rfl, rfl, rfl, rfl, rfl, rfl,
    rfl, ?_⟩
  exact (mode_set_programs_blender pf _ builtin_mode _ j1 j2).2

set_option maxRecDepth 100000 in
theorem video_hw_init_descriptor_witness :
    (1 ≤ 1 ∧ sink_board.hw.reg .hdmi SUNXI_HDMI_HPD &&& 0x01 ≠ 0) ∧
    ∃ st' g, video_hw_init sample_platform 1 0 0 sink_board = some (st', some g) ∧
      g.winSizeX = builtin_mode.xres ∧ g.winSizeY = builtin_mode.yres ∧
      g.gdfBytesPP = 4 ∧ g.gdfIndex = sample_platform.GDF_32BIT_X888RGB ∧
      g.frameAdrs = st'.fb_base ∧ st'.fb_base = sink_board.ram_top ∧ st'.graphic_device = g ∧
      st'.hw.reg .composer SUNXI_COMP_LAYER0_ADDR_LOW =
        shl32 (sub32 st'.fb_base sample_platform.CONFIG_SYS_SDRAM_BASE) 3 :=
  ⟨by decide, video_hw_init_descriptor sample_platform 1 0 0 sink_board (by decide) (by decide)⟩

/-! ## Solver: doubled results -/

/-- C14, as amended: the doubled pair is tried for odd divisors only, so for
every target `d` with `20000 ≤ d ≤ 400000`, if the configuration returned by
`sunxi_lcdc_pll_set` has the doubler flag set, its divisor `M` is odd. -/
theorem pll_set_doubled_is_odd (d : Int) (hd : 20000 ≤ d ∧ d ≤ 400000) :
    ((pll_search d).best_double ≠ 0 → (pll_search d).best_m % 2 = 1) ∧
    (∀ c ∈ enumerated d, c.dbl ≠ 0 → c.m % 2 = 1) := by
  constructor
  · have hmem := search_chosen_mem d hd.1 hd.2
    exact (enumerated_bounds d _ hmem).2.2.2.2.2.2
  · intro c hc
    exact (enumerated_bounds d c hc).2.2.2.2.2.2

set_option maxRecDepth 100000 in
/-- C14, witness: the target 30000 is in range, its result is doubled and its
divisor is odd. -/
theorem pll_set_doubled_is_odd_witness :
    ((20000 : Int) ≤ 30000 ∧ (30000 : Int) ≤ 400000) ∧
    (pll_search 30000).best_double ≠ 0 ∧ (pll_search 30000).best_m % 2 = 1 :=
  ⟨by decide, by decide, (pll_set_doubled_is_odd 30000 (by decide)).1 (by decide)⟩

set_option maxRecDepth 100000 in
/-- C14, counterexample to the claim as worded: for `d = 30000` the returned
configuration has the doubler flag set and the divisor 15, which is not even. -/
theorem pll_set_doubled_not_even :
    ((20000 : Int) ≤ 30000 ∧ (30000 : Int) ≤ 400000) ∧
    (pll_search 30000).best_double = 1 ∧ (pll_search 30000).best_m = 15 ∧
    ¬ ((pll_search 30000).best_double ≠ 0 → (pll_search 30000).best_m % 2 = 0) := by
  decide

/-! ## Transmitter and timing-controller registers -/

/-- The polarity register after `sunxi_hdmi_mode_set`. -/
theorem hdmi_mode_set_polarity (pf : Platform) (s : Hw) (mode : fb_videomode) (d1 d2 : Int) :
    (sunxi_hdmi_mode_set pf s mode d1 d2).reg .hdmi SUNXI_HDMI_VIDEO_POLARITY =
      (0x03e00000 ||| (if mode.sync &&& pf.FB_SYNC_HOR_HIGH_ACT ≠ 0 then 0x01 else 0) |||
        (if mode.sync &&& pf.FB_SYNC_VERT_HIGH_ACT ≠ 0 then 0x02 else 0)) := by
  unfold sunxi_hdmi_mode_set
  dsimp only
  split_ifs <;> simp +decide only [reg_mask, reg_write, if_true, if_false]

/-- C17: for every mode and every previous register state, after
`sunxi_hdmi_mode_set` the transmitter's `VIDEO_POLARITY` register is
`0x03e00000` with bit 0 set exactly when `mode.sync` contains
`FB_SYNC_HOR_HIGH_ACT` and bit 1 set exactly when it contains
`FB_SYNC_VERT_HIGH_ACT`; for the built-in mode it is exactly `0x03e00000`. -/
theorem hdmi_polarity (pf : Platform) (s : Hw) (mode : fb_videomode) (d1 d2 : Int) :
    (sunxi_hdmi_mode_set pf s mode d1 d2).reg .hdmi SUNXI_HDMI_VIDEO_POLARITY =
      (0x03e00000 ||| (if mode.sync &&& pf.FB_SYNC_HOR_HIGH_ACT ≠ 0 then 0x01 else 0) |||
        (if mode.sync &&& pf.FB_SYNC_VERT_HIGH_ACT ≠ 0 then 0x02 else 0)) ∧
    ((sunxi_hdmi_mode_set pf s mode d1 d2).reg .hdmi SUNXI_HDMI_VIDEO_POLARITY &&& 0x01 = 0x01 ↔
      mode.sync &&& pf.FB_SYNC_HOR_HIGH_ACT ≠ 0) ∧
    ((sunxi_hdmi_mode_set pf s mode d1 d2).reg .hdmi SUNXI_HDMI_VIDEO_POLARITY &&& 0x02 = 0x02 ↔
      mode.sync &&& pf.FB_SYNC_VERT_HIGH_ACT ≠ 0) ∧
    (sunxi_hdmi_mode_set pf s mode d1 d2).reg .hdmi SUNXI_HDMI_VIDEO_POLARITY &&& 0xFFFFFFFC =
      0x03e00000 ∧
    (sunxi_hdmi_mode_set pf s builtin_mode d1 d2).reg .hdmi SUNXI_HDMI_VIDEO_POLARITY =
      0x03e00000 := by
  refine ⟨hdmi_mode_set_polarity pf s mode d1 d2, ?_, ?_, ?_, ?_⟩
  · rw [hdmi_mode_set_polarity]
    by_cases h1 : mode.sync &&& pf.FB_SYNC_HOR_HIGH_ACT = 0 <;>
      by_cases h2 : mode.sync &&& pf.FB_SYNC_VERT_HIGH_ACT = 0 <;>
      simp +decide only [h1, h2, ne_eq, not_true_eq_false, not_false_eq_true, if_true, if_false]
  · rw [hdmi_mode_set_polarity]
    by_cases h1 : mode.sync &&& pf.FB_SYNC_HOR_HIGH_ACT = 0 <;>
      by_cases h2 : mode.sync &&& pf.FB_SYNC_VERT_HIGH_ACT = 0 <;>
      simp +decide only [h1, h2, ne_eq, not_true_eq_false, not_false_eq_true, if_true, if_false]
  · rw [hdmi_mode_set_polarity]
    by_cases h1 : mode.sync &&& pf.FB_SYNC_HOR_HIGH_ACT = 0 <;>
      by_cases h2 : mode.sync &&& pf.FB_SYNC_VERT_HIGH_ACT = 0 <;>
      simp +decide only [h1, h2, ne_eq, not_true_eq_false, not_false_eq_true, if_true, if_false]
  · rw [hdmi_mode_set_polarity]
    have h0 : ∀ x : Nat, builtin_mode.sync &&& x = 0 := fun x => Nat.zero_and x
    simp +decide only [h0, ne_eq, not_true_eq_false, if_false]

/-- A natural number below `2^32` survives the conversion to `u32`. -/
theorem u32_natCast (n : Nat) (h : n < 4294967296) : u32 (n : Int) = n := by
  unfold u32
  omega

/-- Two 16-bit halves packed with `|` read back by division and remainder. -/
theorem pack16 (v h : Nat) (hh : h < 65536) :
    (v * 65536 ||| h) % 65536 = h ∧ (v * 65536 ||| h) / 65536 = v := by
  have e : v * 65536 ||| h = 2 ^ 16 * v + h := by
    rw [Nat.mul_add_lt_is_or (by omega) v]
    rw [Nat.mul_comm]
  rw [e]
  omega

/-- The timing registers `sunxi_lcdc_mode_set` leaves in the timing controller. -/
theorem lcdc_mode_set_timing (s : Hw) (mode : fb_videomode) (j1 j2 : Int) :
    (sunxi_lcdc_mode_set s mode j1 j2).1.reg .lcdc SUNXI_LCDC_TCON1_TIMING_V =
      (u32 ((lcdc_vtotal mode * 2) * 65536) |||
        sub32 (add32 mode.vsync_len mode.upper_margin) 1) ∧
    (sunxi_lcdc_mode_set s mode j1 j2).1.reg .lcdc SUNXI_LCDC_TCON1_TIMING_H =
      (u32 ((lcdc_htotal mode - 1) * 65536) |||
        sub32 (add32 mode.hsync_len mode.left_margin) 1) := by
  unfold sunxi_lcdc_mode_set
  dsimp only
  rw [pll_set_other _ _ _ _ .lcdc _ (by decide), pll_set_other _ _ _ _ .lcdc _ (by decide)]
  constructor <;> simp +decide only [reg_mask, reg_write, if_true, if_false]

/-- C19: the vertical timing write is asymmetric to the horizontal one.  For
every mode `sunxi_lcdc_mode_set` writes `TCON1_TIMING_V` as
`((2 * vtotal) << 16) | (vsync_len + upper_margin - 1)` and `TCON1_TIMING_H` as
`((htotal - 1) << 16) | (hsync_len + left_margin - 1)`, in 32-bit arithmetic,
with `htotal` and `vtotal` the computed totals; for the built-in mode the upper
halves are 1612 and 1343 and the lower halves are 34 and 295. -/
theorem lcdc_timing_asymmetry (s : Hw) (mode : fb_videomode) (j1 j2 : Int) :
    ((sunxi_lcdc_mode_set s mode j1 j2).1.reg .lcdc SUNXI_LCDC_TCON1_TIMING_V =
        (u32 ((lcdc_vtotal mode * 2) * 65536) |||
          sub32 (add32 mode.vsync_len mode.upper_margin) 1) ∧
      (sunxi_lcdc_mode_set s mode j1 j2).1.reg .lcdc SUNXI_LCDC_TCON1_TIMING_H =
        (u32 ((lcdc_htotal mode - 1) * 65536) |||
          sub32 (add32 mode.hsync_len mode.left_margin) 1)) ∧
    ((sunxi_lcdc_mode_set s builtin_mode j1 j2).1.reg .lcdc SUNXI_LCDC_TCON1_TIMING_V / 65536
        = 1612 ∧
      (sunxi_lcdc_mode_set s builtin_mode j1 j2).1.reg .lcdc SUNXI_LCDC_TCON1_TIMING_H / 65536
        = 1343 ∧
      (sunxi_lcdc_mode_set s builtin_mode j1 j2).1.reg .lcdc SUNXI_LCDC_TCON1_TIMING_V % 65536
        = 34 ∧
      (sunxi_lcdc_mode_set s builtin_mode j1 j2).1.reg .lcdc SUNXI_LCDC_TCON1_TIMING_H % 65536
        = 295) := by
  refine ⟨lcdc_mode_set_timing s mode j1 j2, ?_, ?_, ?_, ?_⟩
  · rw [(lcdc_mode_set_timing s builtin_mode j1 j2).1]; decide
  · rw [(lcdc_mode_set_timing s builtin_mode j1 j2).2]; decide
  · rw [(lcdc_mode_set_timing s builtin_mode j1 j2).1]; decide
  · rw [(lcdc_mode_set_timing s builtin_mode j1 j2).2]; decide

/-- The timing registers `sunxi_hdmi_mode_set` leaves in the transmitter. -/
theorem hdmi_mode_set_timing (pf : Platform) (s : Hw) (mode : fb_videomode) (d1 d2 : Int) :
    (sunxi_hdmi_mode_set pf s mode d1 d2).reg .hdmi SUNXI_HDMI_VIDEO_SIZE =
      (shl32 (sub32 mode.yres 1) 16 ||| sub32 mode.xres 1) ∧
    (sunxi_hdmi_mode_set pf s mode d1 d2).reg .hdmi SUNXI_HDMI_VIDEO_BP =
      (u32 ((int32 (add32 mode.vsync_len mode.upper_margin) - 1) * 65536) |||
        u32 (int32 (add32 mode.hsync_len mode.left_margin) - 1)) ∧
    (sunxi_hdmi_mode_set pf s mode d1 d2).reg .hdmi SUNXI_HDMI_VIDEO_FP =
      (u32 ((int32 mode.lower_margin - 1) * 65536) ||| u32 (int32 mode.right_margin - 1)) ∧
    (sunxi_hdmi_mode_set pf s mode d1 d2).reg .hdmi SUNXI_HDMI_VIDEO_SPW =
      (u32 ((int32 mode.vsync_len - 1) * 65536) ||| u32 (int32 mode.hsync_len - 1)) := by
  unfold sunxi_hdmi_mode_set
  dsimp only
  split_ifs <;>
    exact ⟨by simp +decide only [reg_mask, reg_write, if_true, if_false],
      by simp +decide only [reg_mask, reg_write, if_true, if_false],
      by simp +decide only [reg_mask, reg_write, if_true, if_false],
      by simp +decide only [reg_mask, reg_write, if_true, if_false]⟩

/-- Two values of 1 to `2^16`, each less one in `int` arithmetic, pack into
separate halves. -/
theorem pack_int (v h : Nat) (hv1 : 1 ≤ v) (hv : v ≤ 65536) (hh1 : 1 ≤ h) (hh : h ≤ 65536) :
    (u32 ((int32 v - 1) * 65536) ||| u32 (int32 h - 1)) % 65536 = h - 1 ∧
    (u32 ((int32 v - 1) * 65536) ||| u32 (int32 h - 1)) / 65536 = v - 1 := by
  have e1 : u32 ((int32 v - 1) * 65536) = (v - 1) * 65536 := by
    rw [int32_small v (by omega)]
    have : ((v : Int) - 1) * 65536 = (((v - 1) * 65536 : Nat) : Int) := by omega
    rw [this, u32_natCast _ (by omega)]
  have e2 : u32 (int32 h - 1) = h - 1 := by
    rw [int32_small h (by omega)]
    have : (h : Int) - 1 = ((h - 1 : Nat) : Int) := by omega
    rw [this, u32_natCast _ (by omega)]
  rw [e1, e2]
  exact pack16 (v - 1) (h - 1) (by omega)

/-- Two values of 1 to `2^16`, each less one in `u32` arithmetic, pack into
separate halves. -/
theorem pack_u32 (v h : Nat) (hv1 : 1 ≤ v) (hv : v ≤ 65536) (hh1 : 1 ≤ h) (hh : h ≤ 65536) :
    (shl32 (sub32 v 1) 16 ||| sub32 h 1) % 65536 = h - 1 ∧
    (shl32 (sub32 v 1) 16 ||| sub32 h 1) / 65536 = v - 1 := by
  have e1 : shl32 (sub32 v 1) 16 = (v - 1) * 65536 := by
    unfold shl32 sub32
    rw [Nat.shiftLeft_eq]
    omega
  have e2 : sub32 h 1 = h - 1 := by
    unfold sub32
    omega
  rw [e1, e2]
  exact pack16 (v - 1) (h - 1) (by omega)


/-- C16, as amended: for every mode whose resolution, front porches and sync
lengths are at least 1, whose fields are below `2^16`, and whose sums
`hsync_len + left_margin` and `vsync_len + upper_margin` are at most `2^16`,
`sunxi_hdmi_mode_set` programs each 16-bit half of the transmitter timing
registers independently: `VIDEO_BP` holds `hsync_len + left_margin - 1` in bits
15:0 and `vsync_len + upper_margin - 1` in bits 31:16, `VIDEO_FP` holds
`right_margin - 1` and `lower_margin - 1`, `VIDEO_SPW` holds `hsync_len - 1` and
`vsync_len - 1`, `VIDEO_SIZE` holds `xres - 1` and `yres - 1`. -/
theorem hdmi_timing_halves (pf : Platform) (s : Hw) (mode : fb_videomode) (d1 d2 : Int)
    (hres : 1 ≤ mode.xres ∧ mode.xres < 65536 ∧ 1 ≤ mode.yres ∧ mode.yres < 65536)
    (hfp : 1 ≤ mode.right_margin ∧ mode.right_margin < 65536 ∧
      1 ≤ mode.lower_margin ∧ mode.lower_margin < 65536)
    (hsw : 1 ≤ mode.hsync_len ∧ mode.hsync_len < 65536 ∧
      1 ≤ mode.vsync_len ∧ mode.vsync_len < 65536)
    (hbp : mode.left_margin < 65536 ∧ mode.upper_margin < 65536 ∧
      mode.hsync_len + mode.left_margin ≤ 65536 ∧ mode.vsync_len + mode.upper_margin ≤ 65536) :
    ((sunxi_hdmi_mode_set pf s mode d1 d2).reg .hdmi SUNXI_HDMI_VIDEO_BP % 65536 =
        mode.hsync_len + mode.left_margin - 1 ∧
      (sunxi_hdmi_mode_set pf s mode d1 d2).reg .hdmi SUNXI_HDMI_VIDEO_BP / 65536 =
        mode.vsync_len + mode.upper_margin - 1) ∧
    ((sunxi_hdmi_mode_set pf s mode d1 d2).reg .hdmi SUNXI_HDMI_VIDEO_FP % 65536 =
        mode.right_margin - 1 ∧
      (sunxi_hdmi_mode_set pf s mode d1 d2).reg .hdmi SUNXI_HDMI_VIDEO_FP / 65536 =
        mode.lower_margin - 1) ∧
    ((sunxi_hdmi_mode_set pf s mode d1 d2).reg .hdmi SUNXI_HDMI_VIDEO_SPW % 65536 =
        mode.hsync_len - 1 ∧
      (sunxi_hdmi_mode_set pf s mode d1 d2).reg .hdmi SUNXI_HDMI_VIDEO_SPW / 65536 =
        mode.vsync_len - 1) ∧
    ((sunxi_hdmi_mode_set pf s mode d1 d2).reg .hdmi SUNXI_HDMI_VIDEO_SIZE % 65536 =
        mode.xres - 1 ∧
      (sunxi_hdmi_mode_set pf s mode d1 d2).reg .hdmi SUNXI_HDMI_VIDEO_SIZE / 65536 =
        mode.yres - 1) := by
  obtain ⟨hsize, hbpv, hfpv, hspw⟩ := hdmi_mode_set_timing pf s mode d1 d2
  rw [hsize, hbpv, hfpv, hspw]
  have eh : add32 mode.hsync_len mode.left_margin = mode.hsync_len + mode.left_margin := by
    unfold add32; omega
  have ev : add32 mode.vsync_len mode.upper_margin = mode.vsync_len + mode.upper_margin := by
    unfold add32; omega
  rw [eh, ev]
  exact ⟨pack_int _ _ (by omega) (by omega) (by omega) (by omega),
    pack_int _ _ (by omega) (by omega) (by omega) (by omega),
    pack_int _ _ (by omega) (by omega) (by omega) (by omega),
    pack_u32 _ _ (by omega) (by omega) (by omega) (by omega)⟩

set_option maxRecDepth 100000 in
/-- C16, witness: the built-in mode meets the conditions, and its `VIDEO_BP`
halves are 295 and 34. -/
theorem hdmi_timing_halves_witness :
    ((1 ≤ builtin_mode.xres ∧ builtin_mode.xres < 65536 ∧ 1 ≤ builtin_mode.yres ∧
        builtin_mode.yres < 65536) ∧
      (1 ≤ builtin_mode.right_margin ∧ builtin_mode.right_margin < 65536 ∧
        1 ≤ builtin_mode.lower_margin ∧ builtin_mode.lower_margin < 65536) ∧
      (1 ≤ builtin_mode.hsync_len ∧ builtin_mode.hsync_len < 65536 ∧
        1 ≤ builtin_mode.vsync_len ∧ builtin_mode.vsync_len < 65536) ∧
      (builtin_mode.left_margin < 65536 ∧ builtin_mode.upper_margin < 65536 ∧
        builtin_mode.hsync_len + builtin_mode.left_margin ≤ 65536 ∧
        builtin_mode.vsync_len + builtin_mode.upper_margin ≤ 65536)) ∧
    ((sunxi_hdmi_mode_set sample_platform power_on builtin_mode 3 0).reg .hdmi
        SUNXI_HDMI_VIDEO_BP % 65536 = 136 + 160 - 1 ∧
      (sunxi_hdmi_mode_set sample_platform power_on builtin_mode 3 0).reg .hdmi
        SUNXI_HDMI_VIDEO_BP / 65536 = 6 + 29 - 1) :=
  ⟨by decide,
    (hdmi_timing_halves sample_platform power_on builtin_mode 3 0 (by decide) (by decide)
      (by decide) (by decide)).1⟩

set_option maxRecDepth 100000 in
/-- C16, counterexample to the claim as worded: the built-in mode with a zero
right margin satisfies the mode invariant (fields non-negative and below
`2^16`, resolution positive), yet `VIDEO_FP` reads `0xFFFFFFFF`, so its upper
half is not `lower_margin - 1`; and with `hsync_len = left_margin = 40000`, each
below `2^16`, neither half of `VIDEO_BP` holds the value the claim gives. -/
theorem hdmi_timing_halves_collide :
    ((0 < zero_porch_mode.xres ∧ 0 < zero_porch_mode.yres ∧
        zero_porch_mode.xres < 65536 ∧ zero_porch_mode.yres < 65536 ∧
        zero_porch_mode.left_margin < 65536 ∧ zero_porch_mode.right_margin < 65536 ∧
        zero_porch_mode.upper_margin < 65536 ∧ zero_porch_mode.lower_margin < 65536 ∧
        zero_porch_mode.hsync_len < 65536 ∧ zero_porch_mode.vsync_len < 65536) ∧
      (sunxi_hdmi_mode_set sample_platform power_on zero_porch_mode 3 0).reg .hdmi
        SUNXI_HDMI_VIDEO_FP = 0xFFFFFFFF ∧
      (sunxi_hdmi_mode_set sample_platform power_on zero_porch_mode 3 0).reg .hdmi
        SUNXI_HDMI_VIDEO_FP / 65536 ≠ zero_porch_mode.lower_margin - 1) ∧
    ((long_sync_mode.hsync_len < 65536 ∧ long_sync_mode.left_margin < 65536) ∧
      (sunxi_hdmi_mode_set sample_platform power_on long_sync_mode 3 0).reg .hdmi
        SUNXI_HDMI_VIDEO_BP % 65536 ≠
          long_sync_mode.hsync_len + long_sync_mode.left_margin - 1 ∧
      (sunxi_hdmi_mode_set sample_platform power_on long_sync_mode 3 0).reg .hdmi
        SUNXI_HDMI_VIDEO_BP / 65536 ≠
          long_sync_mode.vsync_len + long_sync_mode.upper_margin - 1) := by
  decide

/-! ## The solver's result in the registers -/

/-- A field read by shifting down and masking is the masked register shifted down. -/
theorem shift_field (x m k : Nat) : (x >>> k) &&& m = (x &&& (m <<< k)) >>> k := by
  apply Nat.eq_of_testBit_eq
  intro i
  simp only [Nat.testBit_and, Nat.testBit_shiftRight, Nat.testBit_shiftLeft]
  simp

/-- The fields `sunxi_lcdc_pll_set` programs for an in-range clock. -/
theorem pll_set_fields (s : Hw) (d j1 j2 : Int) (hd : 20000 ≤ d ∧ d ≤ 400000) :
    (sunxi_lcdc_pll_set s d j1 j2).1.reg .ccmu SUNXI_CCMU_PLL3_CFG &&& 0x7F =
      u32 (pll_search d).best_n &&& 0x7F ∧
    (sunxi_lcdc_pll_set s d j1 j2).1.reg .ccmu SUNXI_LCDC0_CH1_CLK &&& 0x0F =
      u32 ((pll_search d).best_m - 1) &&& 0x0F ∧
    (sunxi_lcdc_pll_set s d j1 j2).1.reg .ccmu SUNXI_LCDC0_CH1_CLK &&& 0x03000000 =
      (if (pll_search d).best_double ≠ 0 then 0x02000000 else 0) := by
  have hr : ¬ (d < 20000 ∨ d > 400000) := by omega
  unfold sunxi_lcdc_pll_set
  rw [if_neg hr]
  dsimp only
  refine ⟨?_, ?_, ?_⟩
  · split_ifs <;>
    · simp +decide only [reg_mask, reg_write, if_true, if_false]
      rw [mask_read _ _ _ (by decide)]
  · split_ifs <;>
    · simp +decide only [reg_mask, reg_write, if_true, if_false]
      rw [mask_keep _ _ _ _ (by decide) (by decide), mask_keep _ _ _ _ (by decide) (by decide),
        mask_read _ _ _ (by decide)]
  · split_ifs <;>
    · simp +decide only [reg_mask, reg_write, if_true, if_false]
      rw [mask_keep _ _ _ _ (by decide) (by decide), mask_keep _ _ _ _ (by decide) (by decide),
        mask_keep _ _ _ _ (by decide) (by decide), mask_read _ _ _ (by decide)]
      decide

/-- The divider and doubler fields `sunxi_hdmi_mode_set` programs. -/
theorem hdmi_mode_set_fields (pf : Platform) (s : Hw) (mode : fb_videomode) (d1 d2 : Int) :
    (sunxi_hdmi_mode_set pf s mode d1 d2).reg .hdmi SUNXI_HDMI_TX_DRIVER2 &&& 0xf0 =
      u32 (d1 * 16) &&& 0xf0 ∧
    (sunxi_hdmi_mode_set pf s mode d1 d2).reg .hdmi SUNXI_HDMI_TX_DRIVER1 &&& 0x40 =
      (if d2 ≠ 0 then 0 else 0x40) := by
  unfold sunxi_hdmi_mode_set
  dsimp only
  constructor
  · split_ifs <;>
    · simp +decide only [reg_mask, reg_write, if_true, if_false]
      try rw [mask_read _ _ _ (by decide)]
  · split_ifs <;> simp +decide only [reg_mask, reg_write, if_true, if_false]

/-- A non-negative `int` below `2^32` survives the conversion to `u32`. -/
theorem u32_small (x : Int) (h0 : 0 ≤ x) (h : x < 4294967296) : ((u32 x : Nat) : Int) = x := by
  unfold u32
  omega

/-- The clock-unit fields after `sunxi_lcdc_mode_set`, for an in-range clock. -/
theorem lcdc_mode_set_fields (s : Hw) (mode : fb_videomode) (j1 j2 : Int)
    (hr : 20000 ≤ int32 mode.pixclock ∧ int32 mode.pixclock ≤ 400000) :
    (sunxi_lcdc_mode_set s mode j1 j2).1.reg .ccmu SUNXI_CCMU_PLL3_CFG &&& 0x7F =
      u32 (pll_search (int32 mode.pixclock)).best_n &&& 0x7F ∧
    (sunxi_lcdc_mode_set s mode j1 j2).1.reg .ccmu SUNXI_LCDC0_CH1_CLK &&& 0x0F =
      u32 ((pll_search (int32 mode.pixclock)).best_m - 1) &&& 0x0F ∧
    (sunxi_lcdc_mode_set s mode j1 j2).1.reg .ccmu SUNXI_LCDC0_CH1_CLK &&& 0x03000000 =
      (if (pll_search (int32 mode.pixclock)).best_double ≠ 0 then 0x02000000 else 0) := by
  unfold sunxi_lcdc_mode_set
  dsimp only
  exact pll_set_fields _ _ _ _ hr

/-- What `sunxi_mode_set` leaves in the clock unit is what `sunxi_lcdc_mode_set`
left there, and the transmitter's driver registers are as
`sunxi_hdmi_mode_set` left them. -/
theorem mode_set_inner (pf : Platform) (s : Hw) (mode : fb_videomode) (a : Nat)
    (j1 j2 : Int) :
    ∃ s1 s2, (∀ o, (sunxi_mode_set pf s mode a j1 j2).reg .ccmu o =
        (sunxi_lcdc_mode_set s1 mode j1 j2).1.reg .ccmu o) ∧
      (sunxi_mode_set pf s mode a j1 j2).reg .hdmi SUNXI_HDMI_TX_DRIVER1 =
        (sunxi_hdmi_mode_set pf s2 mode (sunxi_lcdc_mode_set s1 mode j1 j2).2.1
          (sunxi_lcdc_mode_set s1 mode j1 j2).2.2).reg .hdmi SUNXI_HDMI_TX_DRIVER1 ∧
      (sunxi_mode_set pf s mode a j1 j2).reg .hdmi SUNXI_HDMI_TX_DRIVER2 =
        (sunxi_hdmi_mode_set pf s2 mode (sunxi_lcdc_mode_set s1 mode j1 j2).2.1
          (sunxi_lcdc_mode_set s1 mode j1 j2).2.2).reg .hdmi SUNXI_HDMI_TX_DRIVER2 := by
  refine ⟨sunxi_composer_mode_set
      (sunxi_io_mask (sunxi_io_mask (sunxi_io_mask s .hdmi SUNXI_HDMI_VIDEO_CTRL 0 0x80000000)
        .lcdc SUNXI_LCDC_ENABLE 0 0x80000000) .composer SUNXI_COMP_MODE 0 0x02) mode a,
    (sunxi_lcdc_mode_set (sunxi_composer_mode_set
      (sunxi_io_mask (sunxi_io_mask (sunxi_io_mask s .hdmi SUNXI_HDMI_VIDEO_CTRL 0 0x80000000)
        .lcdc SUNXI_LCDC_ENABLE 0 0x80000000) .composer SUNXI_COMP_MODE 0 0x02) mode a)
      mode j1 j2).1, ?_, ?_, ?_⟩
  · intro o
    unfold sunxi_mode_set
    simp only [reg_mask, reg_write]
    simp +decide only [false_and, if_false]
    rw [hdmi_mode_set_other _ _ _ _ _ .ccmu _ (by decide)]
  · unfold sunxi_mode_set
    simp only [reg_mask, reg_write]
    simp +decide only [if_false]
  · unfold sunxi_mode_set
    simp only [reg_mask, reg_write]
    simp +decide only [if_false]

/-- The solver's result in the clock unit and in the transmitter after
`sunxi_mode_set`, for an in-range clock. -/
theorem mode_set_solution_fields (pf : Platform) (s : Hw) (mode : fb_videomode) (a : Nat)
    (j1 j2 : Int) (h : 20000 ≤ mode.pixclock ∧ mode.pixclock ≤ 400000) :
    (((sunxi_mode_set pf s mode a j1 j2).reg .ccmu SUNXI_CCMU_PLL3_CFG &&& 0x7F : Nat) : Int) =
      (pll_search (mode.pixclock : Int)).best_n ∧
    (((sunxi_mode_set pf s mode a j1 j2).reg .ccmu SUNXI_LCDC0_CH1_CLK &&& 0x0F : Nat) : Int) =
      (pll_search (mode.pixclock : Int)).best_m - 1 ∧
    ((sunxi_mode_set pf s mode a j1 j2).reg .ccmu SUNXI_LCDC0_CH1_CLK >>> 24) &&& 0x03 =
      (if (pll_search (mode.pixclock : Int)).best_double ≠ 0 then 2 else 0) ∧
    ((((sunxi_mode_set pf s mode a j1 j2).reg .hdmi SUNXI_HDMI_TX_DRIVER2 >>> 4) &&& 0x0F :
      Nat) : Int) = (pll_search (mode.pixclock : Int)).best_m ∧
    (sunxi_mode_set pf s mode a j1 j2).reg .hdmi SUNXI_HDMI_TX_DRIVER1 &&& 0x40 =
      (if (pll_search (mode.pixclock : Int)).best_double ≠ 0 then 0 else 0x40) := by
  have e32 : int32 mode.pixclock = (mode.pixclock : Int) := int32_small _ (by omega)
  have hd : 20000 ≤ (mode.pixclock : Int) ∧ (mode.pixclock : Int) ≤ 400000 := by omega
  have hr : 20000 ≤ int32 mode.pixclock ∧ int32 mode.pixclock ≤ 400000 := by rw [e32]; exact hd
  have hmem := search_chosen_mem _ hd.1 hd.2
  obtain ⟨m1, m15, n10, n127, -, -, -⟩ := enumerated_bounds _ _ hmem
  simp only [chosen] at m1 m15 n10 n127
  obtain ⟨s1, s2, hc, ht1, ht2⟩ := mode_set_inner pf s mode a j1 j2
  obtain ⟨f1, f2, f3⟩ := lcdc_mode_set_fields s1 mode j1 j2 hr
  have hret := (lcdc_mode_set_in_range s1 mode j1 j2 hr).1
  obtain ⟨g1, g2⟩ := hdmi_mode_set_fields pf s2 mode (sunxi_lcdc_mode_set s1 mode j1 j2).2.1
    (sunxi_lcdc_mode_set s1 mode j1 j2).2.2
  rw [hret] at g1 g2 ht1 ht2
  dsimp only at g1 g2 ht1 ht2
  rw [e32] at f1 f2 f3 g1 g2 ht1 ht2
  have hn : u32 (pll_search (mode.pixclock : Int)).best_n &&& 0x7F =
      u32 (pll_search (mode.pixclock : Int)).best_n := by
    generalize (pll_search (mode.pixclock : Int)).best_n = n at n10 n127
    interval_cases n <;> decide
  have hm : u32 ((pll_search (mode.pixclock : Int)).best_m - 1) &&& 0x0F =
      u32 ((pll_search (mode.pixclock : Int)).best_m - 1) := by
    generalize (pll_search (mode.pixclock : Int)).best_m = m at m1 m15
    interval_cases m <;> decide
  have hm4 : (u32 ((pll_search (mode.pixclock : Int)).best_m * 16) &&& 0xf0) >>> 4 =
      u32 (pll_search (mode.pixclock : Int)).best_m := by
    generalize (pll_search (mode.pixclock : Int)).best_m = m at m1 m15
    interval_cases m <;> decide
  refine ⟨?_, ?_, ?_, ?_, ?_⟩
  · rw [hc, f1, hn, u32_small _ (by omega) (by omega)]
  · rw [hc, f2, hm, u32_small _ (by omega) (by omega)]
  · rw [hc, shift_field]
    have : (0x03 : Nat) <<< 24 = 0x03000000 := by decide
    rw [this, f3]
    split_ifs <;> decide
  · rw [ht2, shift_field]
    have : (0x0F : Nat) <<< 4 = 0xf0 := by decide
    rw [this, g1, hm4, u32_small _ (by omega) (by omega)]
  · rw [ht1, g2]

set_option maxRecDepth 100000 in
/-- C15: for every mode with pixel clock in 20000..400000, after
`sunxi_mode_set` the solver's solution (N, M, doubler) is in both blocks:
`PLL3_CFG` bits 6:0 hold N, `LCDC0_CH1_CLK` bits 3:0 hold M-1 and bits 25:24
hold 2 if doubled and 0 otherwise, `TX_DRIVER2` bits 7:4 hold M and
`TX_DRIVER1` bit 6 is clear if doubled and set otherwise.  For the built-in
mode these are N = 65, channel field 2, not doubled, transmitter divider 3,
bit 6 set. -/
theorem mode_set_applies_solution (pf : Platform) (s : Hw) (mode : fb_videomode) (a : Nat)
    (j1 j2 : Int) (h : 20000 ≤ mode.pixclock ∧ mode.pixclock ≤ 400000) :
    ((((sunxi_mode_set pf s mode a j1 j2).reg .ccmu SUNXI_CCMU_PLL3_CFG &&& 0x7F : Nat) : Int) =
        (pll_search (mode.pixclock : Int)).best_n ∧
      (((sunxi_mode_set pf s mode a j1 j2).reg .ccmu SUNXI_LCDC0_CH1_CLK &&& 0x0F : Nat) : Int) =
        (pll_search (mode.pixclock : Int)).best_m - 1 ∧
      ((sunxi_mode_set pf s mode a j1 j2).reg .ccmu SUNXI_LCDC0_CH1_CLK >>> 24) &&& 0x03 =
        (if (pll_search (mode.pixclock : Int)).best_double ≠ 0 then 2 else 0) ∧
      ((((sunxi_mode_set pf s mode a j1 j2).reg .hdmi SUNXI_HDMI_TX_DRIVER2 >>> 4) &&& 0x0F :
        Nat) : Int) = (pll_search (mode.pixclock : Int)).best_m ∧
      (sunxi_mode_set pf s mode a j1 j2).reg .hdmi SUNXI_HDMI_TX_DRIVER1 &&& 0x40 =
        (if (pll_search (mode.pixclock : Int)).best_double ≠ 0 then 0 else 0x40)) ∧
    ((sunxi_mode_set pf s builtin_mode a j1 j2).reg .ccmu SUNXI_CCMU_PLL3_CFG &&& 0x7F = 65 ∧
      (sunxi_mode_set pf s builtin_mode a j1 j2).reg .ccmu SUNXI_LCDC0_CH1_CLK &&& 0x0F = 2 ∧
      ((sunxi_mode_set pf s builtin_mode a j1 j2).reg .ccmu SUNXI_LCDC0_CH1_CLK >>> 24) &&&
        0x03 = 0 ∧
      ((sunxi_mode_set pf s builtin_mode a j1 j2).reg .hdmi SUNXI_HDMI_TX_DRIVER2 >>> 4) &&&
        0x0F = 3 ∧
      (sunxi_mode_set pf s builtin_mode a j1 j2).reg .hdmi SUNXI_HDMI_TX_DRIVER1 &&& 0x40 =
        0x40) := by
  refine ⟨mode_set_solution_fields pf s mode a j1 j2 h, ?_⟩
  obtain ⟨a1, a2, a3, a4, a5⟩ := mode_set_solution_fields pf s builtin_mode a j1 j2 (by decide)
  have en : (pll_search ((builtin_mode.pixclock : Nat) : Int)).best_n = 65 := by decide
  have em : (pll_search ((builtin_mode.pixclock : Nat) : Int)).best_m = 3 := by decide
  have ed : (pll_search ((builtin_mode.pixclock : Nat) : Int)).best_double = 0 := by decide
  rw [en] at a1
  rw [em] at a2 a4
  rw [ed] at a3 a5
  refine ⟨by omega, by omega, a3, by omega, a5⟩

set_option maxRecDepth 100000 in
/-- C15, witness: the built-in mode is in range, and on the hardware at power-on
`PLL3_CFG` bits 6:0 read 65 and `LCDC0_CH1_CLK` bits 3:0 read 2. -/
theorem mode_set_applies_solution_witness :
    (20000 ≤ builtin_mode.pixclock ∧ builtin_mode.pixclock ≤ 400000) ∧
    ((((sunxi_mode_set sample_platform power_on builtin_mode 0 0 0).reg .ccmu
        SUNXI_CCMU_PLL3_CFG &&& 0x7F : Nat) : Int) = 65 ∧
      (((sunxi_mode_set sample_platform power_on builtin_mode 0 0 0).reg .ccmu
        SUNXI_LCDC0_CH1_CLK &&& 0x0F : Nat) : Int) = 2) :=
  ⟨by decide,
    (mode_set_applies_solution sample_platform power_on builtin_mode 0 0 0
      (by decide)).1.1.trans (by decide),
    (mode_set_applies_solution sample_platform power_on builtin_mode 0 0 0
      (by decide)).1.2.1.trans (by decide)⟩

/-! ## The order of the writes of `sunxi_mode_set` -/

/-- A write appends itself to the trace. -/
theorem trace_write (s : Hw) (b : Block) (o v : Nat) :
    (sunxi_io_write s b o v).trace = s.trace ++ [⟨b, o, v⟩] := rfl

/-- A masked write appends one write, of the merged value. -/
theorem trace_mask (s : Hw) (b : Block) (o v m : Nat) :
    (sunxi_io_mask s b o v m).trace =
      s.trace ++ [⟨b, o, (s.reg b o &&& (0xFFFFFFFF ^^^ m)) ||| (v &&& m)⟩] := rfl

/-- Doing nothing emits nothing. -/
theorem emits_id (Q : Block → Nat → Prop) : Emits Q (fun s => s) :=
  fun _ => ⟨[], by simp, by simp⟩

/-- A write to a register on which `Q` holds keeps `Emits Q`. -/
theorem emits_write (Q : Block → Nat → Prop) (F : Hw → Hw) (b : Block) (o v : Nat)
    (hF : Emits Q F) (hq : Q b o) : Emits Q (fun s => sunxi_io_write (F s) b o v) := by
  intro s
  obtain ⟨ws, h1, h2⟩ := hF s
  refine ⟨ws ++ [⟨b, o, v⟩], ?_, ?_⟩
  · rw [trace_write, h1, List.append_assoc]
  · intro w hw
    rcases List.mem_append.mp hw with h | h
    · exact h2 w h
    · rw [List.mem_singleton.mp h]; exact hq

/-- A masked write to a register on which `Q` holds keeps `Emits Q`. -/
theorem emits_mask (Q : Block → Nat → Prop) (F : Hw → Hw) (b : Block) (o v m : Nat)
    (hF : Emits Q F) (hq : Q b o) : Emits Q (fun s => sunxi_io_mask (F s) b o v m) := by
  intro s
  obtain ⟨ws, h1, h2⟩ := hF s
  refine ⟨ws ++ [⟨b, o, ((F s).reg b o &&& (0xFFFFFFFF ^^^ m)) ||| (v &&& m)⟩], ?_, ?_⟩
  · rw [trace_mask, h1, List.append_assoc]
  · intro w hw
    rcases List.mem_append.mp hw with h | h
    · exact h2 w h
    · rw [List.mem_singleton.mp h]; exact hq

/-- What `sunxi_lcdc_mode_set` hands back does not depend on the registers. -/
theorem lcdc_mode_set_snd (s t : Hw) (mode : fb_videomode) (j1 j2 : Int) :
    (sunxi_lcdc_mode_set s mode j1 j2).2 = (sunxi_lcdc_mode_set t mode j1 j2).2 := by
  unfold sunxi_lcdc_mode_set sunxi_lcdc_pll_set
  dsimp only
  split_ifs <;> rfl

/-- The writes of `sunxi_composer_mode_set` go to blender registers other than
`REG_CTL`. -/
theorem composer_mode_set_emits (Q : Block → Nat → Prop)
    (hQ : ∀ o, o ≠ SUNXI_COMP_REG_CTL → Q .composer o)
    (F : Hw → Hw) (hF : Emits Q F) (mode : fb_videomode) (a : Nat) :
    Emits Q (fun s => sunxi_composer_mode_set (F s) mode a) := by
  unfold sunxi_composer_mode_set
  repeat (first
    | with_reducible exact hF
    | with_reducible apply emits_mask
    | with_reducible apply emits_write)
  all_goals exact hQ _ (by decide)

/-- The writes of `sunxi_lcdc_mode_set` go to the timing controller and the
clock unit. -/
theorem lcdc_mode_set_emits (Q : Block → Nat → Prop) (hQ : ∀ o, Q .lcdc o)
    (hQc : ∀ o, Q .ccmu o) (F : Hw → Hw) (hF : Emits Q F) (mode : fb_videomode)
    (j1 j2 : Int) : Emits Q (fun s => (sunxi_lcdc_mode_set (F s) mode j1 j2).1) := by
  unfold sunxi_lcdc_mode_set sunxi_lcdc_pll_set
  dsimp only
  split_ifs <;> dsimp only <;>
    repeat (first
      | with_reducible exact hF
      | with_reducible apply emits_mask
      | with_reducible apply emits_write)
  all_goals first | exact hQ _ | exact hQc _

/-- The writes of `sunxi_hdmi_mode_set` go to transmitter registers other than
`VIDEO_CTRL`. -/
theorem hdmi_mode_set_emits (Q : Block → Nat → Prop)
    (hQ : ∀ o, o ≠ SUNXI_HDMI_VIDEO_CTRL → Q .hdmi o) (F : Hw → Hw) (hF : Emits Q F)
    (pf : Platform) (mode : fb_videomode) (d1 d2 : Int) :
    Emits Q (fun s => sunxi_hdmi_mode_set pf (F s) mode d1 d2) := by
  unfold sunxi_hdmi_mode_set
  dsimp only
  split_ifs <;>
    repeat (first
      | with_reducible exact hF
      | with_reducible apply emits_mask
      | with_reducible apply emits_write)
  all_goals exact hQ _ (by decide)


/-- The body of `sunxi_mode_set` is its three stages in sequence: disable,
program, and the five enabling writes. -/
theorem mode_set_stages (pf : Platform) (s : Hw) (mode : fb_videomode) (a : Nat)
    (j1 j2 : Int) :
    sunxi_mode_set pf s mode a j1 j2 =
      sunxi_io_mask (sunxi_io_mask (sunxi_io_mask (sunxi_io_mask (sunxi_io_mask
        (mode_set_program pf (mode_set_quiesce s) mode a j1 j2)
        .composer SUNXI_COMP_REG_CTL 0x01 0x01)
        .composer SUNXI_COMP_MODE 0x02 0x02)
        .lcdc SUNXI_LCDC_ENABLE 0x80000000 0x80000000)
        .lcdc SUNXI_LCDC_TCON1_IO_TRI 0x00000000 0x03000000)
        .hdmi SUNXI_HDMI_VIDEO_CTRL 0x80000000 0x80000000 := rfl

/-- The programming stage writes neither the transmitter's `VIDEO_CTRL` nor
the blender's `REG_CTL`. -/
theorem mode_set_program_emits (Q : Block → Nat → Prop)
    (hc : ∀ o, o ≠ SUNXI_COMP_REG_CTL → Q .composer o) (hl : ∀ o, Q .lcdc o)
    (hu : ∀ o, Q .ccmu o) (hh : ∀ o, o ≠ SUNXI_HDMI_VIDEO_CTRL → Q .hdmi o)
    (pf : Platform) (mode : fb_videomode) (a : Nat) (j1 j2 : Int) :
    Emits Q (fun s => mode_set_program pf s mode a j1 j2) := by
  unfold mode_set_program
  dsimp only
  have e : ∀ s : Hw, (sunxi_lcdc_mode_set (sunxi_composer_mode_set s mode a) mode j1 j2).2 =
      (sunxi_lcdc_mode_set power_on mode j1 j2).2 := fun s => lcdc_mode_set_snd _ _ _ _ _
  simp only [e]
  apply hdmi_mode_set_emits Q hh
  apply lcdc_mode_set_emits Q hl hu
  apply composer_mode_set_emits Q hc
  exact emits_id Q


/-- The writes of the first stage of `sunxi_mode_set`: each clears its enable
bit and keeps the other bits of its register. -/
theorem mode_set_quiesce_trace (s : Hw) :
    ∃ v1 v2 v3, (mode_set_quiesce s).trace = s.trace ++
        [⟨.hdmi, SUNXI_HDMI_VIDEO_CTRL, v1⟩, ⟨.lcdc, SUNXI_LCDC_ENABLE, v2⟩,
          ⟨.composer, SUNXI_COMP_MODE, v3⟩] ∧
      (v1 &&& 0x80000000 = 0 ∧
        v1 &&& 0x7FFFFFFF = s.reg .hdmi SUNXI_HDMI_VIDEO_CTRL &&& 0x7FFFFFFF) ∧
      (v2 &&& 0x80000000 = 0 ∧
        v2 &&& 0x7FFFFFFF = s.reg .lcdc SUNXI_LCDC_ENABLE &&& 0x7FFFFFFF) ∧
      (v3 &&& 0x02 = 0 ∧
        v3 &&& 0xFFFFFFFD = s.reg .composer SUNXI_COMP_MODE &&& 0xFFFFFFFD) := by
  refine ⟨(s.reg .hdmi SUNXI_HDMI_VIDEO_CTRL &&& (0xFFFFFFFF ^^^ 0x80000000)) |||
      (0 &&& 0x80000000),
    (s.reg .lcdc SUNXI_LCDC_ENABLE &&& (0xFFFFFFFF ^^^ 0x80000000)) ||| (0 &&& 0x80000000),
    (s.reg .composer SUNXI_COMP_MODE &&& (0xFFFFFFFF ^^^ 0x02)) ||| (0 &&& 0x02),
    ?_, ⟨?_, ?_⟩, ⟨?_, ?_⟩, ⟨?_, ?_⟩⟩
  · unfold mode_set_quiesce
    simp only [trace_mask, reg_mask, List.append_assoc, List.cons_append, List.nil_append]
    simp +decide only [if_false]
  · rw [mask_read _ _ _ (by decide)]; decide
  · rw [mask_keep _ _ _ _ (by decide) (by decide)]
  · rw [mask_read _ _ _ (by decide)]; decide
  · rw [mask_keep _ _ _ _ (by decide) (by decide)]
  · rw [mask_read _ _ _ (by decide)]; decide
  · rw [mask_keep _ _ _ _ (by decide) (by decide)]

/-- A masked write appends one write whose bits under the mask are those of
the value. -/
theorem mask_trace_bits (x : Hw) (b : Block) (o v m : Nat) (hm : m < 4294967296) :
    ∃ c, (sunxi_io_mask x b o v m).trace = x.trace ++ [⟨b, o, c⟩] ∧ c &&& m = v &&& m :=
  ⟨_, rfl, mask_read _ _ _ hm⟩

/-- The last five writes of `sunxi_mode_set`, after the programming stage. -/
theorem mode_set_final_trace (pf : Platform) (s : Hw) (mode : fb_videomode) (a : Nat)
    (j1 j2 : Int) :
    ∃ c1 c2 c3 c4 c5, (sunxi_mode_set pf s mode a j1 j2).trace =
      (mode_set_program pf (mode_set_quiesce s) mode a j1 j2).trace ++
        [⟨.composer, SUNXI_COMP_REG_CTL, c1⟩, ⟨.composer, SUNXI_COMP_MODE, c2⟩,
          ⟨.lcdc, SUNXI_LCDC_ENABLE, c3⟩, ⟨.lcdc, SUNXI_LCDC_TCON1_IO_TRI, c4⟩,
          ⟨.hdmi, SUNXI_HDMI_VIDEO_CTRL, c5⟩] ∧
      c1 &&& 0x01 = 0x01 ∧ c2 &&& 0x02 = 0x02 ∧ c3 &&& 0x80000000 = 0x80000000 ∧
      c4 &&& 0x03000000 = 0 ∧ c5 &&& 0x80000000 = 0x80000000 := by
  rw [mode_set_stages]
  generalize mode_set_program pf (mode_set_quiesce s) mode a j1 j2 = P
  obtain ⟨c1, h1, b1⟩ := mask_trace_bits P .composer SUNXI_COMP_REG_CTL 0x01 0x01 (by decide)
  obtain ⟨c2, h2, b2⟩ := mask_trace_bits (sunxi_io_mask P .composer SUNXI_COMP_REG_CTL 0x01 0x01)
    .composer SUNXI_COMP_MODE 0x02 0x02 (by decide)
  obtain ⟨c3, h3, b3⟩ := mask_trace_bits
    (sunxi_io_mask (sunxi_io_mask P .composer SUNXI_COMP_REG_CTL 0x01 0x01)
      .composer SUNXI_COMP_MODE 0x02 0x02)
    .lcdc SUNXI_LCDC_ENABLE 0x80000000 0x80000000 (by decide)
  obtain ⟨c4, h4, b4⟩ := mask_trace_bits
    (sunxi_io_mask (sunxi_io_mask (sunxi_io_mask P .composer SUNXI_COMP_REG_CTL 0x01 0x01)
      .composer SUNXI_COMP_MODE 0x02 0x02) .lcdc SUNXI_LCDC_ENABLE 0x80000000 0x80000000)
    .lcdc SUNXI_LCDC_TCON1_IO_TRI 0x00000000 0x03000000 (by decide)
  obtain ⟨c5, h5, b5⟩ := mask_trace_bits
    (sunxi_io_mask (sunxi_io_mask (sunxi_io_mask (sunxi_io_mask P
      .composer SUNXI_COMP_REG_CTL 0x01 0x01)
      .composer SUNXI_COMP_MODE 0x02 0x02) .lcdc SUNXI_LCDC_ENABLE 0x80000000 0x80000000)
      .lcdc SUNXI_LCDC_TCON1_IO_TRI 0x00000000 0x03000000)
    .hdmi SUNXI_HDMI_VIDEO_CTRL 0x80000000 0x80000000 (by decide)
  refine ⟨c1, c2, c3, c4, c5, ?_, b1, b2, b3, b4, b5⟩
  rw [h5, h4, h3, h2, h1]
  simp only [List.append_assoc, List.cons_append, List.nil_append]

/-- C12: in the sequence of register writes issued by `sunxi_mode_set`, the
first three writes clear, in this order, bit 31 of the transmitter's
`VIDEO_CTRL`, bit 31 of the timing controller's `ENABLE` and bit 1 of the
blender's `COMP_MODE`, each keeping the other bits of its register; every other
write of the call, to any block, comes after them. -/
theorem mode_set_disables_first (pf : Platform) (s : Hw) (mode : fb_videomode) (a : Nat)
    (j1 j2 : Int) :
    ∃ v1 v2 v3 rest, (sunxi_mode_set pf s mode a j1 j2).trace = s.trace ++
        (⟨.hdmi, SUNXI_HDMI_VIDEO_CTRL, v1⟩ :: ⟨.lcdc, SUNXI_LCDC_ENABLE, v2⟩ ::
          ⟨.composer, SUNXI_COMP_MODE, v3⟩ :: rest) ∧
      (v1 &&& 0x80000000 = 0 ∧
        v1 &&& 0x7FFFFFFF = s.reg .hdmi SUNXI_HDMI_VIDEO_CTRL &&& 0x7FFFFFFF) ∧
      (v2 &&& 0x80000000 = 0 ∧
        v2 &&& 0x7FFFFFFF = s.reg .lcdc SUNXI_LCDC_ENABLE &&& 0x7FFFFFFF) ∧
      (v3 &&& 0x02 = 0 ∧
        v3 &&& 0xFFFFFFFD = s.reg .composer SUNXI_COMP_MODE &&& 0xFFFFFFFD) ∧
      (sunxi_mode_set pf s mode a j1 j2).trace =
        (mode_set_quiesce s).trace ++ rest := by
  obtain ⟨c1, c2, c3, c4, c5, hfin, -⟩ := mode_set_final_trace pf s mode a j1 j2
  obtain ⟨mid, hmid, -⟩ := mode_set_program_emits (fun _ _ => True) (fun _ _ => trivial)
    (fun _ => trivial) (fun _ => trivial) (fun _ _ => trivial) pf mode a j1 j2
    (mode_set_quiesce s)
  obtain ⟨v1, v2, v3, hq, hb1, hb2, hb3⟩ := mode_set_quiesce_trace s
  dsimp only at hmid
  refine ⟨v1, v2, v3, mid ++ [⟨.composer, SUNXI_COMP_REG_CTL, c1⟩,
    ⟨.composer, SUNXI_COMP_MODE, c2⟩, ⟨.lcdc, SUNXI_LCDC_ENABLE, c3⟩,
    ⟨.lcdc, SUNXI_LCDC_TCON1_IO_TRI, c4⟩, ⟨.hdmi, SUNXI_HDMI_VIDEO_CTRL, c5⟩], ?_, hb1, hb2,
    hb3, ?_⟩
  · rw [hfin, hmid, hq]
    simp only [List.append_assoc, List.cons_append, List.nil_append]
  · rw [hfin, hmid, List.append_assoc]


/-- C13: in the sequence of register writes issued by `sunxi_mode_set`, the
final write sets bit 31 of the transmitter's `VIDEO_CTRL`; it is preceded, in
this order and after all the blender, timing-controller and transmitter
programming, by the blender commit (bit 0 of `COMP_REG_CTL`), the blender mode
bit (bit 1 of `COMP_MODE`), the timing-controller enable (bit 31 of `ENABLE`)
and the clearing of bits 25:24 of `TCON1_IO_TRI`; between the initial disable,
which writes bit 31 clear, and that final write there is no write to
`VIDEO_CTRL`, and none to `COMP_REG_CTL` before the commit. -/
theorem mode_set_enables_last (pf : Platform) (s : Hw) (mode : fb_videomode) (a : Nat)
    (j1 j2 : Int) :
    ∃ v1 v2 v3 mid c1 c2 c3 c4 c5,
      (sunxi_mode_set pf s mode a j1 j2).trace = s.trace ++
        [⟨.hdmi, SUNXI_HDMI_VIDEO_CTRL, v1⟩, ⟨.lcdc, SUNXI_LCDC_ENABLE, v2⟩,
          ⟨.composer, SUNXI_COMP_MODE, v3⟩] ++ mid ++
        [⟨.composer, SUNXI_COMP_REG_CTL, c1⟩, ⟨.composer, SUNXI_COMP_MODE, c2⟩,
          ⟨.lcdc, SUNXI_LCDC_ENABLE, c3⟩, ⟨.lcdc, SUNXI_LCDC_TCON1_IO_TRI, c4⟩,
          ⟨.hdmi, SUNXI_HDMI_VIDEO_CTRL, c5⟩] ∧
      (mode_set_program pf (mode_set_quiesce s) mode a j1 j2).trace = s.trace ++
        [⟨.hdmi, SUNXI_HDMI_VIDEO_CTRL, v1⟩, ⟨.lcdc, SUNXI_LCDC_ENABLE, v2⟩,
          ⟨.composer, SUNXI_COMP_MODE, v3⟩] ++ mid ∧
      v1 &&& 0x80000000 = 0 ∧
      (∀ w ∈ mid, ¬ (w.blk = .hdmi ∧ w.off = SUNXI_HDMI_VIDEO_CTRL) ∧
        ¬ (w.blk = .composer ∧ w.off = SUNXI_COMP_REG_CTL)) ∧
      c1 &&& 0x01 = 0x01 ∧ c2 &&& 0x02 = 0x02 ∧ c3 &&& 0x80000000 = 0x80000000 ∧
      c4 &&& 0x03000000 = 0 ∧ c5 &&& 0x80000000 = 0x80000000 := by
  obtain ⟨c1, c2, c3, c4, c5, hfin, b1, b2, b3, b4, b5⟩ := mode_set_final_trace pf s mode a j1 j2
  obtain ⟨mid, hmid, hQ⟩ := mode_set_program_emits
    (fun b o => ¬ (b = .hdmi ∧ o = SUNXI_HDMI_VIDEO_CTRL) ∧
      ¬ (b = .composer ∧ o = SUNXI_COMP_REG_CTL))
    (fun o ho => ⟨fun h => absurd h.1 (by decide), fun h => ho h.2⟩)
    (fun o => ⟨fun h => absurd h.1 (by decide), fun h => absurd h.1 (by decide)⟩)
    (fun o => ⟨fun h => absurd h.1 (by decide), fun h => absurd h.1 (by decide)⟩)
    (fun o ho => ⟨fun h => ho h.2, fun h => absurd h.1 (by decide)⟩) pf mode a j1 j2
    (mode_set_quiesce s)
  obtain ⟨v1, v2, v3, hq, hb1, -, -⟩ := mode_set_quiesce_trace s
  dsimp only at hmid
  refine ⟨v1, v2, v3, mid, c1, c2, c3, c4, c5, ?_, ?_, hb1.1, hQ, b1, b2, b3, b4, b5⟩
  · rw [hfin, hmid, hq]
  · rw [hmid, hq]


/-- The address registers after `sunxi_composer_mode_set`. -/
theorem composer_mode_set_addr (s : Hw) (mode : fb_videomode) (a : Nat) :
    (sunxi_composer_mode_set s mode a).reg .composer SUNXI_COMP_LAYER0_ADDR_LOW = shl32 a 3 ∧
    (sunxi_composer_mode_set s mode a).reg .composer SUNXI_COMP_LAYER_ADDR_HIGH &&& 0xFF =
      (a >>> 29) &&& 0xFF ∧
    (sunxi_composer_mode_set s mode a).reg .composer SUNXI_COMP_LAYER_ADDR_HIGH &&& 0xFFFFFF00 =
      s.reg .composer SUNXI_COMP_LAYER_ADDR_HIGH &&& 0xFFFFFF00 := by
  unfold sunxi_composer_mode_set
  refine ⟨?_, ?_, ?_⟩
  · simp +decide only [reg_mask, reg_write, if_true, if_false]
  · simp +decide only [reg_mask, reg_write, if_true, if_false]
    rw [mask_read _ _ _ (by decide)]
  · simp +decide only [reg_mask, reg_write, if_true, if_false]
    rw [mask_keep _ _ _ _ (by decide) (by decide)]

/-- The two halves of a 32-bit address as the blender takes them. -/
theorem addr_split (a : Nat) (ha : a < 4294967296) :
    shl32 a 3 = (a * 8) % 4294967296 ∧ (a >>> 29) &&& 0xFF = a / 536870912 ∧
    (a * 8) % 4294967296 + 4294967296 * (a / 536870912) = 8 * a := by
  refine ⟨?_, ?_, by omega⟩
  · unfold shl32
    rw [Nat.shiftLeft_eq]
  · rw [Nat.shiftRight_eq_div_pow]
    have h : (0xFF : Nat) = 2 ^ 8 - 1 := by norm_num
    rw [h, Nat.and_pow_two_sub_one_eq_mod]
    norm_num
    omega

/-- The writes of the programming stage around the two address writes. -/
theorem mode_set_program_addr (pf : Platform) (x : Hw) (mode : fb_videomode) (a : Nat)
    (j1 j2 : Int) :
    ∃ pre vh mid, (mode_set_program pf x mode a j1 j2).trace = x.trace ++ pre ++
        [⟨.composer, SUNXI_COMP_LAYER0_ADDR_LOW, shl32 a 3⟩,
          ⟨.composer, SUNXI_COMP_LAYER_ADDR_HIGH, vh⟩] ++ mid ∧
      vh &&& 0xFF = (a >>> 29) &&& 0xFF ∧
      (∀ w ∈ pre, ¬ (w.blk = .composer ∧ w.off = SUNXI_COMP_REG_CTL)) ∧
      (∀ w ∈ mid, ¬ (w.blk = .composer ∧ (w.off = SUNXI_COMP_REG_CTL ∨
        w.off = SUNXI_COMP_LAYER0_ADDR_LOW ∨ w.off = SUNXI_COMP_LAYER_ADDR_HIGH))) := by
  have e : ∀ s : Hw, (sunxi_lcdc_mode_set (sunxi_composer_mode_set s mode a) mode j1 j2).2 =
      (sunxi_lcdc_mode_set power_on mode j1 j2).2 := fun s => lcdc_mode_set_snd _ _ _ _ _
  have key : Emits (fun b o => ¬ (b = .composer ∧ (o = SUNXI_COMP_REG_CTL ∨
      o = SUNXI_COMP_LAYER0_ADDR_LOW ∨ o = SUNXI_COMP_LAYER_ADDR_HIGH)))
      (fun y => sunxi_hdmi_mode_set pf
        (sunxi_lcdc_mode_set
          (sunxi_io_mask (sunxi_io_mask (sunxi_io_mask (sunxi_io_mask y
            .composer SUNXI_COMP_LAYER0_ATTR1 (shl32 0x09 8) 0x0F00)
            .composer SUNXI_COMP_LAYER0_ATTR1 0 0x04)
            .composer SUNXI_COMP_LAYER0_ATTR1 0 0x03)
            .composer SUNXI_COMP_MODE 0x100 0x100) mode j1 j2).1 mode
        (sunxi_lcdc_mode_set power_on mode j1 j2).2.1
        (sunxi_lcdc_mode_set power_on mode j1 j2).2.2) := by
    apply hdmi_mode_set_emits _ (fun o _ h => absurd h.1 (by decide))
    apply lcdc_mode_set_emits _ (fun o h => absurd h.1 (by decide))
      (fun o h => absurd h.1 (by decide))
    repeat (first
      | with_reducible exact emits_id _
      | with_reducible apply emits_mask)
    all_goals decide
  unfold mode_set_program
  dsimp only
  simp only [e]
  obtain ⟨mid, hmid, hQ⟩ := key
    (sunxi_io_mask (sunxi_io_write (sunxi_io_write (sunxi_io_write (sunxi_io_write x
      .composer SUNXI_COMP_DISP_SIZE (shl32 (sub32 mode.yres 1) 16 ||| sub32 mode.xres 1))
      .composer SUNXI_COMP_LAYER0_SIZE (shl32 (sub32 mode.yres 1) 16 ||| sub32 mode.xres 1))
      .composer SUNXI_COMP_LAYER0_STRIDE (shl32 mode.xres 5))
      .composer SUNXI_COMP_LAYER0_ADDR_LOW (shl32 a 3))
      .composer SUNXI_COMP_LAYER_ADDR_HIGH (a >>> 29) 0xFF)
  obtain ⟨vh, hvh, hbits⟩ := mask_trace_bits
    (sunxi_io_write (sunxi_io_write (sunxi_io_write (sunxi_io_write x
      .composer SUNXI_COMP_DISP_SIZE (shl32 (sub32 mode.yres 1) 16 ||| sub32 mode.xres 1))
      .composer SUNXI_COMP_LAYER0_SIZE (shl32 (sub32 mode.yres 1) 16 ||| sub32 mode.xres 1))
      .composer SUNXI_COMP_LAYER0_STRIDE (shl32 mode.xres 5))
      .composer SUNXI_COMP_LAYER0_ADDR_LOW (shl32 a 3))
    .composer SUNXI_COMP_LAYER_ADDR_HIGH (a >>> 29) 0xFF (by decide)
  refine ⟨[⟨.composer, SUNXI_COMP_DISP_SIZE, shl32 (sub32 mode.yres 1) 16 ||| sub32 mode.xres 1⟩,
    ⟨.composer, SUNXI_COMP_LAYER0_SIZE, shl32 (sub32 mode.yres 1) 16 ||| sub32 mode.xres 1⟩,
    ⟨.composer, SUNXI_COMP_LAYER0_STRIDE, shl32 mode.xres 5⟩], vh, mid, ?_, hbits, ?_, hQ⟩
  · have hu : sunxi_composer_mode_set x mode a = _ := rfl
    dsimp only at hmid
    unfold sunxi_composer_mode_set
    rw [hmid, hvh]
    simp only [trace_write, List.append_assoc, List.cons_append, List.nil_append]
  · intro w hw
    simp only [List.mem_cons, List.mem_singleton, List.not_mem_nil, or_false] at hw
    rcases hw with rfl | rfl | rfl <;> intro h <;> have h2 := h.2 <;> dsimp only at h2 <;>
      exact absurd h2 (by decide)


/-- C18: for every 32-bit framebuffer address `a`, `sunxi_composer_mode_set`
splits the base address without loss: `LAYER0_ADDR_LOW` is written
`(a * 8) mod 2^32`, bits 7:0 of `LAYER_ADDR_HIGH` are set to `a div 2^29` while
its bits 31:8 keep their previous value, so `ADDR_LOW + 2^32 * (ADDR_HIGH and
0xFF) = 8 * a`.  In the writes of `sunxi_mode_set` both fields are written
before the commit write to `COMP_REG_CTL` and the mode-bit write to `COMP_MODE`
that follows it, with no earlier commit and no later write to either address
register in between. -/
theorem composer_address_split (pf : Platform) (s : Hw) (mode : fb_videomode) (a : Nat)
    (j1 j2 : Int) (ha : a < 4294967296) :
    ((sunxi_composer_mode_set s mode a).reg .composer SUNXI_COMP_LAYER0_ADDR_LOW =
        (a * 8) % 4294967296 ∧
      (sunxi_composer_mode_set s mode a).reg .composer SUNXI_COMP_LAYER_ADDR_HIGH &&& 0xFF =
        a / 536870912 ∧
      (sunxi_composer_mode_set s mode a).reg .composer SUNXI_COMP_LAYER_ADDR_HIGH &&&
        0xFFFFFF00 = s.reg .composer SUNXI_COMP_LAYER_ADDR_HIGH &&& 0xFFFFFF00 ∧
      (sunxi_composer_mode_set s mode a).reg .composer SUNXI_COMP_LAYER0_ADDR_LOW +
        4294967296 * ((sunxi_composer_mode_set s mode a).reg .composer
          SUNXI_COMP_LAYER_ADDR_HIGH &&& 0xFF) = 8 * a) ∧
    ∃ pre vh mid c1 c2 fin,
      (sunxi_mode_set pf s mode a j1 j2).trace = s.trace ++ pre ++
        [⟨.composer, SUNXI_COMP_LAYER0_ADDR_LOW, (a * 8) % 4294967296⟩,
          ⟨.composer, SUNXI_COMP_LAYER_ADDR_HIGH, vh⟩] ++ mid ++
        [⟨.composer, SUNXI_COMP_REG_CTL, c1⟩, ⟨.composer, SUNXI_COMP_MODE, c2⟩] ++ fin ∧
      vh &&& 0xFF = a / 536870912 ∧ c1 &&& 0x01 = 0x01 ∧ c2 &&& 0x02 = 0x02 ∧
      (∀ w ∈ pre ++ mid, ¬ (w.blk = .composer ∧ w.off = SUNXI_COMP_REG_CTL)) ∧
      (∀ w ∈ mid, ¬ (w.blk = .composer ∧ (w.off = SUNXI_COMP_LAYER0_ADDR_LOW ∨
        w.off = SUNXI_COMP_LAYER_ADDR_HIGH))) := by
  obtain ⟨e1, e2, e3⟩ := addr_split a ha
  obtain ⟨r1, r2, r3⟩ := composer_mode_set_addr s mode a
  refine ⟨⟨?_, ?_, r3, ?_⟩, ?_⟩
  · rw [r1, e1]
  · rw [r2, e2]
  · rw [r1, r2, e1, e2, e3]
  · obtain ⟨c1, c2, c3, c4, c5, hfin, b1, b2, -, -, -⟩ := mode_set_final_trace pf s mode a j1 j2
    obtain ⟨pre, vh, mid, hprog, hvh, hpre, hmid⟩ :=
      mode_set_program_addr pf (mode_set_quiesce s) mode a j1 j2
    obtain ⟨v1, v2, v3, hq, -, -, -⟩ := mode_set_quiesce_trace s
    refine ⟨[⟨.hdmi, SUNXI_HDMI_VIDEO_CTRL, v1⟩, ⟨.lcdc, SUNXI_LCDC_ENABLE, v2⟩,
        ⟨.composer, SUNXI_COMP_MODE, v3⟩] ++ pre, vh, mid, c1, c2,
      [⟨.lcdc, SUNXI_LCDC_ENABLE, c3⟩, ⟨.lcdc, SUNXI_LCDC_TCON1_IO_TRI, c4⟩,
        ⟨.hdmi, SUNXI_HDMI_VIDEO_CTRL, c5⟩], ?_, ?_, b1, b2, ?_, ?_⟩
    · rw [hfin, hprog, hq, e1]
      simp only [List.append_assoc, List.cons_append, List.nil_append]
    · rw [hvh, e2]
    · intro w hw
      rw [List.mem_append, List.mem_append] at hw
      rcases hw with (hw | hw) | hw
      · simp only [List.mem_cons, List.mem_singleton, List.not_mem_nil, or_false] at hw
        rcases hw with rfl | rfl | rfl
        · intro h
          have h1 := h.1
          dsimp only at h1
          exact absurd h1 (by decide)
        · intro h
          have h1 := h.1
          dsimp only at h1
          exact absurd h1 (by decide)
        · intro h
          have h2 := h.2
          dsimp only at h2
          exact absurd h2 (by decide)
      · exact hpre w hw
      · exact fun h => hmid w hw ⟨h.1, Or.inl h.2⟩
    · exact fun w hw h => hmid w hw ⟨h.1, Or.inr h.2⟩

set_option maxRecDepth 100000 in
/-- C18, witness: the address `0xC8000000` is below `2^32`; its low field is
`0x40000000` and its high field 6. -/
theorem composer_address_split_witness :
    (0xC8000000 : Nat) < 4294967296 ∧
    (sunxi_composer_mode_set power_on builtin_mode 0xC8000000).reg .composer
      SUNXI_COMP_LAYER0_ADDR_LOW = 0x40000000 ∧
    (sunxi_composer_mode_set power_on builtin_mode 0xC8000000).reg .composer
      SUNXI_COMP_LAYER_ADDR_HIGH &&& 0xFF = 6 :=
  ⟨by decide,
    (composer_address_split sample_platform power_on builtin_mode 0xC8000000 3 0
      (by decide)).1.1,
    (composer_address_split sample_platform power_on builtin_mode 0xC8000000 3 0
      (by decide)).1.2.1⟩

/-! ## Blender initialisation -/

/-- The clearing loop writes zero to each word of its range, in ascending
order, and nothing else. -/
theorem composer_clear_trace (s : Hw) (k i : Nat) (h : i + 4 * k ≤ 0x1000) :
    (composer_clear s k i).trace =
      s.trace ++ (List.range k).map (fun j => (⟨.composer, i + 4 * j, 0⟩ : Access)) := by
  induction k generalizing s i with
  | zero => simp [composer_clear]
  | succ k ih =>
    unfold composer_clear
    rw [if_pos (by omega), ih _ _ (by omega), trace_write, List.range_succ_eq_map,
      List.map_cons, List.map_map, List.append_assoc]
    congr 1
    rw [List.singleton_append]
    congr 1
    apply List.map_congr_left
    intro j _
    simp only [Function.comp_apply, Nat.succ_eq_add_one]
    congr 1
    omega

/-- After the clearing loop every word of its range reads zero; the other
registers of the blender are untouched. -/
theorem composer_clear_reg (s : Hw) (k i o : Nat) (h : i + 4 * k ≤ 0x1000) :
    (composer_clear s k i).reg .composer o =
      if i ≤ o ∧ o < i + 4 * k ∧ (o - i) % 4 = 0 then 0 else s.reg .composer o := by
  induction k generalizing s i with
  | zero =>
    have : ¬ (i ≤ o ∧ o < i + 4 * 0 ∧ (o - i) % 4 = 0) := by omega
    rw [if_neg this]
    rfl
  | succ k ih =>
    unfold composer_clear
    rw [if_pos (by omega), ih _ _ (by omega)]
    simp only [reg_write, true_and]
    split_ifs <;> first | rfl | omega

/-- The writes of `sunxi_composer_init` before the clock enable go to the clock
unit only. -/
theorem composer_init_prefix (s : Hw) :
    ∃ Y pre, sunxi_composer_init s =
      sunxi_io_mask (composer_clear
        (sunxi_io_mask Y .ccmu SUNXI_DE_BE0_CLK 0x80000000 0x80000000) 512 0x0800)
        .composer SUNXI_COMP_MODE 0x01 0x01 ∧
      Y.trace = s.trace ++ pre ∧ ∀ w ∈ pre, w.blk = .ccmu := by
  have hE : ∀ v, Emits (fun b _ => b = .ccmu) (fun s : Hw =>
      sunxi_io_mask (sunxi_io_mask (sunxi_io_mask (sunxi_io_mask (sunxi_io_mask s
        .ccmu SUNXI_DE_BE0_CLK 0x40000000 0x40000000)
        .ccmu SUNXI_DE_BE0_CLK 0x02000000 0x03000000)
        .ccmu SUNXI_DE_BE0_CLK v 0x03)
        .ccmu SUNXI_CCMU_AHB_GATING1 0x1000 0x1000)
        .ccmu SUNXI_CCMU_DRAM_CLK_GATING 0x04000000 0x04000000) := by
    intro v
    repeat (first
      | with_reducible exact emits_id _
      | with_reducible apply emits_mask)
    all_goals rfl
  by_cases hh : sunxi_pll5_frequency s < 300000
  · obtain ⟨pre, hpre, hQ⟩ := hE 0 s
    refine ⟨_, pre, ?_, hpre, hQ⟩
    unfold sunxi_composer_init
    simp only [hh, if_true, ne_eq, not_true_eq_false, if_false]
  · obtain ⟨pre, hpre, hQ⟩ := hE 0x01 s
    refine ⟨_, pre, ?_, hpre, hQ⟩
    unfold sunxi_composer_init
    simp +decide only [hh, if_true, ne_eq, if_false, not_false_eq_true]

/-- C20: with registers as plain memory, for every initial register state,
after `sunxi_composer_init` every blender register at a word offset in
`[0x804, 0x1000)` reads 0 and the mode register at `0x800` reads exactly `0x01`.
Its writes are, in order: writes to the clock unit, the write that sets bit 31
of `DE_BE0_CLK`, zero to each of the 512 words of `[0x800, 0x1000)` in ascending
order, and the write of `0x01` to the mode register. -/
theorem composer_init_clears (s : Hw) :
    (∀ o, 0x804 ≤ o → o < 0x1000 → o % 4 = 0 →
      (sunxi_composer_init s).reg .composer o = 0) ∧
    (sunxi_composer_init s).reg .composer SUNXI_COMP_MODE = 0x01 ∧
    ∃ pre v m, (sunxi_composer_init s).trace = s.trace ++ pre ++
        [⟨.ccmu, SUNXI_DE_BE0_CLK, v⟩] ++
        (List.range 512).map (fun j => (⟨.composer, 0x0800 + 4 * j, 0⟩ : Access)) ++
        [⟨.composer, SUNXI_COMP_MODE, m⟩] ∧
      v &&& 0x80000000 = 0x80000000 ∧ m = 0x01 ∧ ∀ w ∈ pre, w.blk = .ccmu := by
  obtain ⟨Y, pre, hY, hpre, hQ⟩ := composer_init_prefix s
  rw [hY]
  refine ⟨?_, ?_, ?_⟩
  · intro o h1 h2 h3
    have hne : ¬ (Block.composer = Block.composer ∧ o = SUNXI_COMP_MODE) := by
      intro h
      have h4 : o = 0x0800 := h.2
      omega
    rw [reg_mask, if_neg hne,
      composer_clear_reg _ _ _ _ (by norm_num), if_pos (by omega)]
  · rw [reg_mask, if_pos ⟨rfl, rfl⟩, composer_clear_reg _ _ _ _ (by norm_num),
      if_pos (by decide)]
    decide
  · obtain ⟨v, hv, hb⟩ := mask_trace_bits Y .ccmu SUNXI_DE_BE0_CLK 0x80000000 0x80000000
      (by decide)
    refine ⟨pre, v, 0x01, ?_, hb, rfl, hQ⟩
    rw [trace_mask, composer_clear_reg _ _ _ _ (by norm_num), if_pos (by decide),
      composer_clear_trace _ _ _ (by norm_num), hv, hpre]
    rfl

/-! ## Bring-up without a sink -/

/-- The writes of `sunxi_hdmi_hpd_detect` when no sink is sensed go to the
clock unit and the transmitter only. -/
theorem hpd_detect_absent_trace (s : Hw) (h : s.reg .hdmi SUNXI_HDMI_HPD &&& 0x01 = 0) :
    ∃ ws, (sunxi_hdmi_hpd_detect s).1.trace = s.trace ++ ws ∧
      ∀ w ∈ ws, w.blk ≠ .composer ∧ w.blk ≠ .lcdc := by
  have hE : Emits (fun b _ => b ≠ .composer ∧ b ≠ .lcdc) (fun s : Hw =>
      (sunxi_io_mask (sunxi_io_mask (sunxi_io_mask (sunxi_io_write
        (sunxi_io_write (sunxi_io_write (sunxi_io_mask (sunxi_io_mask (sunxi_io_mask
        (sunxi_io_write s .ccmu SUNXI_CCMU_PLL7_CFG 0x8010D064)
        .ccmu SUNXI_CCMU_HDMI_CLK 0x01000000 0x03000000)
        .ccmu SUNXI_CCMU_AHB_GATING1 0x800 0x800)
        .ccmu SUNXI_CCMU_HDMI_CLK 0x80000000 0x80000000)
        .hdmi SUNXI_HDMI_CTRL 0x80000000)
        .hdmi SUNXI_HDMI_TX_DRIVER0 0xA0800000)
        .hdmi SUNXI_HDMI_CTRL 0)
        .ccmu SUNXI_CCMU_HDMI_CLK 0 0x80000000)
        .ccmu SUNXI_CCMU_AHB_GATING1 0 0x800)
        .ccmu SUNXI_CCMU_PLL7_CFG 0 0x80000000)) := by
    repeat (first
      | with_reducible exact emits_id _
      | with_reducible apply emits_mask
      | with_reducible apply emits_write)
    all_goals decide
  rw [hpd_detect_absent_state s h]
  exact hE s

/-- C11: when the hotplug sense bit reads clear, `video_hw_init` returns `NULL`
whatever the fuel, with the display's enabled flag at 0; the hardware is as
`sunxi_hdmi_hpd_detect` left it, so the writes issued go to the clock unit and
the transmitter only, none to the blender or the timing controller, whose
registers are unchanged; `sunxi_simplefb_setup` on the resulting state returns
the blob as it was, for any libfdt. -/
theorem video_hw_init_no_sink {Blob Strs : Type} (fdt : Libfdt Blob Strs) (fb_size : Nat)
    (pf : Platform) (fuel : Nat) (j1 j2 : Int) (st : Board) (blob : Blob)
    (h : st.hw.reg .hdmi SUNXI_HDMI_HPD &&& 0x01 = 0) :
    ∃ st', video_hw_init pf fuel j1 j2 st = some (st', none) ∧
      st'.enabled = 0 ∧
      st'.hw = (sunxi_hdmi_hpd_detect st.hw).1 ∧
      (∃ ws, st'.hw.trace = st.hw.trace ++ ws ∧ ∀ w ∈ ws, w.blk ≠ .composer ∧ w.blk ≠ .lcdc) ∧
      (∀ o, st'.hw.reg .composer o = st.hw.reg .composer o ∧
        st'.hw.reg .lcdc o = st.hw.reg .lcdc o) ∧
      sunxi_simplefb_setup fdt fb_size st' blob = blob := by
  have e := hpd_detect_absent_state st.hw h
  refine ⟨⟨(sunxi_hdmi_hpd_detect st.hw).1, ⟨0, 0, 0, 0, 0⟩, 0, st.ram_top, st.ram_top⟩, ?_, rfl,
    rfl, hpd_detect_absent_trace st.hw h, ?_, ?_⟩
  · unfold video_hw_init
    have h2 : (sunxi_hdmi_hpd_detect st.hw).2 = 0 := by rw [e]
    simp only [h2, if_true]
  · intro o
    dsimp only
    rw [e]
    constructor <;> simp +decide only [reg_mask, reg_write, false_and, if_false]
  · unfold sunxi_simplefb_setup
    simp only [if_true]

set_option maxRecDepth 100000 in
/-- C11, witness: on a board whose registers all read 0 the sense bit is clear
and a blob listing `memory` is returned unchanged, where with the enabled flag
set the same call adds the framebuffer node and its properties. -/
theorem video_hw_init_no_sink_witness :
    dark_board.hw.reg .hdmi SUNXI_HDMI_HPD &&& 0x01 = 0 ∧
    (∃ st', video_hw_init sample_platform 0 3 0 dark_board = some (st', none) ∧
      st'.enabled = 0 ∧
      st'.hw = (sunxi_hdmi_hpd_detect dark_board.hw).1 ∧
      (∃ ws, st'.hw.trace = dark_board.hw.trace ++ ws ∧
        ∀ w ∈ ws, w.blk ≠ .composer ∧ w.blk ≠ .lcdc) ∧
      (∀ o, st'.hw.reg .composer o = dark_board.hw.reg .composer o ∧
        st'.hw.reg .lcdc o = dark_board.hw.reg .lcdc o) ∧
      sunxi_simplefb_setup listing_fdt 0x800000 st' ["memory"] = ["memory"]) ∧
    sunxi_simplefb_setup listing_fdt 0x800000 { dark_board with enabled := 1 } ["memory"] =
      ["memory", "framebuffer", "compatible", "reg", "width", "height", "stride", "format",
        "clocks"] :=
  ⟨by decide,
    video_hw_init_no_sink listing_fdt 0x800000 sample_platform 0 3 0 dark_board ["memory"]
      (by decide), by decide⟩

/-! ## Blender clock divider -/

/-- The divider field `sunxi_composer_init` leaves in `DE_BE0_CLK`. -/
theorem composer_init_divider (s : Hw) :
    (sunxi_composer_init s).reg .ccmu SUNXI_DE_BE0_CLK &&& 0x03 =
      if sunxi_pll5_frequency s < 300000 then 0 else 1 := by
  by_cases hh : sunxi_pll5_frequency s < 300000
  · unfold sunxi_composer_init
    simp only [hh, if_true, ne_eq, not_true_eq_false, if_false]
    rw [reg_mask, if_neg (by decide), composer_clear_other _ _ _ _ _ (by decide)]
    simp +decide only [reg_mask, if_true, if_false]
    rw [mask_keep _ _ _ _ (by decide) (by decide), mask_read _ _ _ (by decide)]
    decide
  · unfold sunxi_composer_init
    simp +decide only [hh, if_true, ne_eq, if_false, not_false_eq_true]
    rw [reg_mask, if_neg (by decide), composer_clear_other _ _ _ _ _ (by decide)]
    simp +decide only [reg_mask, if_true, if_false]
    rw [mask_keep _ _ _ _ (by decide) (by decide), mask_read _ _ _ (by decide)]
    decide

/-- C21, as amended: `sunxi_composer_init` halves the blender's input clock
exactly when the shared PLL's frequency is at least 300000 kHz.  With
`f = (24000 * n * k) >> p` decoded from `PLL5_CFG` (`n` = bits 12:8, `k` = bits
5:4 plus 1, `p` = bits 17:16), which is what `sunxi_pll5_frequency` returns,
bits 1:0 of `DE_BE0_CLK` end up 1 if `300000 ≤ f` and 0 otherwise, for every
value of `PLL5_CFG` and every state of the other registers. -/
theorem composer_init_halves (s : Hw) :
    sunxi_pll5_frequency s =
      (((24000 * ((s.reg .ccmu SUNXI_CCMU_PLL5_CFG >>> 8) &&& 0x1F) *
        (((s.reg .ccmu SUNXI_CCMU_PLL5_CFG >>> 4) &&& 0x03) + 1)) >>>
          ((s.reg .ccmu SUNXI_CCMU_PLL5_CFG >>> 16) &&& 0x03) : Nat) : Int) ∧
    (sunxi_composer_init s).reg .ccmu SUNXI_DE_BE0_CLK &&& 0x03 =
      (if 300000 ≤ (24000 * ((s.reg .ccmu SUNXI_CCMU_PLL5_CFG >>> 8) &&& 0x1F) *
        (((s.reg .ccmu SUNXI_CCMU_PLL5_CFG >>> 4) &&& 0x03) + 1)) >>>
          ((s.reg .ccmu SUNXI_CCMU_PLL5_CFG >>> 16) &&& 0x03) then 1 else 0) := by
  have e : sunxi_pll5_frequency s =
      (((24000 * ((s.reg .ccmu SUNXI_CCMU_PLL5_CFG >>> 8) &&& 0x1F) *
        (((s.reg .ccmu SUNXI_CCMU_PLL5_CFG >>> 4) &&& 0x03) + 1)) >>>
          ((s.reg .ccmu SUNXI_CCMU_PLL5_CFG >>> 16) &&& 0x03) : Nat) : Int) := rfl
  refine ⟨e, ?_⟩
  rw [composer_init_divider, e]
  split_ifs <;> first | rfl | omega

set_option maxRecDepth 100000 in
/-- C21, counterexample to the claim as worded: with `PLL5_CFG = 0x11900` the
frequency is exactly 300000, which does not exceed 300000, and bits 1:0 of
`DE_BE0_CLK` end up 1, not 0. -/
theorem composer_init_halves_at_threshold :
    sunxi_pll5_frequency pll5_at_threshold = 300000 ∧
    ¬ (300000 < sunxi_pll5_frequency pll5_at_threshold) ∧
    (sunxi_composer_init pll5_at_threshold).reg .ccmu SUNXI_DE_BE0_CLK &&& 0x03 = 1 ∧
    ¬ ((sunxi_composer_init pll5_at_threshold).reg .ccmu SUNXI_DE_BE0_CLK &&& 0x03 =
      if 300000 < sunxi_pll5_frequency pll5_at_threshold then 1 else 0) := by
  have h : sunxi_pll5_frequency pll5_at_threshold = 300000 := by decide
  refine ⟨h, by rw [h]; decide, ?_, ?_⟩
  · rw [composer_init_divider, h]; decide
  · rw [composer_init_divider, h]; decide

/-! ## Solver: the skipped doubled candidates -/

/-- The body without the skip is a fold of `pick` over the four candidates of
its divisor. -/
theorem pll_body_unskipped_eq_foldl (d : Int) (k : Nat) (b : Best) :
    pll_body_unskipped d (k : Int) b = (claimed_cands_at d (k : Int)).foldl (pick d) b := by
  unfold claimed_cands_at
  rw [foldl_filter_eq]
  dsimp only [pll_body_unskipped, c_abs]
  simp only [ite_neg_eq_abs, abs_abs]
  simp only [List.foldl]
  simp [legal, pick, error, achieved]

/-- The loop without the skip is a fold of `pick` over its candidates. -/
theorem pll_loop_unskipped_eq_foldl (d : Int) (k : Nat) (b : Best) :
    pll_loop_unskipped d k b = (claimed_upto d k).foldl (pick d) b := by
  induction k generalizing b with
  | zero => rfl
  | succ k ih =>
    show pll_loop_unskipped d k (pll_body_unskipped d ((k + 1 : Nat) : Int) b) = _
    rw [ih, pll_body_unskipped_eq_foldl]
    show _ = (claimed_cands_at d ((k + 1 : Nat) : Int) ++ claimed_upto d k).foldl (pick d) b
    rw [List.foldl_append]

/-- The search without the skip is a fold of `pick` over the enumeration that
lists the doubled pair for every divisor. -/
theorem pll_search_unskipped_eq_foldl (d : Int) :
    pll_search_unskipped d = (claimed_enumeration d).foldl (pick d) best_init :=
  pll_loop_unskipped_eq_foldl d 15 best_init

/-- What the search without the skip tries at a divisor: legal multipliers,
doubler flag 0 or 1, and all that the search with the skip tries there. -/
theorem mem_claimed_cands_at (d m : Int) (c : Config) :
    (c ∈ claimed_cands_at d m → c.m = m ∧ legal c = true ∧ (c.dbl = 0 ∨ c.dbl = 1)) ∧
    (c ∈ cands_at d m → c ∈ claimed_cands_at d m) := by
  constructor
  · intro hc
    unfold claimed_cands_at at hc
    rw [List.mem_filter] at hc
    obtain ⟨hc, hl⟩ := hc
    simp only [List.mem_cons, List.mem_singleton, List.not_mem_nil, or_false] at hc
    rcases hc with rfl | rfl | rfl | rfl
    · exact ⟨rfl, hl, Or.inl rfl⟩
    · exact ⟨rfl, hl, Or.inl rfl⟩
    · exact ⟨rfl, hl, Or.inr rfl⟩
    · exact ⟨rfl, hl, Or.inr rfl⟩
  · intro hc
    unfold cands_at at hc
    unfold claimed_cands_at
    rw [List.mem_filter] at hc ⊢
    refine ⟨?_, hc.2⟩
    have h := hc.1
    rw [List.mem_append] at h
    rcases h with h | h
    · simp only [List.mem_cons, List.mem_singleton, List.not_mem_nil, or_false] at h ⊢
      rcases h with rfl | rfl
      · exact Or.inl rfl
      · exact Or.inr (Or.inl rfl)
    · split_ifs at h
      · simp only [List.mem_cons, List.mem_singleton, List.not_mem_nil, or_false] at h ⊢
        rcases h with rfl | rfl
        · exact Or.inr (Or.inr (Or.inl rfl))
        · exact Or.inr (Or.inr (Or.inr rfl))
      · exact absurd h (List.not_mem_nil _)

/-- Membership in the enumeration without the skip, divisor by divisor. -/
theorem mem_claimed_upto (d : Int) (k : Nat) (c : Config) :
    c ∈ claimed_upto d k ↔ ∃ m : Nat, 1 ≤ m ∧ m ≤ k ∧ c ∈ claimed_cands_at d (m : Int) := by
  induction k with
  | zero =>
    simp only [claimed_upto, List.not_mem_nil, false_iff]
    rintro ⟨m, h1, h2, -⟩
    omega
  | succ k ih =>
    simp only [claimed_upto, List.mem_append, ih]
    constructor
    · rintro (h | ⟨m, h1, h2, h3⟩)
      · exact ⟨k + 1, by omega, le_refl _, h⟩
      · exact ⟨m, h1, by omega, h3⟩
    · rintro ⟨m, h1, h2, h3⟩
      by_cases hm : m = k + 1
      · left; rw [← hm]; exact h3
      · right; exact ⟨m, h1, by omega, h3⟩

/-- The search without the skip tries everything the search tries. -/
theorem enumerated_sub_claimed (d : Int) (c : Config) (hc : c ∈ enumerated d) :
    c ∈ claimed_enumeration d := by
  obtain ⟨m, h1, h2, h3⟩ := (mem_enum_upto d 15 c).mp hc
  exact (mem_claimed_upto d 15 c).mpr ⟨m, h1, h2, (mem_claimed_cands_at d _ c).2 h3⟩

/-- Nothing the search without the skip tries beats the result of the search. -/
theorem search_le_claimed (d : Int) (hd : 20000 ≤ d ∧ d ≤ 400000) (c : Config)
    (hc : c ∈ claimed_enumeration d) : (pll_search d).best_diff ≤ error d c := by
  obtain ⟨m, h1, h2, h3⟩ := (mem_claimed_upto d 15 c).mp hc
  obtain ⟨hm, hl, hdbl⟩ := (mem_claimed_cands_at d _ c).1 h3
  have ho := search_optimal_tdiv d c.n c.m hd ⟨by omega, by omega⟩
  rw [← search_error_eq d hd.1 hd.2]
  unfold legal at hl
  unfold error
  rcases hdbl with h0 | h1
  · have e : achieved c = (3000 * c.n).tdiv c.m := by simp [achieved, h0]
    simp only [h0, ne_eq, not_true_eq_false, if_false, decide_eq_true_eq] at hl
    rw [e]
    exact ho.1 ⟨by omega, by omega⟩
  · have e : achieved c = (6000 * c.n).tdiv c.m := by simp [achieved, h1]
    simp +decide only [h1, ne_eq, if_true, decide_eq_true_eq, not_false_eq_true] at hl
    rw [e]
    exact ho.2 ⟨by omega, by omega⟩

/-- The least error found is the same with and without the skip. -/
theorem unskipped_best_diff (d : Int) (hd : 20000 ≤ d ∧ d ≤ 400000) :
    (pll_search_unskipped d).best_diff = (pll_search d).best_diff := by
  apply le_antisymm
  · have hmem := enumerated_sub_claimed d _ (search_chosen_mem d hd.1 hd.2)
    rw [← search_error_eq d hd.1 hd.2, pll_search_unskipped_eq_foldl]
    exact foldl_pick_le d _ _ _ hmem
  · rw [pll_search_unskipped_eq_foldl]
    rcases foldl_pick_spec d (claimed_enumeration d) best_init with
      ⟨h1, -⟩ | ⟨pre, c, post, hl, hr, -, -, -⟩
    · rw [h1]
      have := search_diff_small d hd.1 hd.2
      have e : best_init.best_diff = 0x0FFFFFFF := rfl
      rw [e]
      omega
    · rw [hr]
      show _ ≤ error d c
      apply search_le_claimed d hd
      rw [hl]
      exact List.mem_append_right _ (List.mem_cons_self _ _)

/-- A doubled configuration with an even divisor achieves the frequency of the
non-doubled one at half the divisor. -/
theorem doubled_even_duplicate (M N : Int) (hM : 2 ≤ M ∧ M ≤ 14 ∧ M % 2 = 0)
    (hN : 64 ≤ N ∧ N ≤ 127) :
    (6000 * N).tdiv M = (3000 * N).tdiv (M / 2) ∧
    achieved ⟨N, M, 1⟩ = achieved ⟨N, M / 2, 0⟩ ∧
    legal ⟨N, M / 2, 0⟩ = true ∧ 1 ≤ M / 2 ∧ M / 2 ≤ 15 := by
  obtain ⟨h2, h14, he⟩ := hM
  have e : (6000 * N).tdiv M = (3000 * N).tdiv (M / 2) := by
    rw [Int.tdiv_eq_ediv (by omega) (by omega), Int.tdiv_eq_ediv (by omega) (by omega)]
    obtain ⟨j, rfl⟩ : ∃ j, M = 2 * j := ⟨M / 2, by omega⟩
    have hj : 2 * j / 2 = j := by omega
    rw [hj]
    have : 6000 * N = 2 * (3000 * N) := by ring
    rw [this, Int.mul_ediv_mul_of_pos _ _ (by norm_num)]
  refine ⟨e, ?_, ?_, by omega, by omega⟩
  · simp only [achieved, ne_eq, one_ne_zero, not_false_eq_true, if_true, not_true_eq_false,
      if_false]
    exact e
  · simp only [legal, ne_eq, not_true_eq_false, if_false, decide_eq_true_eq]
    omega

/-- For an odd divisor the body without the skip is the body of the source. -/
theorem pll_body_unskipped_odd (d : Int) (k : Nat) (b : Best) (hk : (k : Int) % 2 = 1) :
    pll_body_unskipped d (k : Int) b = pll_body d (k : Int) b := by
  rw [pll_body_unskipped_eq_foldl, pll_body_eq_foldl]
  unfold claimed_cands_at cands_at
  rw [if_pos hk]
  rfl

/-- C22: the doubled configurations that the search skips are duplicates.  For
every even divisor `M` in 2..14 and every `N` in 64..127 the doubled frequency
`(6000 * N) / M` equals the non-doubled frequency `(3000 * N) / (M / 2)`
(truncating division), and `N`, `M / 2` is a legal non-doubled configuration;
hence for every target `d` with `20000 ≤ d ≤ 400000` the least error found by
the search of `sunxi_lcdc_pll_set` equals the least error found by the same
search with the skip removed. -/
theorem skipped_doubled_are_duplicates (d : Int) (hd : 20000 ≤ d ∧ d ≤ 400000) :
    (∀ M N : Int, 2 ≤ M ∧ M ≤ 14 ∧ M % 2 = 0 → 64 ≤ N ∧ N ≤ 127 →
      (6000 * N).tdiv M = (3000 * N).tdiv (M / 2) ∧
      achieved ⟨N, M, 1⟩ = achieved ⟨N, M / 2, 0⟩ ∧
      legal ⟨N, M / 2, 0⟩ = true ∧ 1 ≤ M / 2 ∧ M / 2 ≤ 15) ∧
    (pll_search_unskipped d).best_diff = (pll_search d).best_diff :=
  ⟨fun M N hM hN => doubled_even_duplicate M N hM hN, unskipped_best_diff d hd⟩

set_option maxRecDepth 100000 in
/-- C22, witness: the target 27402 is in range; with the skip removed the search
ends on `M = 14`, `N = 64`, doubled, the search of the source on `M = 7`,
`N = 64`, not doubled, and both have the error 26. -/
theorem skipped_doubled_are_duplicates_witness :
    ((20000 : Int) ≤ 27402 ∧ (27402 : Int) ≤ 400000) ∧
    (pll_search_unskipped 27402).best_diff = (pll_search 27402).best_diff ∧
    chosen (pll_search_unskipped 27402) = ⟨64, 14, 1⟩ ∧
    chosen (pll_search 27402) = ⟨64, 7, 0⟩ ∧ (pll_search 27402).best_diff = 26 :=
  ⟨by decide, (skipped_doubled_are_duplicates 27402 (by decide)).2, by decide, by decide,
    by decide⟩

end Sunxi
